import Mathlib

/-!
# ExportGaussNewtonGeneric: the Gauss-Newton NLP-solver generator of ACADO

A shallow embedding of `src/acado/code_generation/export_gauss_newton_generic.cpp`.
The generator computes array dimensions with C++ `unsigned` arithmetic, which is
embedded as arithmetic on `Nat` reduced modulo `2^32` after every operation.
-/

namespace Acado

/-! ## Machine arithmetic -/

/-- Value of a C++ `unsigned` expression whose mathematical value is `n`. -/
def u32 (n : Nat) : Nat := n % 4294967296

/-! ## Problem configuration -/

/-- An exported symbolic function (`ExportAcadoFunction`): its name and the
total width of its output, `getFunctionDim()`. -/
structure ExportAcadoFunction where
  name : String
  functionDim : Nat
  deriving DecidableEq

/-- The members and options of the solver object that the generator reads:
the dimensions (C++ `unsigned` members), the values of `initialStateFixed()`
and of the options `CG_USE_ARRIVAL_COST` and `CG_HARDCODE_CONSTRAINT_VALUES`,
the path-constraint dimension `dimPacH` and the vector
`evaluatePointConstraints` (entry `i` is `none` for a null pointer). -/
structure Config where
  N : Nat
  NX : Nat
  NU : Nat
  NY : Nat := 0
  NYN : Nat := 0
  NOD : Nat := 0
  initialStateFixed : Bool := true
  useArrivalCost : Bool := false
  hardcodeConstraintValues : Bool := true
  dimPacH : Nat := 0
  evaluatePointConstraints : Nat → Option ExportAcadoFunction := fun _ => none

/-- The numerical bound data held by the solver object: `uBounds` and
`xBounds` (an unconfigured node yields the empty vector), the path-constraint
bound columns and the per-node point-constraint bound stacks. -/
structure BoundData (α : Type) where
  uLowerBounds : Nat → List α
  uUpperBounds : Nat → List α
  xLowerBounds : Nat → List α
  xUpperBounds : Nat → List α
  lbPathConValues : List α
  ubPathConValues : List α
  pocLbStack : Nat → List α
  pocUbStack : Nat → List α

/-- The function `ExportGaussNewtonGeneric::getNumQPvars`. -/
def getNumQPvars (c : Config) : Nat :=
  if c.initialStateFixed = true then
    u32 (u32 (c.N * c.NX) + u32 (c.N * c.NU))
  else
    u32 (u32 (u32 (c.N + 1) * c.NX) + u32 (c.N * c.NU))

/-! ## Generator loops -/

/-- The loop `for (unsigned i = lo; i < hi; ++i) body`, threading the state. -/
def forLoop {σ : Type} (lo hi : Nat) (body : Nat → σ → σ) (s : σ) : σ :=
  (List.range' lo (hi - lo)).foldl (fun acc i => body i acc) s

/-- The statement `v[i] += d` on a `std::vector<unsigned>`. -/
def addAt (v : List Nat) (i d : Nat) : List Nat :=
  v.set i (u32 (v.getD i 0 + d))

/-! ## setupConstraintsEvaluation: box bounds -/

/-- The pair of vectors `lbValues`, `ubValues` being stacked. -/
structure BoundStack (α : Type) where
  lbValues : List α
  ubValues : List α

/-- One pass of a bound-stacking loop body: append the configured bound of the
node, or the infinite bound when the configured one has dimension zero. -/
def appendBounds {α : Type} (lbTmp ubTmp lbInf ubInf : List α) (s : BoundStack α) :
    BoundStack α :=
  { lbValues := if lbTmp.length = 0 then s.lbValues ++ lbInf else s.lbValues ++ lbTmp
    ubValues := if ubTmp.length = 0 then s.ubValues ++ ubInf else s.ubValues ++ ubTmp }

/-- Lines 534-584 of `setupConstraintsEvaluation`: stack the input bounds of
nodes `0..N-1`, then the state bounds of nodes `1..N`. `INFTY` is the constant
of that name. -/
def stackBoxBounds {α : Type} [Neg α] (INFTY : α) (c : Config) (b : BoundData α) :
    BoundStack α :=
  let lbXInf := List.replicate c.NX (-INFTY)
  let ubXInf := List.replicate c.NX INFTY
  let lbUInf := List.replicate c.NU (-INFTY)
  let ubUInf := List.replicate c.NU INFTY
  let s0 : BoundStack α := { lbValues := [], ubValues := [] }
  let s1 := forLoop 0 c.N
    (fun node s => appendBounds (b.uLowerBounds node) (b.uUpperBounds node) lbUInf ubUInf s) s0
  forLoop 1 (u32 (c.N + 1))
    (fun node s => appendBounds (b.xLowerBounds node) (b.xUpperBounds node) lbXInf ubXInf s) s1

/-- The row count `N * NU + N * NX` passed to `qpLb.setup` and `qpUb.setup`. -/
def boxBoundRows (c : Config) : Nat :=
  u32 (u32 (c.N * c.NU) + u32 (c.N * c.NX))

/-! ## setupConstraintsEvaluation: path and point constraint dimensions -/

/-- The dimension bookkeeping members written by lines 620-646. -/
structure ConstraintDims where
  qpDimHtot : Nat
  qpDimH : Nat
  qpDimHN : Nat
  qpConDim : List Nat

/-- The quotient `getFunctionDim() / (1 + NX + NU)` taken at an interior node. -/
def interiorDim (c : Config) (f : ExportAcadoFunction) : Nat :=
  f.functionDim / u32 (u32 (1 + c.NX) + c.NU)

/-- The quotient `getFunctionDim() / (1 + NX)` taken at the terminal node. -/
def terminalDim (c : Config) (f : ExportAcadoFunction) : Nat :=
  f.functionDim / u32 (1 + c.NX)

/-- Body of the loop at lines 625-626: `qpConDim[ i ] += dimPacH`. -/
def addPathDim (c : Config) (i : Nat) (s : ConstraintDims) : ConstraintDims :=
  { s with qpConDim := addAt s.qpConDim i c.dimPacH }

/-- Body of the loop at lines 628-637: a node with a point constraint adds its
dimension to `qpDimHtot`, `qpDimH` and `qpConDim[ i ]`. -/
def addPointDim (c : Config) (i : Nat) (s : ConstraintDims) : ConstraintDims :=
  match c.evaluatePointConstraints i with
  | none => s
  | some f =>
    { s with
      qpDimHtot := u32 (s.qpDimHtot + interiorDim c f)
      qpDimH := u32 (s.qpDimH + interiorDim c f)
      qpConDim := addAt s.qpConDim i (interiorDim c f) }

/-- Lines 639-646: the terminal point constraint adds its dimension to
`qpDimHtot`, `qpDimHN` and `qpConDim[ N ]`. -/
def addTerminalDim (c : Config) (s : ConstraintDims) : ConstraintDims :=
  match c.evaluatePointConstraints c.N with
  | none => s
  | some f =>
    { s with
      qpDimHtot := u32 (s.qpDimHtot + terminalDim c f)
      qpDimHN := u32 (s.qpDimHN + terminalDim c f)
      qpConDim := addAt s.qpConDim c.N (terminalDim c f) }

/-- Lines 620-646 of `setupConstraintsEvaluation`. `qpConDim` is empty before
the call, so `resize(N + 1, 0)` yields `N + 1` zeros. -/
def setupConstraintDims (c : Config) : ConstraintDims :=
  let s0 : ConstraintDims :=
    { qpDimHtot := u32 (c.N * c.dimPacH)
      qpDimH := u32 (c.N * c.dimPacH)
      qpDimHN := 0
      qpConDim := List.replicate (u32 (c.N + 1)) 0 }
  let s1 := forLoop 0 c.N (addPathDim c) s0
  let s2 := forLoop 0 c.N (addPointDim c) s1
  addTerminalDim c s2

/-! ## Exported variables and statements -/

/-- The element types of an exported variable that the generator names. -/
inductive ExportType where
  | INT
  | REAL
  | STATIC_CONST_REAL
  deriving DecidableEq

/-- The data structures an exported variable can live in. -/
inductive ExportStruct where
  | ACADO_VARIABLES
  | ACADO_WORKSPACE
  | ACADO_LOCAL
  deriving DecidableEq

/-- An `ExportVariable` holding a column vector: name, shape, element type,
data structure and, when it is given, its numerical content. -/
structure ExportVariable (α : Type) where
  name : String
  nRows : Nat
  nCols : Nat
  type : ExportType
  dataStruct : ExportStruct
  given : Option (List α)
  deriving DecidableEq

/-- The call `v.setup(name, nRows, nCols, type, dataStruct)`. -/
def ExportVariable.setup {α : Type} (name : String) (nRows nCols : Nat)
    (type : ExportType) (dataStruct : ExportStruct) : ExportVariable α :=
  { name := name, nRows := nRows, nCols := nCols, type := type,
    dataStruct := dataStruct, given := none }

/-- The call `v.setup(name, data, type, dataStruct)` with a numerical vector:
the variable is given and takes the shape of the data. -/
def ExportVariable.setupData {α : Type} (name : String) (data : List α)
    (type : ExportType) (dataStruct : ExportStruct) : ExportVariable α :=
  { name := name, nRows := data.length, nCols := 1, type := type,
    dataStruct := dataStruct, given := some data }

/-- The statement `lhs == data` assigning a numerical vector to a variable. -/
structure AssignData (α : Type) where
  lhs : ExportVariable α
  rhs : List α
  deriving DecidableEq

/-- Status codes: success, and the error codes. -/
inductive returnValue where
  | SUCCESSFUL_RETURN
  | RET_ERROR (code : Nat)
  deriving DecidableEq

/-! ## setupConstraintsEvaluation: allocation of the bound arrays -/

/-- What lines 529-661 of `setupConstraintsEvaluation` leave in the solver
object: the dimension members, the QP bound arrays, the box bound-value arrays
and the statements appended to `initialize` for them; `status` is the value
returned at line 871. -/
structure ConstraintsSetup (α : Type) where
  status : returnValue
  dims : ConstraintDims
  qpLb : ExportVariable α
  qpUb : ExportVariable α
  evLbValues : ExportVariable α
  evUbValues : ExportVariable α
  qpLbA : ExportVariable α
  qpUbA : ExportVariable α
  qpMu : ExportVariable α
  initializeStmts : List (AssignData α)

/-- The function `ExportGaussNewtonGeneric::setupConstraintsEvaluation`: the box
bounds, the dimension members and the allocations (lines 529-661). The affine
bound values of lines 663-697 are `setupAffineBoundValues`. -/
def setupConstraintsEvaluation {α : Type} [Neg α] (INFTY : α) (c : Config)
    (b : BoundData α) : ConstraintsSetup α :=
  let box := stackBoxBounds INFTY c b
  let qpLb : ExportVariable α :=
    ExportVariable.setup "qpLb" (boxBoundRows c) 1 .REAL .ACADO_WORKSPACE
  let qpUb : ExportVariable α :=
    ExportVariable.setup "qpUb" (boxBoundRows c) 1 .REAL .ACADO_WORKSPACE
  let evLbValues : ExportVariable α :=
    if c.hardcodeConstraintValues = true then
      ExportVariable.setupData "evLbValues" box.lbValues .STATIC_CONST_REAL .ACADO_LOCAL
    else
      ExportVariable.setup "lbValues" (boxBoundRows c) 1 .REAL .ACADO_VARIABLES
  let evUbValues : ExportVariable α :=
    if c.hardcodeConstraintValues = true then
      ExportVariable.setupData "evUbValues" box.ubValues .STATIC_CONST_REAL .ACADO_LOCAL
    else
      ExportVariable.setup "ubValues" (boxBoundRows c) 1 .REAL .ACADO_VARIABLES
  let init1 : List (AssignData α) :=
    if c.hardcodeConstraintValues = true then []
    else [{ lhs := evLbValues, rhs := box.lbValues }, { lhs := evUbValues, rhs := box.ubValues }]
  let dims := setupConstraintDims c
  let qpLbA : ExportVariable α :=
    if dims.qpDimHtot ≠ 0 then
      ExportVariable.setup "qpLbA" dims.qpDimHtot 1 .REAL .ACADO_WORKSPACE
    else
      ExportVariable.setup "qpLbA" 1 1 .REAL .ACADO_WORKSPACE
  let qpUbA : ExportVariable α :=
    if dims.qpDimHtot ≠ 0 then
      ExportVariable.setup "qpUbA" dims.qpDimHtot 1 .REAL .ACADO_WORKSPACE
    else
      ExportVariable.setup "qpUbA" 1 1 .REAL .ACADO_WORKSPACE
  let qpMu : ExportVariable α :=
    if dims.qpDimHtot ≠ 0 then
      ExportVariable.setup "qpMu"
        (u32 (u32 (u32 (2 * c.N) * u32 (c.NX + c.NU)) + u32 (2 * dims.qpDimHtot)))
        1 .REAL .ACADO_WORKSPACE
    else
      ExportVariable.setup "qpMu" (u32 (u32 (2 * c.N) * u32 (c.NX + c.NU)))
        1 .REAL .ACADO_WORKSPACE
  { status := .SUCCESSFUL_RETURN
    dims := dims
    qpLb := qpLb
    qpUb := qpUb
    evLbValues := evLbValues
    evUbValues := evUbValues
    qpLbA := qpLbA
    qpUbA := qpUbA
    qpMu := qpMu
    initializeStmts := init1 }

/-! ## setupConstraintsEvaluation: the affine bound values -/

/-- The rows `start .. start + len` of a column (`block(start, 0, len, 1)`). The
block has to lie inside the column: otherwise the code has no defined result
and the value is `none`. -/
def block {α : Type} (v : List α) (start len : Nat) : Option (List α) :=
  if start + len ≤ v.length then some ((v.drop start).take len) else none

/-- Body of the loop at lines 669-678 for node `i`: append the path-constraint
block of the node (when there are path constraints), then its point-constraint
bounds. `none` stands for a block read outside the bound matrices. -/
def stackAffineStep {α : Type} (c : Config) (b : BoundData α) (i : Nat)
    (s : Option (BoundStack α)) : Option (BoundStack α) :=
  match s with
  | none => none
  | some s =>
    let s' : Option (BoundStack α) :=
      if c.dimPacH ≠ 0 then
        match block b.lbPathConValues (u32 (i * c.dimPacH)) c.dimPacH,
          block b.ubPathConValues (u32 (i * c.dimPacH)) c.dimPacH with
        | some lb, some ub =>
          some { lbValues := s.lbValues ++ lb, ubValues := s.ubValues ++ ub }
        | _, _ => none
      else some s
    match s' with
    | none => none
    | some t =>
      some { lbValues := t.lbValues ++ b.pocLbStack i
             ubValues := t.ubValues ++ b.pocUbStack i }

/-- Lines 666-680 of `setupConstraintsEvaluation`: stack the affine bound
values, per node the path-constraint block followed by the point-constraint
bounds, the terminal point-constraint bounds last. -/
def stackAffineBounds {α : Type} (c : Config) (b : BoundData α) : Option (BoundStack α) :=
  match forLoop 0 c.N (stackAffineStep c b) (some { lbValues := [], ubValues := [] }) with
  | none => none
  | some s =>
    some { lbValues := s.lbValues ++ b.pocLbStack c.N
           ubValues := s.ubValues ++ b.pocUbStack c.N }

/-- The affine bound-value arrays and the statements appended to `initialize`
for them. -/
structure AffineBoundValues (α : Type) where
  evLbAValues : ExportVariable α
  evUbAValues : ExportVariable α
  initializeStmts : List (AssignData α)
  deriving DecidableEq

/-- Lines 663-697 of `setupConstraintsEvaluation`: the affine bound values are
stacked and the arrays `evLbAValues`, `evUbAValues` set up from them;
`none` when a block read leaves the bound matrices. -/
def setupAffineBoundValues {α : Type} (c : Config) (b : BoundData α) :
    Option (AffineBoundValues α) :=
  match stackAffineBounds c b with
  | none => none
  | some aff =>
    let dims := setupConstraintDims c
    let constA : Bool := c.hardcodeConstraintValues || (dims.qpDimHtot == 0)
    let evLbAValues : ExportVariable α :=
      if constA = true then
        ExportVariable.setupData "lbAValues" aff.lbValues .STATIC_CONST_REAL .ACADO_LOCAL
      else
        ExportVariable.setup "lbAValues" dims.qpDimHtot 1 .REAL .ACADO_VARIABLES
    let evUbAValues : ExportVariable α :=
      if constA = true then
        ExportVariable.setupData "ubAValues" aff.ubValues .STATIC_CONST_REAL .ACADO_LOCAL
      else
        ExportVariable.setup "ubAValues" dims.qpDimHtot 1 .REAL .ACADO_VARIABLES
    let init2 : List (AssignData α) :=
      if constA = true then []
      else
        [{ lhs := evLbAValues, rhs := aff.lbValues },
         { lhs := evUbAValues, rhs := aff.ubValues }]
    some { evLbAValues := evLbAValues, evUbAValues := evUbAValues, initializeStmts := init2 }

/-! ## setupObjectiveEvaluation: Levenberg-Marquardt damping of given blocks

Numbers of the generated code (`double`) are elements of a linearly ordered
ring `R`; matrices are `Matrix (Fin m) (Fin n) R`. -/

/-- The matrix `eye<double>( n )`. -/
def eye {R : Type} [LinearOrderedRing R] (n : Nat) : Matrix (Fin n) (Fin n) R :=
  Matrix.of (fun i j => if i = j then 1 else 0)

/-- The matrix `zeros<double>(m, n)`. -/
def zeros {R : Type} [LinearOrderedRing R] (m n : Nat) : Matrix (Fin m) (Fin n) R :=
  Matrix.of (fun _ _ => 0)

/-- Lines 241-254: the damping matrix `evLmX` (for `n = NX`) or `evLmU` (for
`n = NU`): zero, replaced by `eye(n) * levenbergMarquardt` when
`levenbergMarquardt > 0.0`. -/
def evLm {R : Type} [LinearOrderedRing R] (n : Nat) (levenbergMarquardt : R) :
    Matrix (Fin n) (Fin n) R :=
  if levenbergMarquardt > 0 then
    Matrix.of (fun i j => (eye n : Matrix (Fin n) (Fin n) R) i j * levenbergMarquardt)
  else zeros n n

/-- The Hessian weighting blocks `Q1`, `R1`, `QN1`: `some M` for a given block
with matrix `M` (`isGiven()`, `getGivenMatrix()`), `none` for a block computed
at run time. -/
structure HessianBlocks (R : Type) (NX NU : Nat) where
  Q1 : Option (Matrix (Fin NX) (Fin NX) R)
  R1 : Option (Matrix (Fin NU) (Fin NU) R)
  QN1 : Option (Matrix (Fin NX) (Fin NX) R)

/-- The branch `if (B.isGiven() == false) ... else if (levenbergMarquardt > 0.0)
B = B.getGivenMatrix() + evLm.getGivenMatrix();` applied to one block. -/
def dampGiven {R : Type} [LinearOrderedRing R] {n : Nat} (levenbergMarquardt : R)
    (B : Option (Matrix (Fin n) (Fin n) R)) : Option (Matrix (Fin n) (Fin n) R) :=
  match B with
  | none => none
  | some M => if levenbergMarquardt > 0 then some (M + evLm n levenbergMarquardt) else some M

/-- The blocks `Q1`, `R1`, `QN1` after `setupObjectiveEvaluation` (lines 241-254,
318-338, 340-360, 397-420). -/
def setupObjectiveEvaluation {R : Type} [LinearOrderedRing R] {NX NU : Nat}
    (levenbergMarquardt : R) (w : HessianBlocks R NX NU) : HessianBlocks R NX NU :=
  { Q1 := dampGiven levenbergMarquardt w.Q1
    R1 := dampGiven levenbergMarquardt w.R1
    QN1 := dampGiven levenbergMarquardt w.QN1 }

/-! ## The emitted getKKT routine -/

/-- The arrays read by the emitted `getKKT`. -/
structure KKTArrays (R : Type) where
  qpq : Nat → R
  qpqf : Nat → R
  qpr : Nat → R
  qpx : Nat → R
  qpu : Nat → R
  d : Nat → R
  qpLambda : Nat → R
  qpLb : Nat → R
  qpUb : Nat → R
  qpLbA : Nat → R
  qpUbA : Nat → R
  qpMu : Nat → R

/-- The product `a ^ b` (transpose of `a` times `b`) of two columns of `n` rows. -/
def dot {R : Type} [LinearOrderedRing R] (a b : Nat → R) (n : Nat) : R :=
  forLoop 0 n (fun i acc => acc + a i * b i) 0

/-- The emitted loop `for (index = 0; index < n; ++index) kkt += fabs(a[index] *
m[index + off]);`. -/
def kktLoop {R : Type} [LinearOrderedRing R] (n : Nat) (a m : Nat → R) (off : Nat)
    (kkt : R) : R :=
  forLoop 0 n (fun index acc => acc + |a index * m (index + off)|) kkt

/-- The routine `getKKT` emitted by lines 1027-1070 of `setupEvaluation`, run on
the arrays `v`; `qpDimHtot` is the member set by `setupConstraintsEvaluation`. -/
def getKKT {R : Type} [LinearOrderedRing R] (c : Config) (qpDimHtot : Nat)
    (v : KKTArrays R) : R :=
  let kkt : R := 0
  let tmp := dot v.qpq v.qpx (u32 (c.N * c.NX))
  let kkt := kkt + |tmp|
  let tmp := dot v.qpqf (fun i => v.qpx (u32 (c.N * c.NX) + i)) c.NX
  let kkt := kkt + |tmp|
  let tmp := dot v.qpr v.qpu (u32 (c.NU * c.N))
  let kkt := kkt + |tmp|
  let kkt := kktLoop (u32 (c.N * c.NX)) v.d v.qpLambda 0 kkt
  if c.initialStateFixed = true then
    let nBox := u32 (u32 (c.N * c.NU) + u32 (c.N * c.NX))
    let offA := u32 (u32 (2 * c.N) * u32 (c.NU + c.NX))
    let kkt := kktLoop nBox v.qpLb v.qpMu 0 kkt
    let kkt := kktLoop nBox v.qpUb v.qpMu nBox kkt
    let kkt := kktLoop qpDimHtot v.qpLbA v.qpMu offA kkt
    kktLoop qpDimHtot v.qpUbA v.qpMu (offA + qpDimHtot) kkt
  else kkt

/-! ## Exported functions -/

/-- An argument or return value of an exported function. -/
structure ExportArgument where
  name : String
  type : ExportType
  deriving DecidableEq

/-- The statements of the routines modelled here. -/
inductive Statement where
  | assign (lhs : String) (value : Int)
  | assignCall (lhs : String) (callee : String)
  | functionCall (callee : String)
  deriving DecidableEq

/-- An `ExportFunction`. A default-constructed one is not defined; `init` and
`setup` define it. -/
structure ExportFunction where
  defined : Bool := false
  name : String := ""
  arguments : List ExportArgument := []
  returnValue : Option ExportArgument := none
  statements : List Statement := []
  deriving DecidableEq

/-- Lines 59-76 of `setup`: the member `updateArrivalCost` is initialised only
when the option `CG_USE_ARRIVAL_COST` is `YES`. -/
def setupArrivalCost (c : Config) : ExportFunction :=
  if c.useArrivalCost = true then
    { defined := true
      name := "updateArrivalCost"
      arguments := [{ name := "reset", type := .INT }]
      returnValue := some { name := "ret", type := .INT }
      statements := [.assign "ret" 0] }
  else {}

/-- The `ExportFunction` members of the solver object. -/
structure SolverFunctions where
  modelSimulation : ExportFunction
  evaluateStageCost : ExportFunction
  evaluateTerminalCost : ExportFunction
  setObjQ1Q2 : ExportFunction
  setObjR1R2 : ExportFunction
  setObjS1 : ExportFunction
  setObjQN1QN2 : ExportFunction
  setStagef : ExportFunction
  evaluateObjective : ExportFunction
  evaluatePathConstraints : ExportFunction
  setStagePac : ExportFunction
  evaluateConstraints : ExportFunction
  acc : ExportFunction
  preparation : ExportFunction
  feedback : ExportFunction
  initializeSolver : ExportFunction
  initializeNodes : ExportFunction
  shiftStates : ExportFunction
  shiftControls : ExportFunction
  getKKT : ExportFunction
  getObjective : ExportFunction
  updateArrivalCost : ExportFunction

/-- The entries of an `ExportStatementBlock` filled by `getCode` and
`getFunctionDeclarations`. -/
inductive CodeEntry where
  | linebreak (n : Nat)
  | text (s : String)
  | variableDeclaration (name : String)
  | function (f : ExportFunction)
  | acadoFunction (f : ExportAcadoFunction)
  | functionDeclaration (f : ExportFunction)
  deriving DecidableEq

/-- Modelled from the spec: `ExportStatementBlock::addFunction` is not in the
sources. The specification has a routine in the output only when the generator
built it (the arrival-cost routine is "present only if `useArrivalCost`"), so a
function that was never set up contributes no body. -/
def addFunction (f : ExportFunction) : List CodeEntry :=
  if f.defined = true then [.function f] else []

/-- Modelled from the spec: `ExportStatementBlock::addDeclaration` for functions
is not in the sources. As for `addFunction`, a function that was never set up
contributes no declaration. -/
def addDeclaration (f : ExportFunction) : List CodeEntry :=
  if f.defined = true then [.functionDeclaration f] else []

/-- The function `ExportGaussNewtonGeneric::getFunctionDeclarations`. -/
def getFunctionDeclarations (fs : SolverFunctions) : List CodeEntry :=
  addDeclaration fs.preparation ++
  addDeclaration fs.feedback ++
  addDeclaration fs.initializeSolver ++
  addDeclaration fs.initializeNodes ++
  addDeclaration fs.shiftStates ++
  addDeclaration fs.shiftControls ++
  addDeclaration fs.getKKT ++
  addDeclaration fs.getObjective ++
  addDeclaration fs.evaluateStageCost ++
  addDeclaration fs.evaluateTerminalCost ++
  addDeclaration fs.updateArrivalCost

/-- The loop of `getCode` over `evaluatePointConstraints`, a vector of `size`
entries: null entries are skipped. -/
def addPointConstraintFunctions (size : Nat) (epc : Nat → Option ExportAcadoFunction) :
    List CodeEntry :=
  forLoop 0 size
    (fun i code =>
      match epc i with
      | none => code
      | some f => code ++ [.acadoFunction f]) []

/-- The function `ExportGaussNewtonGeneric::getCode`; `useOMP` is the option `CG_USE_OPENMP`
and `pointSize` is `evaluatePointConstraints.size()`. -/
def getCode (c : Config) (useOMP : Bool) (pointSize : Nat) (fs : SolverFunctions) :
    List CodeEntry :=
  [.linebreak 2,
   .text "/******************************************************************************/\n",
   .text "/*                                                                            */\n",
   .text "/* ACADO code generation                                                      */\n",
   .text "/*                                                                            */\n",
   .text "/******************************************************************************/\n",
   .linebreak 2] ++
  (if useOMP = true then [.variableDeclaration "state"] else []) ++
  addFunction fs.modelSimulation ++
  addFunction fs.evaluateStageCost ++
  addFunction fs.evaluateTerminalCost ++
  addFunction fs.setObjQ1Q2 ++
  addFunction fs.setObjR1R2 ++
  addFunction fs.setObjS1 ++
  addFunction fs.setObjQN1QN2 ++
  addFunction fs.setStagef ++
  addFunction fs.evaluateObjective ++
  addFunction fs.evaluatePathConstraints ++
  addPointConstraintFunctions pointSize c.evaluatePointConstraints ++
  addFunction fs.setStagePac ++
  addFunction fs.evaluateConstraints ++
  addFunction fs.acc ++
  addFunction fs.preparation ++
  addFunction fs.feedback ++
  addFunction fs.initializeSolver ++
  addFunction fs.initializeNodes ++
  addFunction fs.shiftStates ++
  addFunction fs.shiftControls ++
  addFunction fs.getKKT ++
  addFunction fs.getObjective ++
  (if c.useArrivalCost = true then addFunction fs.updateArrivalCost else [])

/-! ## The emitted preparation routine -/

/-- Lines 915-925 of `setupEvaluation`: the routine `preparation`.
`modelSimulationName` is `modelSimulation.getName()`. -/
def setupPreparation (modelSimulationName : String) : ExportFunction :=
  { defined := true
    name := "preparationStep"
    arguments := []
    returnValue := some { name := "ret", type := .INT }
    statements :=
      [.assignCall "ret" modelSimulationName,
       .functionCall "evaluateObjective",
       .functionCall "evaluateConstraints"] }

/-- The state of a running routine: its local integer variables and the calls
it has made so far, oldest first. -/
structure RunState where
  locals : String → Int
  calls : List String

/-- Execution of one statement; `status callee` is the value the routine
`callee` returns. A called routine cannot write the caller's locals. -/
def execStatement (status : String → Int) (s : RunState) (st : Statement) : RunState :=
  match st with
  | .assign lhs value =>
    { s with locals := fun x => if x = lhs then value else s.locals x }
  | .assignCall lhs callee =>
    { locals := fun x => if x = lhs then status callee else s.locals x
      calls := s.calls ++ [callee] }
  | .functionCall callee =>
    { s with calls := s.calls ++ [callee] }

/-- Execution of an exported function: the value it returns (none for a
function without return value) and the calls it made, in order. -/
def ExportFunction.run (status : String → Int) (f : ExportFunction) :
    Option Int × List String :=
  let s := f.statements.foldl (execStatement status) { locals := fun _ => 0, calls := [] }
  (f.returnValue.map (fun r => s.locals r.name), s.calls)

/-! ## setupVariables -/

/-- The members written by `setupVariables`: `none` is a member that is not
set up (it stays default-constructed, of dimension zero). -/
structure VariablesSetup (α : Type) where
  status : returnValue
  x0 : Option (ExportVariable α)
  xAC : Option (ExportVariable α)
  DxAC : Option (ExportVariable α)
  SAC : Option (ExportVariable α)
  sigmaN : Option (ExportVariable α)

/-- The function `ExportGaussNewtonGeneric::setupVariables` (lines 875-891), run
on members that have not been set up before. -/
def setupVariables {α : Type} (c : Config) : VariablesSetup α :=
  if c.initialStateFixed = true then
    { status := .SUCCESSFUL_RETURN
      x0 := some (ExportVariable.setup "x0" c.NX 1 .REAL .ACADO_VARIABLES)
      xAC := none
      DxAC := none
      SAC := none
      sigmaN := none }
  else
    { status := .SUCCESSFUL_RETURN
      x0 := none
      xAC := some (ExportVariable.setup "xAC" c.NX 1 .REAL .ACADO_VARIABLES)
      DxAC := some (ExportVariable.setup "DxAC" c.NX 1 .REAL .ACADO_WORKSPACE)
      SAC := some (ExportVariable.setup "SAC" c.NX c.NX .REAL .ACADO_VARIABLES)
      sigmaN := some (ExportVariable.setup "sigmaN" c.NX c.NX .REAL .ACADO_VARIABLES) }

/-- The value of `getDim()`: rows times columns, zero for a member that is not
set up. -/
def getDim {α : Type} (v : Option (ExportVariable α)) : Nat :=
  match v with
  | none => 0
  | some w => u32 (w.nRows * w.nCols)

/-! ## The emitted routines setObjQ1Q2, setObjR1R2, setObjS1, setObjQN1QN2 -/

/-- The routine `setObjQ1Q2` (lines 324-327): from `tmpFx` and `tmpObjS` it
computes `tmpQ2 = tmpFx ^ tmpObjS` (transpose of `tmpFx` times `tmpObjS`),
`tmpQ1 = tmpQ2 * tmpFx` and `tmpQ1 += evLmX`; the result is `(tmpQ1, tmpQ2)`. -/
def setObjQ1Q2 {R : Type} [LinearOrderedRing R] {NX NY : Nat} (levenbergMarquardt : R)
    (tmpFx : Matrix (Fin NY) (Fin NX) R) (tmpObjS : Matrix (Fin NY) (Fin NY) R) :
    Matrix (Fin NX) (Fin NX) R × Matrix (Fin NX) (Fin NY) R :=
  let tmpQ2 := tmpFx.transpose * tmpObjS
  let tmpQ1 := tmpQ2 * tmpFx
  let tmpQ1 := tmpQ1 + evLm NX levenbergMarquardt
  (tmpQ1, tmpQ2)

/-- The routine `setObjR1R2` (lines 346-349); the result is `(tmpR1, tmpR2)`. -/
def setObjR1R2 {R : Type} [LinearOrderedRing R] {NU NY : Nat} (levenbergMarquardt : R)
    (tmpFu : Matrix (Fin NY) (Fin NU) R) (tmpObjS : Matrix (Fin NY) (Fin NY) R) :
    Matrix (Fin NU) (Fin NU) R × Matrix (Fin NU) (Fin NY) R :=
  let tmpR2 := tmpFu.transpose * tmpObjS
  let tmpR1 := tmpR2 * tmpFu
  let tmpR1 := tmpR1 + evLm NU levenbergMarquardt
  (tmpR1, tmpR2)

/-- The routine `setObjS1` (lines 370-373); the result is `tmpS1`. -/
def setObjS1 {R : Type} [LinearOrderedRing R] {NX NU NY : Nat}
    (tmpFx : Matrix (Fin NY) (Fin NX) R) (tmpFu : Matrix (Fin NY) (Fin NU) R)
    (tmpObjS : Matrix (Fin NY) (Fin NY) R) : Matrix (Fin NX) (Fin NU) R :=
  let tmpS2 := tmpFx.transpose * tmpObjS
  let tmpS1 := tmpS2 * tmpFu
  tmpS1

/-- The routine `setObjQN1QN2` (lines 403-406); the result is `(tmpQN1, tmpQN2)`. -/
def setObjQN1QN2 {R : Type} [LinearOrderedRing R] {NX NYN : Nat} (levenbergMarquardt : R)
    (tmpFxEnd : Matrix (Fin NYN) (Fin NX) R) (tmpObjSEndTerm : Matrix (Fin NYN) (Fin NYN) R) :
    Matrix (Fin NX) (Fin NX) R × Matrix (Fin NX) (Fin NYN) R :=
  let tmpQN2 := tmpFxEnd.transpose * tmpObjSEndTerm
  let tmpQN1 := tmpQN2 * tmpFxEnd
  let tmpQN1 := tmpQN1 + evLm NX levenbergMarquardt
  (tmpQN1, tmpQN2)

/-! ## The emitted evaluateConstraints: box bounds -/

/-- The arrays `qpLb` and `qpUb`. -/
structure BoxArrays (R : Type) where
  qpLb : Nat → R
  qpUb : Nat → R

/-- The emitted assignment `dst.getRows(a, b) == s1.getRows(a1, ..) -
s2.getRows(a2, ..)` on arrays in memory order: row `a + k` of `dst` becomes row
`a1 + k` of `s1` minus row `a2 + k` of `s2`, for `a + k < b`. -/
def assignDiffRows {R : Type} [LinearOrderedRing R] (dst : Nat → R) (a b : Nat)
    (s1 : Nat → R) (a1 : Nat) (s2 : Nat → R) (a2 : Nat) : Nat → R :=
  fun j => if a ≤ j ∧ j < b then s1 (a1 + (j - a)) - s2 (a2 + (j - a)) else dst j

/-- The four statements added to `evaluateConstraints` at lines 606-610.
`u` and `x` are `u.makeColVector()` and `x.makeColVector()`, the trajectories
in memory (row-major) order; `evLbValues` and `evUbValues` hold the stacked
bound values. -/
def evaluateConstraintsBox {R : Type} [LinearOrderedRing R] (c : Config)
    (evLbValues evUbValues u x : Nat → R) (s : BoxArrays R) : BoxArrays R :=
  let nU := u32 (c.N * c.NU)
  let nB := u32 (u32 (c.N * c.NU) + u32 (c.N * c.NX))
  let qpLb := assignDiffRows s.qpLb 0 nU evLbValues 0 u 0
  let qpUb := assignDiffRows s.qpUb 0 nU evUbValues 0 u 0
  let qpLb := assignDiffRows qpLb nU nB evLbValues nU x c.NX
  let qpUb := assignDiffRows qpUb nU nB evUbValues nU x c.NX
  { qpLb := qpLb, qpUb := qpUb }

/-! ## The emitted setStagef routine -/

/-- The product of the rows `r0 .. r0 + n` (all `nCols` columns) of the matrix
`M` with the rows `v0 .. v0 + nCols` of the column `v`; entry `j` of the result
is row `r0 + j` of `M` times that segment. -/
def mulRows {R : Type} [LinearOrderedRing R] (M : Nat → Nat → R) (r0 nCols : Nat)
    (v : Nat → R) (v0 : Nat) : Nat → R :=
  fun j => dot (fun k => M (r0 + j) k) (fun k => v (v0 + k)) nCols

/-- The routine `setStagef` (lines 431-464), called with the node `index`:
the result is `(stageq, stager)`. `Q2given` and `R2given` are `Q2.isGiven()` and
`R2.isGiven()`; `Q2`, `R2` are indexed by row and column, `Dy` by row;
`SlxCall`, `SluCall` are the slope arguments. -/
def setStagef {R : Type} [LinearOrderedRing R] (c : Config) (Q2given R2given : Bool)
    (Q2 R2 : Nat → Nat → R) (Dy SlxCall SluCall : Nat → R) (index : Nat) :
    (Nat → R) × (Nat → R) :=
  let qq : Nat → R :=
    if Q2given = false then mulRows Q2 (index * c.NX) c.NY Dy (index * c.NY)
    else mulRows Q2 0 c.NY Dy (index * c.NY)
  let qq : Nat → R := fun j => qq j + SlxCall j
  let rr : Nat → R :=
    if R2given = false then mulRows R2 (index * c.NU) c.NY Dy (index * c.NY)
    else mulRows R2 0 c.NY Dy (index * c.NY)
  let rr : Nat → R := fun j => rr j + SluCall j
  (qq, rr)

/-! ## The emitted feedback routine -/

/-- Symbolic expressions over the exported variables, as the generator builds
them; a member of the solver object is named by its C++ identifier. -/
inductive ExportExpr where
  | member (name : String)
  | getRows (e : ExportExpr) (rowBegin rowEnd : Nat)
  | getRow (e : ExportExpr) (row : Nat)
  | getTranspose (e : ExportExpr)
  | makeColVector (e : ExportExpr)
  | getAddress (e : ExportExpr) (row col : Nat)
  | index (value : Nat)
  | sub (a b : ExportExpr)
  | mul (a b : ExportExpr)
  deriving DecidableEq

/-- The statements of an emitted routine: `lhs == rhs`, `lhs += rhs`,
`lhs -= rhs`, a function call with arguments, and the streamed text
`lhs = callee( );`. Line breaks are not recorded. -/
inductive EmittedStatement where
  | assign (lhs rhs : ExportExpr)
  | addAssign (lhs rhs : ExportExpr)
  | subAssign (lhs rhs : ExportExpr)
  | functionCall (callee : String) (args : List ExportExpr)
  | assignCall (lhs : String) (callee : String)
  deriving DecidableEq

/-- The values of the option `DYNAMIC_SENSITIVITY`. -/
inductive ExportSensitivityType where
  | FORWARD
  | BACKWARD
  | INEXACT
  deriving DecidableEq

/-- What `setupEvaluation` reads besides the configuration: `objSlx.isGiven()`,
`objSlu.isGiven()`, the options `CG_USE_VARIABLE_WEIGHTING_MATRIX`,
`DYNAMIC_SENSITIVITY`, `LIFTED_GRADIENT_UPDATE` and `CG_MODULE_NAME`. -/
structure FeedbackOptions where
  objSlxGiven : Bool
  objSluGiven : Bool
  variableObjS : Bool
  sensitivityProp : ExportSensitivityType
  gradientUp : Bool
  moduleName : String

/-- The flag `adjoint` of `setupEvaluation` (line 908). -/
def adjoint (o : FeedbackOptions) : Bool :=
  decide (o.sensitivityProp = .BACKWARD) ||
    (decide (o.sensitivityProp = .INEXACT) && o.gradientUp)

/-- An emitted routine with its return value and statements. -/
structure EmittedFunction where
  name : String
  returnValue : Option ExportArgument
  statements : List EmittedStatement

/-- The call of `setStagef` for node `i` added at lines 968-975. -/
def setStagefCall (c : Config) (o : FeedbackOptions) (i : Nat) : EmittedStatement :=
  let SlxCall : ExportExpr :=
    if (o.objSlxGiven || (!o.variableObjS && !adjoint o)) = true then .member "objSlx"
    else .getAddress (.member "objSlx") (u32 (i * c.NX)) 0
  let SluCall : ExportExpr :=
    if (o.objSluGiven || (!o.variableObjS && !adjoint o)) = true then .member "objSlu"
    else .getAddress (.member "objSlu") (u32 (i * c.NU)) 0
  .functionCall "setStagef"
    [.getAddress (.member "qpq") (u32 (i * c.NX)) 0,
     .getAddress (.member "qpr") (u32 (i * c.NU)) 0,
     SlxCall, SluCall, .index i]

/-- The statements of lines 993-999, added when `SAC.getDim() > 0`; `sacDim` is
`SAC.getDim()`. -/
def arrivalCostStatements (c : Config) (sacDim : Nat) : List EmittedStatement :=
  if sacDim > 0 then
    [.assign (.member "DxAC") (.sub (.getTranspose (.getRow (.member "x") 0)) (.member "xAC")),
     .addAssign (.getRows (.member "Q1") 0 c.NX) (.member "SAC"),
     .addAssign (.getRows (.member "qpq") 0 c.NX) (.mul (.member "SAC") (.member "DxAC"))]
  else []

/-- Lines 932-1013 of `setupEvaluation`: the routine `feedback`. -/
def setupFeedback (c : Config) (o : FeedbackOptions) (sacDim : Nat) : EmittedFunction :=
  let s : List EmittedStatement :=
    if c.initialStateFixed = false then []
    else
      [.assign (.getRows (.member "qpx") 0 c.NX)
        (.sub (.member "x0") (.getTranspose (.getRow (.member "x") 0)))]
  let s := s ++ [.subAssign (.member "Dy") (.member "y")]
  let s := s ++ [.subAssign (.member "DyN") (.member "yN")]
  let s := forLoop 0 c.N (fun i acc => acc ++ [setStagefCall c o i]) s
  let SlxCall : ExportExpr :=
    if (o.objSlxGiven || (!o.variableObjS && !adjoint o)) = true then .member "objSlx"
    else .getRows (.member "objSlx") (u32 (c.N * c.NX)) (u32 (u32 (c.N + 1) * c.NX))
  let s := s ++ [.assign (.member "qpqf") (.mul (.member "QN2") (.member "DyN"))]
  let s := s ++ [.addAssign (.member "qpqf") SlxCall]
  let s := s ++ arrivalCostStatements c sacDim
  let s := s ++ [.assignCall "retVal" (o.moduleName ++ "_solve")]
  let s := s ++ [.addAssign (.makeColVector (.member "x")) (.member "qpx")]
  let s := s ++ [.addAssign (.makeColVector (.member "u")) (.member "qpu")]
  { name := "feedbackStep"
    returnValue := some { name := "retVal", type := .INT }
    statements := s }

/-- Execution of one emitted statement on the local integers and the call
trace; `status callee` is the value the routine `callee` returns. The three
kinds of assignment write arrays of the workspace, not locals. -/
def execEmitted (status : String → Int) (s : RunState) (st : EmittedStatement) : RunState :=
  match st with
  | .assign _ _ => s
  | .addAssign _ _ => s
  | .subAssign _ _ => s
  | .functionCall callee _ => { s with calls := s.calls ++ [callee] }
  | .assignCall lhs callee =>
    { locals := fun x => if x = lhs then status callee else s.locals x
      calls := s.calls ++ [callee] }

/-- Execution of an emitted routine: the value it returns and the calls it
made, in order. -/
def EmittedFunction.run (status : String → Int) (f : EmittedFunction) :
    Option Int × List String :=
  let s := f.statements.foldl (execEmitted status) { locals := fun _ => 0, calls := [] }
  (f.returnValue.map (fun r => s.locals r.name), s.calls)

/-! ## setupObjectiveEvaluation: the QP Hessian variables -/

/-- An `ExportVariable` holding a matrix: name, shape, element type, data
structure and, when it is given, its rows. -/
structure ExportMatrix (R : Type) where
  name : String
  nRows : Nat
  nCols : Nat
  type : ExportType
  dataStruct : ExportStruct
  given : Option (List (List R))
  deriving DecidableEq

/-- The value of `isGiven()`. -/
def ExportMatrix.isGiven {R : Type} (v : ExportMatrix R) : Bool :=
  v.given.isSome

/-- The value of `getGivenMatrix().isZero()`: every entry is zero. -/
def ExportMatrix.givenIsZero {R : Type} [LinearOrderedRing R] (v : ExportMatrix R) : Bool :=
  (v.given.getD []).all (fun row => row.all (fun a => decide (a = 0)))

/-- The call `v.setup(name, nRows, nCols, type, dataStruct)` for a matrix. -/
def ExportMatrix.setup {R : Type} (name : String) (nRows nCols : Nat)
    (type : ExportType) (dataStruct : ExportStruct) : ExportMatrix R :=
  { name := name, nRows := nRows, nCols := nCols, type := type,
    dataStruct := dataStruct, given := none }

/-- The statements that lines 470-514 add to `initialize`:
`lhs.getSubMatrix(rowBegin, rowEnd, colBegin, colEnd) == rhs`,
`lhs == zeros(nRows, nCols)` and `lhs == rhs`. -/
inductive HessianInit (R : Type) where
  | assignBlock (lhs : ExportMatrix R) (rowBegin rowEnd colBegin colEnd : Nat)
      (rhs : ExportMatrix R)
  | assignZeros (lhs : ExportMatrix R) (nRows nCols : Nat)
  | assignWhole (lhs rhs : ExportMatrix R)
  deriving DecidableEq

/-- The QP Hessian variables and the statements added to `initialize`. -/
structure QPHessianSetup (R : Type) where
  qpQ : ExportMatrix R
  qpR : ExportMatrix R
  qpS : ExportMatrix R
  qpQf : ExportMatrix R
  initializeStmts : List (HessianInit R)

/-- Lines 470-514 of `setupObjectiveEvaluation`: setup of `qpQ`, `qpR`, `qpS`,
`qpQf` from the blocks `Q1`, `R1`, `S1`, `QN1`. -/
def setupQPHessian {R : Type} [LinearOrderedRing R] (c : Config)
    (Q1 R1 S1 QN1 : ExportMatrix R) : QPHessianSetup R :=
  let qpQ : ExportMatrix R :=
    if Q1.isGiven = true then
      ExportMatrix.setup "qpQ" (u32 (c.N * c.NX)) c.NX .REAL .ACADO_WORKSPACE
    else Q1
  let initQ : List (HessianInit R) :=
    if Q1.isGiven = true then
      forLoop 0 c.N
        (fun blk acc =>
          acc ++ [.assignBlock qpQ (u32 (blk * c.NX)) (u32 (u32 (blk + 1) * c.NX)) 0 c.NX Q1]) []
    else []
  let qpR : ExportMatrix R :=
    if R1.isGiven = true then
      ExportMatrix.setup "qpR" (u32 (c.N * c.NU)) c.NU .REAL .ACADO_WORKSPACE
    else R1
  let initR : List (HessianInit R) :=
    if R1.isGiven = true then
      forLoop 0 c.N
        (fun blk acc =>
          acc ++ [.assignBlock qpR (u32 (blk * c.NU)) (u32 (u32 (blk + 1) * c.NU)) 0 c.NU R1]) []
    else []
  let qpS : ExportMatrix R :=
    if S1.isGiven = true then
      ExportMatrix.setup "qpS" (u32 (c.N * c.NX)) c.NU .REAL .ACADO_WORKSPACE
    else S1
  let initS : List (HessianInit R) :=
    if S1.isGiven = true then
      if S1.givenIsZero = true then [.assignZeros qpS (u32 (c.N * c.NX)) c.NU]
      else
        forLoop 0 c.N
          (fun blk acc =>
            acc ++ [.assignBlock qpS (u32 (blk * c.NX)) (u32 (u32 (blk + 1) * c.NX)) 0 c.NU S1]) []
    else []
  let qpQf : ExportMatrix R :=
    if QN1.isGiven = true then
      ExportMatrix.setup "qpQf" c.NX c.NX .REAL .ACADO_WORKSPACE
    else QN1
  let initQf : List (HessianInit R) :=
    if QN1.isGiven = true then [.assignWhole qpQf QN1] else []
  { qpQ := qpQ
    qpR := qpR
    qpS := qpS
    qpQf := qpQf
    initializeStmts := initQ ++ initR ++ initS ++ initQf }

/-- Lines 95-102 of `getDataDeclarations`: the QP Hessian variables handed to
`addDeclaration`. -/
def getDataDeclarationsHessian {R : Type} (Q1 R1 S1 QN1 : ExportMatrix R)
    (h : QPHessianSetup R) : List (ExportMatrix R) :=
  (if Q1.isGiven = true then [h.qpQ] else []) ++
  (if QN1.isGiven = true then [h.qpQf] else []) ++
  (if S1.isGiven = true then [h.qpS] else []) ++
  (if R1.isGiven = true then [h.qpR] else [])

/-! ## The emitted evaluateConstraints: segments of the affine bounds -/

/-- A segment of `qpLbA` and `qpUbA` written by `evaluateConstraints`: the node
it belongs to, its first row and its number of rows, and for a
point-constraint segment the first row of `pocEvH` it reads (`none` for a path
segment, written through `setStagePac`). -/
structure Segment where
  node : Nat
  offset : Nat
  dim : Nat
  offsetPoc : Option Nat
  deriving DecidableEq

/-- The variables of the copy loop at lines 826-858 and the segments written so
far, oldest first. -/
structure CopyState where
  offsetEval : Nat
  offsetPoc : Nat
  segments : List Segment

/-- Body of the loop at lines 828-858 for node `i`. -/
def copyStep (c : Config) (i : Nat) (s : CopyState) : CopyState :=
  let s1 : CopyState :=
    if c.dimPacH ≠ 0 then
      { offsetEval := u32 (s.offsetEval + c.dimPacH)
        offsetPoc := s.offsetPoc
        segments := s.segments ++
          [{ node := i, offset := s.offsetEval, dim := c.dimPacH, offsetPoc := none }] }
    else s
  match c.evaluatePointConstraints i with
  | none => s1
  | some f =>
    { offsetEval := u32 (s1.offsetEval + interiorDim c f)
      offsetPoc := u32 (s1.offsetPoc + interiorDim c f)
      segments := s1.segments ++
        [{ node := i, offset := s1.offsetEval, dim := interiorDim c f,
           offsetPoc := some s1.offsetPoc }] }

/-- Lines 826-869: the segments of `qpLbA`/`qpUbA` written by the emitted
`evaluateConstraints`, in the order of emission. -/
def copySegments (c : Config) : List Segment :=
  let s := forLoop 0 c.N (copyStep c) { offsetEval := 0, offsetPoc := 0, segments := [] }
  match c.evaluatePointConstraints c.N with
  | none => s.segments
  | some f =>
    s.segments ++
      [{ node := c.N, offset := s.offsetEval, dim := terminalDim c f,
         offsetPoc := some s.offsetPoc }]

/-- The variables of the evaluation loop at lines 756-803 and the row blocks of
`pocEvH` filled so far: node, first row, number of rows. -/
structure EvalState where
  intRowOffset : Nat
  rows : List (Nat × Nat × Nat)

/-- Body of the loop at lines 756-803 for node `i`. -/
def evalStep (c : Config) (i : Nat) (s : EvalState) : EvalState :=
  match c.evaluatePointConstraints i with
  | none => s
  | some f =>
    let dim := if i < c.N then interiorDim c f else terminalDim c f
    { intRowOffset := u32 (s.intRowOffset + dim)
      rows := s.rows ++ [(i, s.intRowOffset, dim)] }

/-- Lines 756-803: the row blocks of `pocEvH` filled when the point constraints
are evaluated. -/
def evalPointRows (c : Config) : List (Nat × Nat × Nat) :=
  (forLoop 0 (u32 (c.N + 1)) (evalStep c) { intRowOffset := 0, rows := [] }).rows

/-! ## Double-precision arithmetic of the emitted Hessian routines

The sections above read the numbers of the generated code as elements of an
ordered ring, that is with exact arithmetic. This section gives the rounded
operations of `double` and the routine `setObjQ1Q2` over them. -/

/-- A finite `double`, the number `m * 2^e`, kept in lowest terms: `m` is odd,
or `m = 0` and `e = 0`. The exponent range is not bounded, and signed zeros,
infinities and NaN are not represented; `Double.isNormal` tells when a value is
a normal IEEE 754 binary64 number, and as long as arguments and results are
normal the operations below are those of the hardware. -/
structure Double where
  m : Int
  e : Int
  deriving DecidableEq

/-- Number of binary digits of `a`; the first argument bounds the recursion and
`a` itself is always enough. -/
def bitLength : Nat → Nat → Nat
  | 0, _ => 0
  | fuel + 1, a => if a = 0 then 0 else bitLength fuel (a / 2) + 1

/-- Removes the trailing zero bits of `a` and raises the exponent `e` by their
number; the first argument bounds the recursion. -/
def stripZeros : Nat → Nat → Int → Nat × Int
  | 0, a, e => (a, e)
  | fuel + 1, a, e => if a % 2 = 0 then stripZeros fuel (a / 2) (e + 1) else (a, e)

/-- The `double` with magnitude `a * 2^e` and the given sign, in lowest terms. -/
def Double.normalize (negative : Bool) (a : Nat) (e : Int) : Double :=
  if a = 0 then { m := 0, e := 0 }
  else
    let p := stripZeros a a e
    { m := if negative = true then -(p.1 : Int) else (p.1 : Int), e := p.2 }

/-- Rounding of the real number of magnitude `a * 2^e` to 53 significant bits,
to nearest with ties to even (the default rounding mode of `double`
arithmetic). -/
def Double.round (negative : Bool) (a : Nat) (e : Int) : Double :=
  let bits := bitLength a a
  if bits ≤ 53 then Double.normalize negative a e
  else
    let s := bits - 53
    let q := a / 2 ^ s
    let r := a % 2 ^ s
    let half := 2 ^ (s - 1)
    let q' := if r > half ∨ (r = half ∧ q % 2 = 1) then q + 1 else q
    Double.normalize negative q' (e + s)

/-- The `double` 0.0. -/
def Double.zero : Double := { m := 0, e := 0 }

/-- The `double` 1.0. -/
def Double.one : Double := { m := 1, e := 0 }

/-- The product `x * y` of two `double`s: the exact product, rounded. -/
def Double.mul (x y : Double) : Double :=
  Double.round (decide (x.m < 0) != decide (y.m < 0)) (x.m.natAbs * y.m.natAbs) (x.e + y.e)

/-- The sum `x + y` of two `double`s: the exact sum, rounded. -/
def Double.add (x y : Double) : Double :=
  let e := min x.e y.e
  let s := x.m * 2 ^ (x.e - e).toNat + y.m * 2 ^ (y.e - e).toNat
  Double.round (decide (s < 0)) s.natAbs e

/-- Whether `x` is a normal binary64 number: at most 53 significant bits and
the exponent of the leading bit between -1022 and 1023. -/
def Double.isNormal (x : Double) : Bool :=
  let b : Int := bitLength x.m.natAbs x.m.natAbs
  decide (x.m ≠ 0 ∧ b ≤ 53 ∧ -1022 ≤ x.e + b - 1 ∧ x.e + b - 1 ≤ 1023)

/-- The matrix product computed by an emitted statement `C == A * B` on
`double` arrays: the entry `(i, j)` accumulates the rounded products
`A[i][l] * B[l][j]` for `l = 0, 1, ...` in ascending order. -/
def mulDouble {m k n : Nat} (A : Matrix (Fin m) (Fin k) Double)
    (B : Matrix (Fin k) (Fin n) Double) : Matrix (Fin m) (Fin n) Double :=
  Matrix.of (fun i j =>
    (List.finRange k).foldl (fun acc l => Double.add acc (Double.mul (A i l) (B l j)))
      Double.zero)

/-- Lines 241-254 over `double`: the damping matrix `evLmX`, zero, replaced by
`eye(n) * levenbergMarquardt` when `levenbergMarquardt > 0.0`. -/
def evLmDouble (n : Nat) (levenbergMarquardt : Double) : Matrix (Fin n) (Fin n) Double :=
  if levenbergMarquardt.m > 0 then
    Matrix.of (fun i j =>
      Double.mul (if i = j then Double.one else Double.zero) levenbergMarquardt)
  else Matrix.of (fun _ _ => Double.zero)

/-- The routine `setObjQ1Q2` (lines 324-327) as it runs on `double` arrays: the
same three statements as `setObjQ1Q2`, every product and sum rounded. -/
def setObjQ1Q2Double {NX NY : Nat} (levenbergMarquardt : Double)
    (tmpFx : Matrix (Fin NY) (Fin NX) Double) (tmpObjS : Matrix (Fin NY) (Fin NY) Double) :
    Matrix (Fin NX) (Fin NX) Double × Matrix (Fin NX) (Fin NY) Double :=
  let tmpQ2 := mulDouble tmpFx.transpose tmpObjS
  let tmpQ1 := mulDouble tmpQ2 tmpFx
  let tmpQ1 := Matrix.of (fun i j => Double.add (tmpQ1 i j) (evLmDouble NX levenbergMarquardt i j))
  (tmpQ1, tmpQ2)

/-! ## Example configurations -/

/-- A horizon of two nodes with one state and one control. -/
def boxConfig : Config := { N := 2, NX := 1, NU := 1 }

/-- Bounds for `boxConfig`: the control of node 0 is bounded by `-5` and `5`,
the state of node 2 is bounded above by `7`, nothing else is configured. -/
def boxBounds : BoundData Int :=
  { uLowerBounds := fun node => if node = 0 then [-5] else []
    uUpperBounds := fun node => if node = 0 then [5] else []
    xLowerBounds := fun _ => []
    xUpperBounds := fun node => if node = 2 then [7] else []
    lbPathConValues := []
    ubPathConValues := []
    pocLbStack := fun _ => []
    pocUbStack := fun _ => [] }

/-- No bound is configured at all. -/
def emptyBounds : BoundData Int :=
  { uLowerBounds := fun _ => []
    uUpperBounds := fun _ => []
    xLowerBounds := fun _ => []
    xUpperBounds := fun _ => []
    lbPathConValues := []
    ubPathConValues := []
    pocLbStack := fun _ => []
    pocUbStack := fun _ => [] }

/-- One node, one state, one control, no path or point constraint, bound
values not hardcoded. -/
def emptyConfig : Config :=
  { N := 1, NX := 1, NU := 1, hardcodeConstraintValues := false }

/-- Two nodes, one state, one control, one path constraint; node 0 declares a
point constraint of width `(1 + NX + NU) * 2 = 6` and the terminal node one of
width `(1 + NX) * 2 = 4`. -/
def pointConfig : Config :=
  { N := 2, NX := 1, NU := 1, dimPacH := 1
    evaluatePointConstraints := fun i =>
      if i = 0 then some { name := "evaluatePointConstraint0", functionDim := 6 }
      else if i = 2 then some { name := "evaluatePointConstraint2", functionDim := 4 }
      else none }

/-- The configuration `pointConfig` with bound values supplied at run time. -/
def runtimeConfig : Config :=
  { pointConfig with hardcodeConstraintValues := false }

/-- One node, one state, one control; node 0 declares a point constraint of
width 4, which is not a multiple of `1 + NX + NU = 3`. -/
def truncConfig : Config :=
  { N := 1, NX := 1, NU := 1
    evaluatePointConstraints := fun i =>
      if i = 0 then some { name := "evaluatePointConstraint0", functionDim := 4 }
      else none }

/-- Given blocks for `NX = 2`, `NU = 1` over the integers; `QN1` is computed at
run time. -/
def givenBlocks : HessianBlocks Int 2 1 :=
  { Q1 := some (Matrix.of (fun i j => if i = j then 4 else 1))
    R1 := some (Matrix.of (fun _ _ => 2))
    QN1 := none }

/-- Arrays for `getKKT` with vanishing gradients and multipliers and nonzero
steps, residuals and bounds. -/
def stationaryArrays : KKTArrays Int :=
  { qpq := fun _ => 0
    qpqf := fun _ => 0
    qpr := fun _ => 0
    qpx := fun i => 3 + i
    qpu := fun _ => -2
    d := fun _ => 5
    qpLambda := fun _ => 0
    qpLb := fun _ => -1000
    qpUb := fun _ => 1000
    qpLbA := fun _ => -7
    qpUbA := fun _ => 7
    qpMu := fun _ => 0 }

/-- A function that has been set up under the given name. -/
def namedFunction (name : String) : ExportFunction :=
  { defined := true, name := name }

/-- The function members after `setup` for all blocks given (no `setObj...`
routine is set up) and no path constraint. -/
def scenarioFunctions (c : Config) : SolverFunctions :=
  { modelSimulation := namedFunction "modelSimulation"
    evaluateStageCost := namedFunction "evaluateStageCost"
    evaluateTerminalCost := namedFunction "evaluateTerminalCost"
    setObjQ1Q2 := {}
    setObjR1R2 := {}
    setObjS1 := {}
    setObjQN1QN2 := {}
    setStagef := namedFunction "setStagef"
    evaluateObjective := namedFunction "evaluateObjective"
    evaluatePathConstraints := {}
    setStagePac := namedFunction "setStagePac"
    evaluateConstraints := namedFunction "evaluateConstraints"
    acc := {}
    preparation := setupPreparation "modelSimulation"
    feedback := namedFunction "feedbackStep"
    initializeSolver := namedFunction "initializeSolver"
    initializeNodes := namedFunction "initializeNodesByForwardSimulation"
    shiftStates := namedFunction "shiftStates"
    shiftControls := namedFunction "shiftControls"
    getKKT := namedFunction "getKKT"
    getObjective := namedFunction "getObjective"
    updateArrivalCost := setupArrivalCost c }

/-- The scenario `NX = 2`, `NU = 1`, `N = 3` without arrival cost. -/
def scenarioConfig : Config :=
  { N := 3, NX := 2, NU := 1, initialStateFixed := true, useArrivalCost := false }

/-- The scenario `NX = 2`, `NU = 1`, `N = 3` with arrival cost. -/
def arrivalConfig : Config :=
  { N := 3, NX := 2, NU := 1, initialStateFixed := false, useArrivalCost := true }

/-- A stage Jacobian with `NY = 2` outputs and `NX = 2` states. -/
def exampleFx : Matrix (Fin 2) (Fin 2) Int :=
  Matrix.of (fun i j => if i = 0 then (if j = 0 then 1 else 2) else (if j = 0 then 0 else 3))

/-- A symmetric weighting matrix for `NY = 2`. -/
def exampleS : Matrix (Fin 2) (Fin 2) Int :=
  Matrix.of (fun i j => if i = j then 2 else 1)

/-- Options of a generator run without slopes, with constant weighting and
forward sensitivities, for the module `acado`. -/
def exampleOptions : FeedbackOptions :=
  { objSlxGiven := false
    objSluGiven := false
    variableObjS := false
    sensitivityProp := .FORWARD
    gradientUp := false
    moduleName := "acado" }

/-- Fixed initial state with the option `CG_USE_ARRIVAL_COST` set. -/
def fixedArrivalConfig : Config :=
  { N := 3, NX := 2, NU := 1, initialStateFixed := true, useArrivalCost := true }

/-- Free initial state with the option `CG_USE_ARRIVAL_COST` not set. -/
def freePlainConfig : Config :=
  { N := 3, NX := 2, NU := 1, initialStateFixed := false, useArrivalCost := false }

/-- A given 2 x 2 block `Q1` (a constant of the generated code). -/
def givenQ1 : ExportMatrix Int :=
  { name := "Q1", nRows := 2, nCols := 2, type := .REAL, dataStruct := .ACADO_LOCAL,
    given := some [[4, 1], [1, 4]] }

/-- A block `R1` that is computed at run time, one 1 x 1 block per node of a
horizon of three nodes. -/
def runtimeR1 : ExportMatrix Int :=
  ExportMatrix.setup "R1" 3 1 .REAL .ACADO_WORKSPACE

/-- A block `S1` computed at run time. -/
def runtimeS1 : ExportMatrix Int :=
  ExportMatrix.setup "S1" 6 1 .REAL .ACADO_WORKSPACE

/-- A block `QN1` computed at run time. -/
def runtimeQN1 : ExportMatrix Int :=
  ExportMatrix.setup "QN1" 2 2 .REAL .ACADO_WORKSPACE

/-- Bounds for `pointConfig` and `runtimeConfig`: the box bounds of `boxBounds`,
one path-constraint bound per node and two point-constraint bounds at node 0
and at the terminal node. -/
def affineBounds : BoundData Int :=
  { uLowerBounds := fun node => if node = 0 then [-5] else []
    uUpperBounds := fun node => if node = 0 then [5] else []
    xLowerBounds := fun _ => []
    xUpperBounds := fun node => if node = 2 then [7] else []
    lbPathConValues := [-1, -1]
    ubPathConValues := [1, 1]
    pocLbStack := fun i => if i = 0 then [-2, -2] else if i = 2 then [-3, -3] else []
    pocUbStack := fun i => if i = 0 then [2, 2] else if i = 2 then [3, 3] else [] }

/-- The horizon `N = 1` with `NX = 2`, `NU = 1`, `NY = 1` and a fixed initial
state. -/
def kktConfig : Config :=
  { N := 1, NX := 2, NU := 1, NY := 1, initialStateFixed := true }

/-- The configuration `kktConfig` with a free initial state. -/
def kktFreeConfig : Config :=
  { kktConfig with initialStateFixed := false }

/-- Arrays for `getKKT` whose residuals `d`, bound gaps and multipliers are all
zero, with gradients and steps equal to one. -/
def unitGradientArrays : KKTArrays Int :=
  { qpq := fun _ => 1
    qpqf := fun _ => 1
    qpr := fun _ => 1
    qpx := fun _ => 1
    qpu := fun _ => 1
    d := fun _ => 0
    qpLambda := fun _ => 0
    qpLb := fun _ => 0
    qpUb := fun _ => 0
    qpLbA := fun _ => 0
    qpUbA := fun _ => 0
    qpMu := fun _ => 0 }

/-- Arrays for `getKKT` whose stage gradients are those `setStagef` computes for
node 0 from the objective residual `Dy = 0` and slope terms equal to one; the
terminal gradient, the residuals `d`, the bound gaps and the multipliers are
zero, the steps are one. -/
def slopeGradientArrays : KKTArrays Int :=
  { qpq := (setStagef kktConfig false false (fun _ _ => 1) (fun _ _ => 1)
      (fun _ => 0) (fun _ => 1) (fun _ => 1) 0).1
    qpqf := fun _ => 0
    qpr := (setStagef kktConfig false false (fun _ _ => 1) (fun _ _ => 1)
      (fun _ => 0) (fun _ => 1) (fun _ => 1) 0).2
    qpx := fun _ => 1
    qpu := fun _ => 1
    d := fun _ => 0
    qpLambda := fun _ => 0
    qpLb := fun _ => 0
    qpUb := fun _ => 0
    qpLbA := fun _ => 0
    qpUbA := fun _ => 0
    qpMu := fun _ => 0 }

/-- The `double` nearest to 0.1, `0x1.999999999999ap-4`. -/
def doubleTenth : Double := { m := 3602879701896397, e := -55 }

/-- The `double` nearest to 0.2, `0x1.999999999999ap-3`. -/
def doubleFifth : Double := { m := 3602879701896397, e := -54 }

/-- The `double` nearest to 0.3, `0x1.3333333333333p-2`. -/
def doubleThreeTenths : Double := { m := 5404319552844595, e := -54 }

/-- A 1 x 2 Jacobian `tmpFx = [0.1 0.3]` of `double`s (`NY = 1`, `NX = 2`). -/
def doubleFx : Matrix (Fin 1) (Fin 2) Double :=
  Matrix.of (fun _ j => if j = 0 then doubleTenth else doubleThreeTenths)

/-- The 1 x 1 weighting matrix `tmpObjS = [0.2]` of `double`s. -/
def doubleS : Matrix (Fin 1) (Fin 1) Double :=
  Matrix.of (fun _ _ => doubleFifth)

/-! ## Auxiliary quantities used in the proofs -/

/-- The dimension the generator adds for the interior node `i`: zero without a
point constraint, the quotient `interiorDim` otherwise. -/
def interiorPointDim (c : Config) (i : Nat) : Nat :=
  match c.evaluatePointConstraints i with
  | none => 0
  | some f => interiorDim c f

/-- The dimension the generator adds for the terminal node. -/
def terminalPointDim (c : Config) : Nat :=
  match c.evaluatePointConstraints c.N with
  | none => 0
  | some f => terminalDim c f

/-! ## Specification-side definitions -/

/-- The contribution of one node to a stacked bound vector as the
specification words it: the configured bound, or `n` copies of the infinite
value when none is configured. -/
def boundOrInf {α : Type} (bound : List α) (n : Nat) (inf : α) : List α :=
  if bound.length = 0 then List.replicate n inf else bound

/-- The point-constraint dimension of node `i`: the output width divided by
`1 + NX + NU` at an interior node and by `1 + NX` at the terminal node, zero
for a node without a point constraint. -/
def pointConstraintDim (c : Config) (i : Nat) : Nat :=
  match c.evaluatePointConstraints i with
  | none => 0
  | some f => if i < c.N then f.functionDim / (1 + c.NX + c.NU) else f.functionDim / (1 + c.NX)

/-- The affine-bound dimension of the specification:
`N * dimPacH + sum over i = 0..N of the point-constraint dimension of node i`. -/
def affineBoundDim (c : Config) : Nat :=
  c.N * c.dimPacH + ((List.range (c.N + 1)).map (pointConstraintDim c)).sum

/-- The value of `getKKT` as the specification words it: the absolute values of
the three gradient-step products, the sum of `|d_i * qpLambda_i|`, and, for a
fixed initial state, the sums over the box and affine bounds. -/
def kktFormula {R : Type} [LinearOrderedRing R] (c : Config) (qpDimHtot : Nat)
    (v : KKTArrays R) : R :=
  |∑ i ∈ Finset.range (c.N * c.NX), v.qpq i * v.qpx i| +
  |∑ i ∈ Finset.range c.NX, v.qpqf i * v.qpx (c.N * c.NX + i)| +
  |∑ i ∈ Finset.range (c.N * c.NU), v.qpr i * v.qpu i| +
  ∑ i ∈ Finset.range (c.N * c.NX), |v.d i * v.qpLambda i| +
  (if c.initialStateFixed = true then
    ∑ i ∈ Finset.range (c.N * c.NU + c.N * c.NX), |v.qpLb i * v.qpMu i| +
    ∑ i ∈ Finset.range (c.N * c.NU + c.N * c.NX),
      |v.qpUb i * v.qpMu (i + c.N * c.NU + c.N * c.NX)| +
    ∑ i ∈ Finset.range qpDimHtot, |v.qpLbA i * v.qpMu (i + 2 * c.N * (c.NU + c.NX))| +
    ∑ i ∈ Finset.range qpDimHtot,
      |v.qpUbA i * v.qpMu (i + 2 * c.N * (c.NU + c.NX) + qpDimHtot)|
  else 0)

/-- The sum of the point-constraint dimensions of the nodes before `i`. -/
def pocStart (c : Config) (i : Nat) : Nat :=
  ((List.range i).map (interiorPointDim c)).sum

/-- The first row of the segment group of node `i`: `i` path segments and the
point-constraint segments of the nodes before `i`. -/
def groupStart (c : Config) (i : Nat) : Nat :=
  i * c.dimPacH + pocStart c i

/-- The segment group of the interior node `i`: its path segment (when there
are path constraints) followed by its point-constraint segment (when it has
one). -/
def groupSegments (c : Config) (i : Nat) : List Segment :=
  (if c.dimPacH ≠ 0 then
    [{ node := i, offset := groupStart c i, dim := c.dimPacH, offsetPoc := none }]
   else []) ++
  (match c.evaluatePointConstraints i with
   | none => []
   | some f =>
     [{ node := i, offset := groupStart c i + c.dimPacH, dim := interiorDim c f,
        offsetPoc := some (pocStart c i) }])

/-- The terminal point-constraint segment, when there is one. -/
def terminalSegments (c : Config) : List Segment :=
  match c.evaluatePointConstraints c.N with
  | none => []
  | some f =>
    [{ node := c.N, offset := groupStart c c.N, dim := terminalDim c f,
       offsetPoc := some (pocStart c c.N) }]

/-- The segments `l` are contiguous from row `start` to row `stop`: the first
begins at `start`, each next one begins where the previous one ends, and the
last ends at `stop`. -/
def Contiguous : Nat → List Segment → Nat → Prop
  | start, [], stop => start = stop
  | start, seg :: rest, stop => seg.offset = start ∧ Contiguous (start + seg.dim) rest stop

/-- The block of `pocEvH` a segment reads: node, first row, number of rows. -/
def pocRow (s : Segment) : Option (Nat × Nat × Nat) :=
  s.offsetPoc.map (fun p => (s.node, p, s.dim))

/-! ## Arithmetic helpers -/

theorem u32_of_lt {n : Nat} (h : n < 4294967296) : u32 n = n :=
  Nat.mod_eq_of_lt h

theorem u32_add_u32 (a b : Nat) : u32 (u32 a + u32 b) = u32 (a + b) := by
  unfold u32
  exact (Nat.add_mod a b 4294967296).symm

theorem u32_add_left (a b : Nat) : u32 (u32 a + b) = u32 (a + b) := by
  unfold u32
  exact Nat.mod_add_mod a 4294967296 b

theorem u32_mul_left (a b : Nat) : u32 (u32 a * b) = u32 (a * b) := by
  unfold u32
  exact Nat.mod_mul_mod

/-! ## Loop helpers -/

theorem forLoop_eq_foldl {σ : Type} (lo hi : Nat) (body : Nat → σ → σ) (s : σ) :
    forLoop lo hi body s = (List.range' lo (hi - lo)).foldl (fun acc i => body i acc) s :=
  rfl

theorem forLoop_zero_succ {σ : Type} (n : Nat) (body : Nat → σ → σ) (s : σ) :
    forLoop 0 (n + 1) body s = body n (forLoop 0 n body s) := by
  simp only [forLoop, Nat.sub_zero]
  rw [List.range'_concat, List.foldl_append]
  simp

theorem forLoop_zero_zero {σ : Type} (body : Nat → σ → σ) (s : σ) :
    forLoop 0 0 body s = s := rfl

/-! ## Box-bound stacking -/

theorem foldl_appendBounds_lb {α : Type} (lo up : Nat → List α) (lbInf ubInf : List α)
    (l : List Nat) (s : BoundStack α) :
    (l.foldl (fun acc i => appendBounds (lo i) (up i) lbInf ubInf acc) s).lbValues =
      s.lbValues ++ l.flatMap (fun i => if (lo i).length = 0 then lbInf else lo i) := by
  induction l generalizing s with
  | nil => simp
  | cons i l ih =>
    rw [List.foldl_cons, ih]
    by_cases h : (lo i).length = 0 <;> simp [appendBounds, h, List.flatMap]

theorem foldl_appendBounds_ub {α : Type} (lo up : Nat → List α) (lbInf ubInf : List α)
    (l : List Nat) (s : BoundStack α) :
    (l.foldl (fun acc i => appendBounds (lo i) (up i) lbInf ubInf acc) s).ubValues =
      s.ubValues ++ l.flatMap (fun i => if (up i).length = 0 then ubInf else up i) := by
  induction l generalizing s with
  | nil => simp
  | cons i l ih =>
    rw [List.foldl_cons, ih]
    by_cases h : (up i).length = 0 <;> simp [appendBounds, h, List.flatMap]

theorem length_flatMap_const {α : Type} (l : List Nat) (f : Nat → List α) (k : Nat)
    (h : ∀ i, i ∈ l → (f i).length = k) : (l.flatMap f).length = l.length * k := by
  induction l with
  | nil => simp
  | cons i l ih =>
    have hi : (f i).length = k := h i (List.mem_cons_self i l)
    have hl : (l.flatMap f).length = l.length * k :=
      ih (fun j hj => h j (List.mem_cons_of_mem i hj))
    simp only [List.flatMap_cons, List.length_append, List.length_cons, hi, hl]
    rw [Nat.add_mul, Nat.one_mul, Nat.add_comm]

theorem length_boundOrInf {α : Type} (bound : List α) (n : Nat) (inf : α)
    (h : bound.length ≠ 0 → bound.length = n) : (boundOrInf bound n inf).length = n := by
  unfold boundOrInf
  by_cases h0 : bound.length = 0
  · rw [if_pos h0]
    exact List.length_replicate n inf
  · rw [if_neg h0]
    exact h h0

theorem stackBoxBounds_lb {α : Type} [Neg α] (INFTY : α) (c : Config) (b : BoundData α)
    (hN : c.N + 1 < 4294967296) :
    (stackBoxBounds INFTY c b).lbValues =
      (List.range c.N).flatMap (fun node => boundOrInf (b.uLowerBounds node) c.NU (-INFTY)) ++
      (List.range' 1 c.N).flatMap (fun node => boundOrInf (b.xLowerBounds node) c.NX (-INFTY)) := by
  simp only [stackBoxBounds, forLoop, u32_of_lt hN, Nat.add_sub_cancel, Nat.sub_zero,
    foldl_appendBounds_lb, List.nil_append, boundOrInf, List.range_eq_range']

theorem stackBoxBounds_ub {α : Type} [Neg α] (INFTY : α) (c : Config) (b : BoundData α)
    (hN : c.N + 1 < 4294967296) :
    (stackBoxBounds INFTY c b).ubValues =
      (List.range c.N).flatMap (fun node => boundOrInf (b.uUpperBounds node) c.NU INFTY) ++
      (List.range' 1 c.N).flatMap (fun node => boundOrInf (b.xUpperBounds node) c.NX INFTY) := by
  simp only [stackBoxBounds, forLoop, u32_of_lt hN, Nat.add_sub_cancel, Nat.sub_zero,
    foldl_appendBounds_ub, List.nil_append, boundOrInf, List.range_eq_range']

theorem length_stackedBounds {α : Type} (c : Config) (ub xb : Nat → List α) (ui xi : α)
    (hu : ∀ node, node < c.N → (ub node).length ≠ 0 → (ub node).length = c.NU)
    (hx : ∀ node, 1 ≤ node → node ≤ c.N → (xb node).length ≠ 0 → (xb node).length = c.NX) :
    ((List.range c.N).flatMap (fun node => boundOrInf (ub node) c.NU ui) ++
      (List.range' 1 c.N).flatMap (fun node => boundOrInf (xb node) c.NX xi)).length =
      c.N * c.NU + c.N * c.NX := by
  rw [List.length_append,
    length_flatMap_const (List.range c.N) _ c.NU
      (fun i hi => length_boundOrInf _ _ _ (hu i (List.mem_range.mp hi))),
    length_flatMap_const (List.range' 1 c.N) _ c.NX
      (fun i hi => length_boundOrInf _ _ _
        (hx i (List.mem_range'_1.mp hi).1 (by have := (List.mem_range'_1.mp hi).2; omega)))]
  simp

/-! ## Constraint dimensions -/

theorem u32_lt (n : Nat) : u32 n < 4294967296 :=
  Nat.mod_lt n (by decide)

theorem u32_u32 (n : Nat) : u32 (u32 n) = u32 n :=
  u32_of_lt (u32_lt n)

theorem length_addAt (v : List Nat) (i d : Nat) : (addAt v i d).length = v.length := by
  simp [addAt]

theorem getD_addAt (v : List Nat) (i d j : Nat) (hi : i < v.length) :
    (addAt v i d).getD j 0 = if j = i then u32 (v.getD i 0 + d) else v.getD j 0 := by
  unfold addAt
  simp only [List.getD_eq_getElem?_getD, List.getElem?_set]
  by_cases h : i = j
  · subst h
    simp [hi]
  · have h' : ¬ j = i := fun e => h e.symm
    simp [h, h']

theorem forLoop_addPathDim (c : Config) (n : Nat) (s : ConstraintDims)
    (hn : n ≤ s.qpConDim.length) :
    (forLoop 0 n (addPathDim c) s).qpDimHtot = s.qpDimHtot ∧
    (forLoop 0 n (addPathDim c) s).qpDimH = s.qpDimH ∧
    (forLoop 0 n (addPathDim c) s).qpDimHN = s.qpDimHN ∧
    (forLoop 0 n (addPathDim c) s).qpConDim.length = s.qpConDim.length ∧
    ∀ j, (forLoop 0 n (addPathDim c) s).qpConDim.getD j 0 =
      if j < n then u32 (s.qpConDim.getD j 0 + c.dimPacH) else s.qpConDim.getD j 0 := by
  induction n with
  | zero => simp [forLoop_zero_zero]
  | succ n ih =>
    obtain ⟨h1, h2, h3, h4, h5⟩ := ih (Nat.le_of_succ_le hn)
    rw [forLoop_zero_succ]
    refine ⟨h1, h2, h3, ?_, ?_⟩
    · simp [addPathDim, length_addAt, h4]
    · intro j
      have hlen : n < (forLoop 0 n (addPathDim c) s).qpConDim.length := by omega
      simp only [addPathDim]
      rw [getD_addAt _ _ _ _ hlen, h5 n, h5 j]
      by_cases hj : j = n
      · subst hj
        simp
      · by_cases hlt : j < n
        · have : j < n + 1 := by omega
          simp [hj, hlt, this]
        · have : ¬ j < n + 1 := by omega
          simp [hj, hlt, this]

theorem forLoop_addPointDim (c : Config) (n : Nat) (s : ConstraintDims) (a b : Nat)
    (hn : n ≤ s.qpConDim.length) (ha : s.qpDimHtot = u32 a) (hb : s.qpDimH = u32 b)
    (hs : ∀ j, s.qpConDim.getD j 0 < 4294967296) :
    (forLoop 0 n (addPointDim c) s).qpDimHtot =
      u32 (a + ((List.range n).map (interiorPointDim c)).sum) ∧
    (forLoop 0 n (addPointDim c) s).qpDimH =
      u32 (b + ((List.range n).map (interiorPointDim c)).sum) ∧
    (forLoop 0 n (addPointDim c) s).qpDimHN = s.qpDimHN ∧
    (forLoop 0 n (addPointDim c) s).qpConDim.length = s.qpConDim.length ∧
    ∀ j, (forLoop 0 n (addPointDim c) s).qpConDim.getD j 0 =
      if j < n then u32 (s.qpConDim.getD j 0 + interiorPointDim c j)
      else s.qpConDim.getD j 0 := by
  induction n with
  | zero => simp [forLoop_zero_zero, ha, hb]
  | succ n ih =>
    obtain ⟨h1, h2, h3, h4, h5⟩ := ih (Nat.le_of_succ_le hn)
    have hlen : n < (forLoop 0 n (addPointDim c) s).qpConDim.length := by omega
    rw [forLoop_zero_succ, List.sum_range_succ]
    cases hp : c.evaluatePointConstraints n with
    | none =>
      have hz : interiorPointDim c n = 0 := by simp [interiorPointDim, hp]
      simp only [addPointDim, hp, hz, Nat.add_zero]
      refine ⟨h1, h2, h3, h4, ?_⟩
      intro j
      rw [h5 j]
      by_cases hj : j = n
      · subst hj
        rw [if_neg (Nat.lt_irrefl _), if_pos (Nat.lt_succ_self _), hz, Nat.add_zero,
          u32_of_lt (hs _)]
      · by_cases hlt : j < n
        · have : j < n + 1 := by omega
          simp [hlt, this]
        · have : ¬ j < n + 1 := by omega
          simp [hlt, this]
    | some f =>
      have hz : interiorPointDim c n = interiorDim c f := by simp [interiorPointDim, hp]
      simp only [addPointDim, hp, hz]
      refine ⟨?_, ?_, h3, ?_, ?_⟩
      · rw [h1, u32_add_left, Nat.add_assoc]
      · rw [h2, u32_add_left, Nat.add_assoc]
      · simp [length_addAt, h4]
      · intro j
        rw [getD_addAt _ _ _ _ hlen, h5 n, h5 j]
        by_cases hj : j = n
        · subst hj
          simp [hz]
        · by_cases hlt : j < n
          · have : j < n + 1 := by omega
            simp [hj, hlt, this]
          · have : ¬ j < n + 1 := by omega
            simp [hj, hlt, this]

theorem getD_replicate_zero (n j : Nat) : (List.replicate n 0).getD j 0 = 0 := by
  rw [List.getD_eq_getElem?_getD, List.getElem?_replicate]
  by_cases h : j < n <;> simp [h]

theorem getElem?_of_getD (l : List Nat) (i v : Nat) (hi : i < l.length)
    (h : l.getD i 0 = v) : l[i]? = some v := by
  rw [List.getD_eq_getElem?_getD, List.getElem?_eq_getElem hi] at h
  rw [List.getElem?_eq_getElem hi]
  simpa using h

/-- The members written by lines 620-646, in closed form. -/
theorem setupConstraintDims_closed (c : Config) (hN : c.N + 1 < 4294967296) :
    (setupConstraintDims c).qpDimHtot =
      u32 (c.N * c.dimPacH + ((List.range c.N).map (interiorPointDim c)).sum +
        terminalPointDim c) ∧
    (setupConstraintDims c).qpConDim.length = c.N + 1 ∧
    (∀ j, j < c.N →
      (setupConstraintDims c).qpConDim.getD j 0 = u32 (c.dimPacH + interiorPointDim c j)) ∧
    (setupConstraintDims c).qpConDim.getD c.N 0 = u32 (terminalPointDim c) := by
  have hlen0 : (List.replicate (u32 (c.N + 1)) 0).length = c.N + 1 := by
    rw [List.length_replicate, u32_of_lt hN]
  obtain ⟨a1, a2, _, a4, a5⟩ := forLoop_addPathDim c c.N
    { qpDimHtot := u32 (c.N * c.dimPacH), qpDimH := u32 (c.N * c.dimPacH), qpDimHN := 0,
      qpConDim := List.replicate (u32 (c.N + 1)) 0 } (by rw [hlen0]; omega)
  have hs : ∀ j, (forLoop 0 c.N (addPathDim c)
      { qpDimHtot := u32 (c.N * c.dimPacH), qpDimH := u32 (c.N * c.dimPacH), qpDimHN := 0,
        qpConDim := List.replicate (u32 (c.N + 1)) 0 }).qpConDim.getD j 0 < 4294967296 := by
    intro j
    rw [a5 j]
    by_cases hj : j < c.N
    · rw [if_pos hj]
      exact u32_lt _
    · rw [if_neg hj, getD_replicate_zero]
      decide
  obtain ⟨b1, _, _, b4, b5⟩ := forLoop_addPointDim c c.N _ _ _
    (by rw [a4, hlen0]; omega) a1 a2 hs
  have hlen2 : c.N < (forLoop 0 c.N (addPointDim c) (forLoop 0 c.N (addPathDim c)
      { qpDimHtot := u32 (c.N * c.dimPacH), qpDimH := u32 (c.N * c.dimPacH), qpDimHN := 0,
        qpConDim := List.replicate (u32 (c.N + 1)) 0 })).qpConDim.length := by
    rw [b4, a4, hlen0]
    omega
  have hint : ∀ j, j < c.N →
      (forLoop 0 c.N (addPointDim c) (forLoop 0 c.N (addPathDim c)
        { qpDimHtot := u32 (c.N * c.dimPacH), qpDimH := u32 (c.N * c.dimPacH), qpDimHN := 0,
          qpConDim := List.replicate (u32 (c.N + 1)) 0 })).qpConDim.getD j 0 =
        u32 (c.dimPacH + interiorPointDim c j) := by
    intro j hj
    rw [b5 j, if_pos hj, a5 j, if_pos hj, getD_replicate_zero, Nat.zero_add, u32_add_left]
  have hterm : (forLoop 0 c.N (addPointDim c) (forLoop 0 c.N (addPathDim c)
        { qpDimHtot := u32 (c.N * c.dimPacH), qpDimH := u32 (c.N * c.dimPacH), qpDimHN := 0,
          qpConDim := List.replicate (u32 (c.N + 1)) 0 })).qpConDim.getD c.N 0 = 0 := by
    rw [b5 c.N, if_neg (Nat.lt_irrefl _), a5 c.N, if_neg (Nat.lt_irrefl _),
      getD_replicate_zero]
  simp only [setupConstraintDims, addTerminalDim]
  cases hp : c.evaluatePointConstraints c.N with
  | none =>
    have hz : terminalPointDim c = 0 := by simp [terminalPointDim, hp]
    simp only [hz, Nat.add_zero]
    refine ⟨b1, by rw [b4, a4, hlen0], hint, ?_⟩
    rw [hterm]
    rfl
  | some f =>
    have hz : terminalPointDim c = terminalDim c f := by simp [terminalPointDim, hp]
    simp only [hz]
    refine ⟨by rw [b1, u32_add_left], by rw [length_addAt, b4, a4, hlen0], ?_, ?_⟩
    · intro j hj
      rw [getD_addAt _ _ _ _ hlen2, if_neg (Nat.ne_of_lt hj), hint j hj]
    · rw [getD_addAt _ _ _ _ hlen2, if_pos rfl, hterm, Nat.zero_add]

theorem interiorDim_eq (c : Config) (f : ExportAcadoFunction)
    (hD : 1 + c.NX + c.NU < 4294967296) :
    interiorDim c f = f.functionDim / (1 + c.NX + c.NU) := by
  unfold interiorDim
  rw [u32_add_left, u32_of_lt hD]

theorem terminalDim_eq (c : Config) (f : ExportAcadoFunction)
    (hD : 1 + c.NX + c.NU < 4294967296) :
    terminalDim c f = f.functionDim / (1 + c.NX) := by
  unfold terminalDim
  rw [u32_of_lt (by omega)]

theorem interiorPointDim_eq (c : Config) (hD : 1 + c.NX + c.NU < 4294967296) (i : Nat)
    (hi : i < c.N) : interiorPointDim c i = pointConstraintDim c i := by
  unfold interiorPointDim pointConstraintDim
  cases c.evaluatePointConstraints i with
  | none => rfl
  | some f => simp only [if_pos hi, interiorDim_eq c f hD]

theorem terminalPointDim_eq (c : Config) (hD : 1 + c.NX + c.NU < 4294967296) :
    terminalPointDim c = pointConstraintDim c c.N := by
  unfold terminalPointDim pointConstraintDim
  cases c.evaluatePointConstraints c.N with
  | none => rfl
  | some f => simp only [if_neg (Nat.lt_irrefl _), terminalDim_eq c f hD]

theorem sum_interiorPointDim_eq (c : Config) (hD : 1 + c.NX + c.NU < 4294967296) (n : Nat)
    (hn : n ≤ c.N) :
    ((List.range n).map (interiorPointDim c)).sum =
      ((List.range n).map (pointConstraintDim c)).sum := by
  induction n with
  | zero => rfl
  | succ n ih =>
    rw [List.sum_range_succ, List.sum_range_succ, ih (Nat.le_of_succ_le hn),
      interiorPointDim_eq c hD n (by omega)]

/-- The total affine dimension computed by the generator is the one of the
specification whenever that one fits in an `unsigned`. -/
theorem qpDimHtot_eq (c : Config) (hN : c.N + 1 < 4294967296)
    (hD : 1 + c.NX + c.NU < 4294967296) (hfit : affineBoundDim c < 4294967296) :
    (setupConstraintDims c).qpDimHtot = affineBoundDim c := by
  rw [(setupConstraintDims_closed c hN).1, sum_interiorPointDim_eq c hD c.N (Nat.le_refl _),
    terminalPointDim_eq c hD]
  have h : c.N * c.dimPacH + ((List.range c.N).map (pointConstraintDim c)).sum +
      pointConstraintDim c c.N = affineBoundDim c := by
    unfold affineBoundDim
    rw [List.sum_range_succ, Nat.add_assoc]
  rw [h]
  exact u32_of_lt hfit

/-! ## Damping matrices -/

theorem evLm_of_pos {R : Type} [LinearOrderedRing R] (n : Nat) (lm : R) (h : 0 < lm) :
    evLm n lm = lm • (1 : Matrix (Fin n) (Fin n) R) := by
  ext i j
  by_cases hij : i = j
  · simp [evLm, h, eye, hij]
  · simp [evLm, h, eye, hij]

theorem dampGiven_of_pos {R : Type} [LinearOrderedRing R] {n : Nat} (lm : R) (h : 0 < lm)
    (M : Matrix (Fin n) (Fin n) R) :
    dampGiven lm (some M) = some (M + lm • (1 : Matrix (Fin n) (Fin n) R)) := by
  simp [dampGiven, h, evLm_of_pos n lm h]

theorem dampGiven_of_zero {R : Type} [LinearOrderedRing R] {n : Nat}
    (M : Matrix (Fin n) (Fin n) R) : dampGiven (0 : R) (some M) = some M := by
  simp [dampGiven]

/-! ## The KKT accumulation -/

theorem dot_zero_left {R : Type} [LinearOrderedRing R] (a b : Nat → R) (n : Nat)
    (h : ∀ i, a i = 0) : dot a b n = 0 := by
  induction n with
  | zero => rfl
  | succ n ih =>
    have ih' : forLoop 0 n (fun i acc => acc + a i * b i) 0 = 0 := ih
    simp only [dot, forLoop_zero_succ, ih', h n, zero_mul, add_zero]

theorem kktLoop_zero_multiplier {R : Type} [LinearOrderedRing R] (n : Nat) (a m : Nat → R)
    (off : Nat) (kkt : R) (h : ∀ i, m i = 0) : kktLoop n a m off kkt = kkt := by
  induction n with
  | zero => rfl
  | succ n ih =>
    have ih' : forLoop 0 n (fun index acc => acc + |a index * m (index + off)|) kkt = kkt := ih
    simp only [kktLoop, forLoop_zero_succ, ih', h (n + off), mul_zero, abs_zero, add_zero]

/-! ## Emitted functions -/

theorem defined_of_mem_addFunction (f g : ExportFunction)
    (h : CodeEntry.function g ∈ addFunction f) : g.defined = true := by
  unfold addFunction at h
  by_cases hf : f.defined = true
  · rw [if_pos hf] at h
    have hg : g = f := by simpa using h
    rw [hg]
    exact hf
  · rw [if_neg hf] at h
    simp at h

theorem defined_of_mem_addDeclaration (f g : ExportFunction)
    (h : CodeEntry.functionDeclaration g ∈ addDeclaration f) : g.defined = true := by
  unfold addDeclaration at h
  by_cases hf : f.defined = true
  · rw [if_pos hf] at h
    have hg : g = f := by simpa using h
    rw [hg]
    exact hf
  · rw [if_neg hf] at h
    simp at h

theorem not_function_mem_addPointConstraintFunctions (size : Nat)
    (epc : Nat → Option ExportAcadoFunction) (g : ExportFunction) :
    CodeEntry.function g ∉ addPointConstraintFunctions size epc := by
  induction size with
  | zero => simp [addPointConstraintFunctions, forLoop_zero_zero]
  | succ n ih =>
    unfold addPointConstraintFunctions at ih ⊢
    rw [forLoop_zero_succ]
    cases epc n with
    | none => exact ih
    | some f => simp [ih]

theorem defined_of_mem_append (l₁ l₂ : List CodeEntry)
    (h₁ : ∀ g, CodeEntry.function g ∈ l₁ → g.defined = true)
    (h₂ : ∀ g, CodeEntry.function g ∈ l₂ → g.defined = true) :
    ∀ g, CodeEntry.function g ∈ l₁ ++ l₂ → g.defined = true := by
  intro g h
  rcases List.mem_append.mp h with h | h
  · exact h₁ g h
  · exact h₂ g h

theorem declared_of_mem_append (l₁ l₂ : List CodeEntry)
    (h₁ : ∀ g, CodeEntry.functionDeclaration g ∈ l₁ → g.defined = true)
    (h₂ : ∀ g, CodeEntry.functionDeclaration g ∈ l₂ → g.defined = true) :
    ∀ g, CodeEntry.functionDeclaration g ∈ l₁ ++ l₂ → g.defined = true := by
  intro g h
  rcases List.mem_append.mp h with h | h
  · exact h₁ g h
  · exact h₂ g h

/-- Every function body emitted by `getCode` belongs to a defined function. -/
theorem defined_of_mem_getCode (c : Config) (useOMP : Bool) (pointSize : Nat)
    (fs : SolverFunctions) :
    ∀ g, CodeEntry.function g ∈ getCode c useOMP pointSize fs → g.defined = true := by
  unfold getCode
  repeat' apply defined_of_mem_append
  all_goals first
    | exact fun g h => defined_of_mem_addFunction _ g h
    | exact fun g h => absurd h (not_function_mem_addPointConstraintFunctions _ _ g)
    | (intro g h
       split at h
       · exact defined_of_mem_addFunction _ g h
       · simp at h)
    | (intro g h
       split at h <;> simp at h)
    | (intro g h
       simp at h)

/-- Every declaration emitted by `getFunctionDeclarations` belongs to a defined
function. -/
theorem defined_of_mem_getFunctionDeclarations (fs : SolverFunctions) :
    ∀ g, CodeEntry.functionDeclaration g ∈ getFunctionDeclarations fs →
      g.defined = true := by
  unfold getFunctionDeclarations
  repeat' apply declared_of_mem_append
  all_goals exact fun g h => defined_of_mem_addDeclaration _ g h

/-! ## The Hessian routines -/

theorem evLm_of_nonneg {R : Type} [LinearOrderedRing R] (n : Nat) (lm : R) (h : 0 ≤ lm) :
    evLm n lm = lm • (1 : Matrix (Fin n) (Fin n) R) := by
  rcases lt_or_eq_of_le h with hpos | hzero
  · exact evLm_of_pos n lm hpos
  · rw [← hzero]
    ext i j
    simp [evLm, zeros]

theorem evLm_zero {R : Type} [LinearOrderedRing R] (n : Nat) :
    evLm n (0 : R) = 0 := by
  ext i j
  simp [evLm, zeros]

theorem evLm_isSymm {R : Type} [LinearOrderedRing R] (n : Nat) (lm : R) :
    (evLm n lm).IsSymm := by
  unfold Matrix.IsSymm
  ext i j
  by_cases hpos : lm > 0
  · by_cases hij : i = j
    · simp [evLm, hpos, eye, hij]
    · have hji : ¬ j = i := fun e => hij e.symm
      simp [evLm, hpos, eye, hij, hji]
  · simp [evLm, hpos, zeros]

theorem gaussNewton_isSymm {R : Type} [LinearOrderedCommRing R] {m n : Nat}
    (J : Matrix (Fin m) (Fin n) R) (S : Matrix (Fin m) (Fin m) R) (hS : S.IsSymm)
    (E : Matrix (Fin n) (Fin n) R) (hE : E.IsSymm) :
    (J.transpose * S * J + E).IsSymm := by
  unfold Matrix.IsSymm at *
  rw [Matrix.transpose_add, Matrix.transpose_mul, Matrix.transpose_mul,
    Matrix.transpose_transpose, hS, hE, Matrix.mul_assoc]

/-! ## Closed forms of the emitted loops -/

theorem dot_eq_sum {R : Type} [LinearOrderedRing R] (a b : Nat → R) (n : Nat) :
    dot a b n = ∑ i ∈ Finset.range n, a i * b i := by
  induction n with
  | zero => rfl
  | succ n ih =>
    have ih' : forLoop 0 n (fun i acc => acc + a i * b i) 0 =
        ∑ i ∈ Finset.range n, a i * b i := ih
    simp only [dot, forLoop_zero_succ, ih', Finset.sum_range_succ]

theorem kktLoop_eq_sum {R : Type} [LinearOrderedRing R] (n : Nat) (a m : Nat → R)
    (off : Nat) (kkt : R) :
    kktLoop n a m off kkt = kkt + ∑ i ∈ Finset.range n, |a i * m (i + off)| := by
  induction n with
  | zero => simp [kktLoop, forLoop_zero_zero]
  | succ n ih =>
    have ih' : forLoop 0 n (fun index acc => acc + |a index * m (index + off)|) kkt =
        kkt + ∑ i ∈ Finset.range n, |a i * m (i + off)| := ih
    simp only [kktLoop, forLoop_zero_succ, ih', Finset.sum_range_succ, add_assoc]

theorem assignDiffRows_inside {R : Type} [LinearOrderedRing R] (dst : Nat → R) (a b : Nat)
    (s1 : Nat → R) (a1 : Nat) (s2 : Nat → R) (a2 : Nat) (k : Nat) (hk : a + k < b) :
    assignDiffRows dst a b s1 a1 s2 a2 (a + k) = s1 (a1 + k) - s2 (a2 + k) := by
  unfold assignDiffRows
  rw [if_pos ⟨Nat.le_add_right a k, hk⟩, Nat.add_sub_cancel_left]

theorem assignDiffRows_outside {R : Type} [LinearOrderedRing R] (dst : Nat → R) (a b : Nat)
    (s1 : Nat → R) (a1 : Nat) (s2 : Nat → R) (a2 : Nat) (j : Nat) (hj : j < a) :
    assignDiffRows dst a b s1 a1 s2 a2 j = dst j := by
  unfold assignDiffRows
  rw [if_neg (fun h => absurd h.1 (Nat.not_le_of_lt hj))]

theorem mulRows_eq_mulVec {R : Type} [LinearOrderedRing R] (M : Nat → Nat → R)
    (r0 nRows nCols : Nat) (v : Nat → R) (v0 : Nat) (j : Fin nRows) :
    mulRows M r0 nCols v v0 j =
      Matrix.mulVec (Matrix.of (fun (a : Fin nRows) (k : Fin nCols) => M (r0 + a) k))
        (fun k : Fin nCols => v (v0 + k)) j := by
  unfold mulRows
  rw [dot_eq_sum, Finset.sum_range]
  rfl

theorem u32_mul_right (a b : Nat) : u32 (a * u32 b) = u32 (a * b) := by
  unfold u32
  exact Nat.mul_mod_mod a b 4294967296

theorem kkt_dims_fit (c : Config) (hfit : 2 * c.N * (c.NU + c.NX) < 4294967296) :
    u32 (c.N * c.NX) = c.N * c.NX ∧ u32 (c.NU * c.N) = c.N * c.NU ∧
    u32 (c.N * c.NU) = c.N * c.NU ∧
    u32 (c.N * c.NU + c.N * c.NX) = c.N * c.NU + c.N * c.NX ∧
    u32 (u32 (2 * c.N) * u32 (c.NU + c.NX)) = 2 * c.N * (c.NU + c.NX) := by
  have h : 2 * c.N * (c.NU + c.NX) = 2 * (c.N * c.NU) + 2 * (c.N * c.NX) := by ring
  have hx : c.N * c.NX < 4294967296 := by omega
  have hu : c.N * c.NU < 4294967296 := by omega
  refine ⟨u32_of_lt hx, ?_, u32_of_lt hu, u32_of_lt (by omega), ?_⟩
  · rw [Nat.mul_comm c.NU c.N]
    exact u32_of_lt hu
  · rw [u32_mul_left, u32_mul_right]
    exact u32_of_lt hfit

/-! ## The feedback routine -/

theorem forLoop_append {α : Type} (f : Nat → α) (n : Nat) (s : List α) :
    forLoop 0 n (fun i acc => acc ++ [f i]) s = s ++ (List.range n).map f := by
  induction n with
  | zero => simp [forLoop_zero_zero]
  | succ n ih =>
    rw [forLoop_zero_succ, ih, List.range_succ, List.map_append, List.append_assoc]
    rfl

theorem foldl_setStagefCalls (status : String → Int) (c : Config) (o : FeedbackOptions)
    (l : List Nat) (s : RunState) :
    (l.map (setStagefCall c o)).foldl (execEmitted status) s =
      { locals := s.locals, calls := s.calls ++ List.replicate l.length "setStagef" } := by
  induction l generalizing s with
  | nil => simp
  | cons i l ih =>
    rw [List.map_cons, List.foldl_cons, ih]
    simp [setStagefCall, execEmitted, List.replicate_succ]

theorem foldl_arrivalCostStatements (status : String → Int) (c : Config) (sacDim : Nat)
    (s : RunState) :
    (arrivalCostStatements c sacDim).foldl (execEmitted status) s = s := by
  unfold arrivalCostStatements
  by_cases h : sacDim > 0
  · simp [h, execEmitted]
  · simp [h]

/-- The statements of `feedback` in list form. -/
theorem setupFeedback_statements (c : Config) (o : FeedbackOptions) (sacDim : Nat) :
    (setupFeedback c o sacDim).statements =
      (if c.initialStateFixed = true then
        [EmittedStatement.assign (.getRows (.member "qpx") 0 c.NX)
          (.sub (.member "x0") (.getTranspose (.getRow (.member "x") 0)))]
       else []) ++
      [.subAssign (.member "Dy") (.member "y"), .subAssign (.member "DyN") (.member "yN")] ++
      (List.range c.N).map (setStagefCall c o) ++
      [.assign (.member "qpqf") (.mul (.member "QN2") (.member "DyN")),
       .addAssign (.member "qpqf")
         (if (o.objSlxGiven || (!o.variableObjS && !adjoint o)) = true then .member "objSlx"
          else .getRows (.member "objSlx") (u32 (c.N * c.NX)) (u32 (u32 (c.N + 1) * c.NX)))] ++
      arrivalCostStatements c sacDim ++
      [.assignCall "retVal" (o.moduleName ++ "_solve"),
       .addAssign (.makeColVector (.member "x")) (.member "qpx"),
       .addAssign (.makeColVector (.member "u")) (.member "qpu")] := by
  simp only [setupFeedback, forLoop_append]
  cases c.initialStateFixed <;> simp

/-! ## Segments of the affine bounds -/

theorem pocStart_succ (c : Config) (i : Nat) :
    pocStart c (i + 1) = pocStart c i + interiorPointDim c i := by
  unfold pocStart
  rw [List.sum_range_succ]

theorem groupStart_succ (c : Config) (i : Nat) :
    groupStart c (i + 1) = groupStart c i + c.dimPacH + interiorPointDim c i := by
  unfold groupStart
  rw [pocStart_succ, Nat.add_mul, Nat.one_mul]
  omega

theorem pocStart_le_groupStart (c : Config) (i : Nat) : pocStart c i ≤ groupStart c i := by
  unfold groupStart
  omega

theorem groupStart_mono (c : Config) (i n : Nat) (h : i ≤ n) :
    groupStart c i ≤ groupStart c n := by
  induction n with
  | zero =>
    have : i = 0 := by omega
    rw [this]
  | succ n ih =>
    by_cases hi : i = n + 1
    · rw [hi]
    · have := ih (by omega)
      rw [groupStart_succ]
      omega

/-- The state of the copy loop after `n` iterations. -/
theorem forLoop_copyStep (c : Config) (n : Nat) (hfit : groupStart c n < 4294967296) :
    (forLoop 0 n (copyStep c) { offsetEval := 0, offsetPoc := 0, segments := [] }).offsetEval =
      groupStart c n ∧
    (forLoop 0 n (copyStep c) { offsetEval := 0, offsetPoc := 0, segments := [] }).offsetPoc =
      pocStart c n ∧
    (forLoop 0 n (copyStep c) { offsetEval := 0, offsetPoc := 0, segments := [] }).segments =
      (List.range n).flatMap (groupSegments c) := by
  induction n with
  | zero =>
    refine ⟨?_, ?_, ?_⟩
    · simp [forLoop_zero_zero, groupStart, pocStart]
    · simp [forLoop_zero_zero, pocStart]
    · simp [forLoop_zero_zero]
  | succ n ih =>
    have hmono := groupStart_mono c n (n + 1) (Nat.le_succ n)
    obtain ⟨h1, h2, h3⟩ := ih (by omega)
    have hs := groupStart_succ c n
    have hp := pocStart_succ c n
    have hle := pocStart_le_groupStart c (n + 1)
    rw [forLoop_zero_succ, List.range_succ, List.flatMap_append]
    by_cases hd : c.dimPacH ≠ 0
    · cases hpc : c.evaluatePointConstraints n with
      | none =>
        have hz : interiorPointDim c n = 0 := by simp [interiorPointDim, hpc]
        simp only [copyStep, hpc, if_pos hd, h1, h2, h3, groupSegments, List.flatMap_cons,
          List.flatMap_nil, List.append_nil]
        refine ⟨?_, ?_, trivial⟩
        · rw [u32_of_lt (by omega)]
          omega
        · omega
      | some f =>
        have hz : interiorPointDim c n = interiorDim c f := by simp [interiorPointDim, hpc]
        simp only [copyStep, hpc, if_pos hd, h1, h2, h3, groupSegments, List.flatMap_cons,
          List.flatMap_nil, List.append_nil]
        have e1 : u32 (groupStart c n + c.dimPacH) = groupStart c n + c.dimPacH :=
          u32_of_lt (by omega)
        rw [e1]
        refine ⟨?_, ?_, ?_⟩
        · rw [u32_of_lt (by omega)]
          omega
        · rw [u32_of_lt (by omega)]
          omega
        · simp [List.append_assoc]
    · have hd0 : c.dimPacH = 0 := by
        by_contra h
        exact hd h
      cases hpc : c.evaluatePointConstraints n with
      | none =>
        have hz : interiorPointDim c n = 0 := by simp [interiorPointDim, hpc]
        simp only [copyStep, hpc, if_neg hd, h1, h2, h3, groupSegments, List.flatMap_cons,
          List.flatMap_nil, List.append_nil]
        refine ⟨by omega, by omega, trivial⟩
      | some f =>
        have hz : interiorPointDim c n = interiorDim c f := by simp [interiorPointDim, hpc]
        simp only [copyStep, hpc, if_neg hd, h1, h2, h3, groupSegments, List.flatMap_cons,
          List.flatMap_nil, List.append_nil]
        refine ⟨?_, ?_, ?_⟩
        · rw [u32_of_lt (by omega)]
          omega
        · rw [u32_of_lt (by omega)]
          omega
        · simp [hd0]

/-- The segments written by `evaluateConstraints` in closed form. -/
theorem copySegments_closed (c : Config) (hfit : groupStart c c.N < 4294967296) :
    copySegments c = (List.range c.N).flatMap (groupSegments c) ++ terminalSegments c := by
  obtain ⟨h1, h2, h3⟩ := forLoop_copyStep c c.N hfit
  unfold copySegments terminalSegments
  cases c.evaluatePointConstraints c.N with
  | none => simp [h3]
  | some f => simp [h1, h2, h3]

theorem contiguous_append (a b d : Nat) (l₁ l₂ : List Segment)
    (h₁ : Contiguous a l₁ b) (h₂ : Contiguous b l₂ d) : Contiguous a (l₁ ++ l₂) d := by
  induction l₁ generalizing a with
  | nil =>
    have hab : a = b := h₁
    rw [hab]
    exact h₂
  | cons s l ih =>
    obtain ⟨hs, hl⟩ := h₁
    exact ⟨hs, ih _ hl⟩

theorem contiguous_groupSegments (c : Config) (i : Nat) :
    Contiguous (groupStart c i) (groupSegments c i) (groupStart c (i + 1)) := by
  have hs := groupStart_succ c i
  unfold groupSegments
  by_cases hd : c.dimPacH ≠ 0
  · cases hpc : c.evaluatePointConstraints i with
    | none =>
      have hz : interiorPointDim c i = 0 := by simp [interiorPointDim, hpc]
      simp only [if_pos hd, List.append_nil, Contiguous]
      exact ⟨trivial, by omega⟩
    | some f =>
      have hz : interiorPointDim c i = interiorDim c f := by simp [interiorPointDim, hpc]
      simp only [if_pos hd, List.cons_append, List.nil_append, Contiguous]
      exact ⟨trivial, trivial, by omega⟩
  · have hd0 : c.dimPacH = 0 := by
      by_contra h
      exact hd h
    cases hpc : c.evaluatePointConstraints i with
    | none =>
      have hz : interiorPointDim c i = 0 := by simp [interiorPointDim, hpc]
      simp only [if_neg hd, List.append_nil, Contiguous]
      omega
    | some f =>
      have hz : interiorPointDim c i = interiorDim c f := by simp [interiorPointDim, hpc]
      simp only [if_neg hd, List.nil_append, Contiguous]
      exact ⟨by omega, by omega⟩

theorem contiguous_groups (c : Config) (n : Nat) :
    Contiguous 0 ((List.range n).flatMap (groupSegments c)) (groupStart c n) := by
  induction n with
  | zero => simp [Contiguous, groupStart, pocStart]
  | succ n ih =>
    rw [List.range_succ, List.flatMap_append]
    refine contiguous_append 0 (groupStart c n) _ _ _ ih ?_
    simpa using contiguous_groupSegments c n

theorem contiguous_terminalSegments (c : Config) :
    Contiguous (groupStart c c.N) (terminalSegments c)
      (groupStart c c.N + terminalPointDim c) := by
  unfold terminalSegments terminalPointDim
  cases c.evaluatePointConstraints c.N with
  | none => simp [Contiguous]
  | some f => simp [Contiguous]

theorem contiguous_bounds (a b : Nat) (l : List Segment) (h : Contiguous a l b) :
    a ≤ b ∧ (∀ s, s ∈ l → a ≤ s.offset ∧ s.offset + s.dim ≤ b) ∧
    l.Pairwise (fun s t => s.offset + s.dim ≤ t.offset) := by
  induction l generalizing a with
  | nil =>
    have hab : a = b := h
    refine ⟨by omega, ?_, List.Pairwise.nil⟩
    intro s hs
    simp at hs
  | cons x l ih =>
    obtain ⟨hx, hl⟩ := h
    obtain ⟨h1, h2, h3⟩ := ih _ hl
    refine ⟨by omega, ?_, ?_⟩
    · intro s hs
      rcases List.mem_cons.mp hs with e | hmem
      · rw [e]
        omega
      · have := h2 s hmem
        omega
    · refine List.Pairwise.cons ?_ h3
      intro t ht
      have := h2 t ht
      omega

/-- The members `qpDimH` and `qpDimHN` written by lines 620-646, in closed
form. -/
theorem setupConstraintDims_parts (c : Config) (hN : c.N + 1 < 4294967296) :
    (setupConstraintDims c).qpDimH =
      u32 (c.N * c.dimPacH + ((List.range c.N).map (interiorPointDim c)).sum) ∧
    (setupConstraintDims c).qpDimHN = u32 (terminalPointDim c) := by
  have hlen0 : (List.replicate (u32 (c.N + 1)) 0).length = c.N + 1 := by
    rw [List.length_replicate, u32_of_lt hN]
  obtain ⟨a1, a2, a3, a4, a5⟩ := forLoop_addPathDim c c.N
    { qpDimHtot := u32 (c.N * c.dimPacH), qpDimH := u32 (c.N * c.dimPacH), qpDimHN := 0,
      qpConDim := List.replicate (u32 (c.N + 1)) 0 } (by rw [hlen0]; omega)
  have hs : ∀ j, (forLoop 0 c.N (addPathDim c)
      { qpDimHtot := u32 (c.N * c.dimPacH), qpDimH := u32 (c.N * c.dimPacH), qpDimHN := 0,
        qpConDim := List.replicate (u32 (c.N + 1)) 0 }).qpConDim.getD j 0 < 4294967296 := by
    intro j
    rw [a5 j]
    by_cases hj : j < c.N
    · rw [if_pos hj]
      exact u32_lt _
    · rw [if_neg hj, getD_replicate_zero]
      decide
  obtain ⟨_, b2, b3, _, _⟩ := forLoop_addPointDim c c.N _ _ _
    (by rw [a4, hlen0]; omega) a1 a2 hs
  simp only [setupConstraintDims, addTerminalDim]
  cases hp : c.evaluatePointConstraints c.N with
  | none =>
    have hz : terminalPointDim c = 0 := by simp [terminalPointDim, hp]
    simp only [hz]
    refine ⟨b2, ?_⟩
    rw [b3, a3]
    rfl
  | some f =>
    have hz : terminalPointDim c = terminalDim c f := by simp [terminalPointDim, hp]
    simp only [hz]
    refine ⟨b2, ?_⟩
    rw [b3, a3, Nat.zero_add]

theorem interiorPointDim_le_groupStart (c : Config) (j n : Nat) (hj : j < n) :
    c.dimPacH + interiorPointDim c j ≤ groupStart c n := by
  have h1 := groupStart_succ c j
  have h2 := groupStart_mono c (j + 1) n hj
  omega

/-- The entries of `qpConDim` and their partial sums when the total dimension
fits in an `unsigned`. -/
theorem qpConDim_sums (c : Config) (hN : c.N + 1 < 4294967296)
    (hfit : groupStart c c.N + terminalPointDim c < 4294967296) :
    (∀ i, i ≤ c.N → groupStart c i =
      ((List.range i).map (fun j => (setupConstraintDims c).qpConDim.getD j 0)).sum) ∧
    (setupConstraintDims c).qpDimHtot =
      ((List.range (c.N + 1)).map
        (fun j => (setupConstraintDims c).qpConDim.getD j 0)).sum ∧
    (setupConstraintDims c).qpDimHtot = groupStart c c.N + terminalPointDim c ∧
    (setupConstraintDims c).qpDimHtot =
      (setupConstraintDims c).qpDimH + (setupConstraintDims c).qpDimHN := by
  obtain ⟨htot, _, hint, hterm⟩ := setupConstraintDims_closed c hN
  obtain ⟨hH, hHN⟩ := setupConstraintDims_parts c hN
  have hentry : ∀ j, j < c.N →
      (setupConstraintDims c).qpConDim.getD j 0 = c.dimPacH + interiorPointDim c j := by
    intro j hj
    rw [hint j hj]
    have := interiorPointDim_le_groupStart c j c.N hj
    exact u32_of_lt (by omega)
  have hlast : (setupConstraintDims c).qpConDim.getD c.N 0 = terminalPointDim c := by
    rw [hterm]
    exact u32_of_lt (by omega)
  have hsum : ∀ i, i ≤ c.N → groupStart c i =
      ((List.range i).map (fun j => (setupConstraintDims c).qpConDim.getD j 0)).sum := by
    intro i
    induction i with
    | zero =>
      intro _
      simp [groupStart, pocStart]
    | succ i ih =>
      intro hi
      rw [List.sum_range_succ, ← ih (by omega), hentry i (by omega), groupStart_succ]
      omega
  have htot' : (setupConstraintDims c).qpDimHtot = groupStart c c.N + terminalPointDim c := by
    rw [htot]
    exact u32_of_lt hfit
  refine ⟨hsum, ?_, htot', ?_⟩
  · rw [List.sum_range_succ, ← hsum c.N (Nat.le_refl _), hlast, htot']
  · have hG : c.N * c.dimPacH + ((List.range c.N).map (interiorPointDim c)).sum =
        groupStart c c.N := rfl
    have hH' : (setupConstraintDims c).qpDimH = groupStart c c.N := by
      rw [hH, hG]
      exact u32_of_lt (by omega)
    have hHN' : (setupConstraintDims c).qpDimHN = terminalPointDim c := by
      rw [hHN]
      exact u32_of_lt (by omega)
    rw [htot', hH', hHN']

/-- The state of the evaluation loop after `n ≤ N` iterations. -/
theorem forLoop_evalStep (c : Config) (n : Nat) (hn : n ≤ c.N)
    (hfit : groupStart c c.N < 4294967296) :
    (forLoop 0 n (evalStep c) { intRowOffset := 0, rows := [] }).intRowOffset = pocStart c n ∧
    (forLoop 0 n (evalStep c) { intRowOffset := 0, rows := [] }).rows =
      ((List.range n).flatMap (groupSegments c)).filterMap pocRow := by
  induction n with
  | zero => simp [forLoop_zero_zero, pocStart]
  | succ n ih =>
    obtain ⟨h1, h2⟩ := ih (by omega)
    have hp := pocStart_succ c n
    have hle := pocStart_le_groupStart c (n + 1)
    have hmono := groupStart_mono c (n + 1) c.N hn
    have hlt : n < c.N := by omega
    rw [forLoop_zero_succ, List.range_succ, List.flatMap_append, List.filterMap_append]
    cases hpc : c.evaluatePointConstraints n with
    | none =>
      have hz : interiorPointDim c n = 0 := by simp [interiorPointDim, hpc]
      simp only [evalStep, hpc, h1, h2]
      refine ⟨by omega, ?_⟩
      by_cases hd : c.dimPacH ≠ 0
      · simp [groupSegments, hpc, hd, pocRow]
      · simp [groupSegments, hpc, hd, pocRow]
    | some f =>
      have hz : interiorPointDim c n = interiorDim c f := by simp [interiorPointDim, hpc]
      simp only [evalStep, hpc, h1, h2, if_pos hlt]
      refine ⟨?_, ?_⟩
      · rw [u32_of_lt (by omega)]
        omega
      · by_cases hd : c.dimPacH ≠ 0
        · simp [groupSegments, hpc, hd, pocRow]
        · simp [groupSegments, hpc, hd, pocRow]

/-- The blocks of `pocEvH` read when copying are the blocks filled when the
point constraints are evaluated. -/
theorem pocRows_eq (c : Config) (hN : c.N + 1 < 4294967296)
    (hfit : groupStart c c.N < 4294967296) :
    (copySegments c).filterMap pocRow = evalPointRows c := by
  obtain ⟨h1, h2⟩ := forLoop_evalStep c c.N (Nat.le_refl _) hfit
  rw [copySegments_closed c hfit, List.filterMap_append]
  unfold evalPointRows
  rw [u32_of_lt hN, forLoop_zero_succ]
  unfold terminalSegments
  cases hpc : c.evaluatePointConstraints c.N with
  | none => simp [evalStep, hpc, h2]
  | some f => simp [evalStep, hpc, h1, h2, pocRow]

theorem groupStart_add_terminal_eq (c : Config) (hD : 1 + c.NX + c.NU < 4294967296) :
    groupStart c c.N + terminalPointDim c = affineBoundDim c := by
  unfold groupStart pocStart affineBoundDim
  rw [sum_interiorPointDim_eq c hD c.N (Nat.le_refl _), terminalPointDim_eq c hD,
    List.sum_range_succ, Nat.add_assoc]

/-! ## The affine bound values -/

theorem block_eq_some {α : Type} (v : List α) (start len : Nat)
    (h : start + len ≤ v.length) :
    ∃ l, block v start len = some l ∧ l.length = len := by
  refine ⟨(v.drop start).take len, ?_, ?_⟩
  · unfold block
    rw [if_pos h]
  · rw [List.length_take, List.length_drop]
    omega

/-- The state of the stacking loop of lines 669-678 after `n` iterations, when
the path-constraint bound columns have at least `n * dimPacH` rows. -/
theorem forLoop_stackAffineStep {α : Type} (c : Config) (b : BoundData α) (n : Nat)
    (hfit : n * c.dimPacH < 4294967296)
    (hpl : n * c.dimPacH ≤ b.lbPathConValues.length)
    (hpu : n * c.dimPacH ≤ b.ubPathConValues.length) :
    ∃ s, forLoop 0 n (stackAffineStep c b) (some { lbValues := [], ubValues := [] }) = some s ∧
      s.lbValues.length =
        n * c.dimPacH + ((List.range n).map (fun i => (b.pocLbStack i).length)).sum ∧
      s.ubValues.length =
        n * c.dimPacH + ((List.range n).map (fun i => (b.pocUbStack i).length)).sum := by
  induction n with
  | zero => exact ⟨_, rfl, by simp, by simp⟩
  | succ n ih =>
    have hstep : (n + 1) * c.dimPacH = n * c.dimPacH + c.dimPacH := by
      rw [Nat.add_mul, Nat.one_mul]
    obtain ⟨s, hs, hl, hu⟩ := ih (by omega) (by omega) (by omega)
    rw [forLoop_zero_succ, hs, List.sum_range_succ, List.sum_range_succ]
    by_cases hd : c.dimPacH ≠ 0
    · obtain ⟨l₁, h₁, hl₁⟩ := block_eq_some b.lbPathConValues (n * c.dimPacH) c.dimPacH
        (by omega)
      obtain ⟨l₂, h₂, hl₂⟩ := block_eq_some b.ubPathConValues (n * c.dimPacH) c.dimPacH
        (by omega)
      refine ⟨{ lbValues := s.lbValues ++ l₁ ++ b.pocLbStack n
                ubValues := s.ubValues ++ l₂ ++ b.pocUbStack n }, ?_, ?_, ?_⟩
      · simp only [stackAffineStep, if_pos hd, u32_of_lt (show n * c.dimPacH < 4294967296 by omega),
          h₁, h₂]
      · simp only [List.length_append, hl, hl₁]
        omega
      · simp only [List.length_append, hu, hl₂]
        omega
    · have hd0 : c.dimPacH = 0 := by
        by_contra h
        exact hd h
      refine ⟨{ lbValues := s.lbValues ++ b.pocLbStack n
                ubValues := s.ubValues ++ b.pocUbStack n }, ?_, ?_, ?_⟩
      · simp only [stackAffineStep, if_neg hd]
      · simp only [List.length_append, hl, hd0]
        omega
      · simp only [List.length_append, hu, hd0]
        omega

theorem sum_map_range_congr (f g : Nat → Nat) (n : Nat) (h : ∀ i, i < n → f i = g i) :
    ((List.range n).map f).sum = ((List.range n).map g).sum := by
  induction n with
  | zero => rfl
  | succ n ih =>
    rw [List.sum_range_succ, List.sum_range_succ, ih (fun i hi => h i (by omega)),
      h n (by omega)]

/-- The affine bound values are stacked, and the stacked vectors have
`qpDimHtot` entries, when the bound data have the shapes of the constraints. -/
theorem stackAffineBounds_length {α : Type} (c : Config) (b : BoundData α)
    (hN : c.N + 1 < 4294967296) (hD : 1 + c.NX + c.NU < 4294967296)
    (hfit : affineBoundDim c < 4294967296)
    (hpl : c.N * c.dimPacH ≤ b.lbPathConValues.length)
    (hpu : c.N * c.dimPacH ≤ b.ubPathConValues.length)
    (hql : ∀ i, i ≤ c.N → (b.pocLbStack i).length = pointConstraintDim c i)
    (hqu : ∀ i, i ≤ c.N → (b.pocUbStack i).length = pointConstraintDim c i) :
    ∃ aff, stackAffineBounds c b = some aff ∧
      aff.lbValues.length = (setupConstraintDims c).qpDimHtot ∧
      aff.ubValues.length = (setupConstraintDims c).qpDimHtot := by
  have hdim : c.N * c.dimPacH ≤ affineBoundDim c := by
    unfold affineBoundDim
    omega
  obtain ⟨s, hs, hl, hu⟩ := forLoop_stackAffineStep c b c.N (by omega) hpl hpu
  have htot := qpDimHtot_eq c hN hD hfit
  have hsplit : affineBoundDim c =
      c.N * c.dimPacH + ((List.range c.N).map (pointConstraintDim c)).sum +
        pointConstraintDim c c.N := by
    unfold affineBoundDim
    rw [List.sum_range_succ, Nat.add_assoc]
  refine ⟨{ lbValues := s.lbValues ++ b.pocLbStack c.N
            ubValues := s.ubValues ++ b.pocUbStack c.N }, ?_, ?_, ?_⟩
  · simp only [stackAffineBounds, hs]
  · simp only [List.length_append, hl, hql c.N (Nat.le_refl _), htot, hsplit]
    rw [sum_map_range_congr _ (pointConstraintDim c) c.N (fun i hi => hql i (by omega))]
  · simp only [List.length_append, hu, hqu c.N (Nat.le_refl _), htot, hsplit]
    rw [sum_map_range_congr _ (pointConstraintDim c) c.N (fun i hi => hqu i (by omega))]

/-! ## Claims -/

/-- C1: whenever the number of QP variables fits in an `unsigned`,
`getNumQPvars` returns `N*NX + N*NU` for a fixed initial state and
`(N+1)*NX + N*NU` for a free one; for `NX = 2`, `NU = 1`, `N = 3` it returns
9 (fixed) and 11 (free). -/
theorem getNumQPvars_spec (c : Config)
    (hfit : (c.N + 1) * c.NX + c.N * c.NU < 4294967296) :
    (c.initialStateFixed = true → getNumQPvars c = c.N * c.NX + c.N * c.NU) ∧
    (c.initialStateFixed = false → getNumQPvars c = (c.N + 1) * c.NX + c.N * c.NU) ∧
    getNumQPvars { N := 3, NX := 2, NU := 1, initialStateFixed := true } = 9 ∧
    getNumQPvars { N := 3, NX := 2, NU := 1, initialStateFixed := false } = 11 := by
  have hle : c.N * c.NX + c.N * c.NU ≤ (c.N + 1) * c.NX + c.N * c.NU := by
    have : c.N * c.NX ≤ (c.N + 1) * c.NX := Nat.mul_le_mul_right c.NX (Nat.le_succ c.N)
    omega
  refine ⟨?_, ?_, by decide, by decide⟩
  · intro hfix
    simp only [getNumQPvars, hfix, if_true]
    rw [u32_add_u32]
    exact u32_of_lt (by omega)
  · intro hfree
    simp only [getNumQPvars, hfree, Bool.false_eq_true, if_false]
    rw [u32_mul_left, u32_add_u32]
    exact u32_of_lt hfit

/-- Witness for C1: the horizon `N = 10` with `NX = 4` and `NU = 2`, whose 64
variables fit, has 60 QP variables with a fixed and 64 with a free initial
state. -/
theorem getNumQPvars_spec_witness :
    (10 + 1) * 4 + 10 * 2 < 4294967296 ∧
    getNumQPvars { N := 10, NX := 4, NU := 2, initialStateFixed := true } = 60 ∧
    getNumQPvars { N := 10, NX := 4, NU := 2, initialStateFixed := false } = 64 :=
  ⟨by decide,
   (getNumQPvars_spec { N := 10, NX := 4, NU := 2, initialStateFixed := true }
      (by decide)).1 rfl,
   (getNumQPvars_spec { N := 10, NX := 4, NU := 2, initialStateFixed := false }
      (by decide)).2.1 rfl⟩

/-- C2 as stated fails: without any path or point constraint the affine
dimension of the specification is 0, but `qpLbA` and `qpUbA` get one row. -/
theorem affineBoundRows_placeholder :
    affineBoundDim emptyConfig = 0 ∧
    (setupConstraintsEvaluation (1000 : Int) emptyConfig emptyBounds).qpLbA.nRows = 1 ∧
    (setupConstraintsEvaluation (1000 : Int) emptyConfig emptyBounds).qpUbA.nRows = 1 ∧
    (setupConstraintsEvaluation (1000 : Int) emptyConfig emptyBounds).qpLbA.nRows ≠
      affineBoundDim emptyConfig := by
  decide

/-- C2 (amended): `qpLbA` and `qpUbA` are allocated with
`N*dimPacH + sum over i = 0..N of the point-constraint dimension of node i`
rows when that number is nonzero, and with one placeholder row when it is
zero. -/
theorem affineBoundRows_spec {α : Type} [Neg α] (INFTY : α) (c : Config) (b : BoundData α)
    (hN : c.N + 1 < 4294967296) (hD : 1 + c.NX + c.NU < 4294967296)
    (hfit : affineBoundDim c < 4294967296) :
    (setupConstraintsEvaluation INFTY c b).qpLbA.nRows =
      (if affineBoundDim c = 0 then 1 else affineBoundDim c) ∧
    (setupConstraintsEvaluation INFTY c b).qpUbA.nRows =
      (if affineBoundDim c = 0 then 1 else affineBoundDim c) := by
  have h := qpDimHtot_eq c hN hD hfit
  by_cases h0 : affineBoundDim c = 0
  · simp [setupConstraintsEvaluation, ExportVariable.setup, h, h0]
  · simp [setupConstraintsEvaluation, ExportVariable.setup, h, h0]

/-- Witness for C2 (amended) on `pointConfig`: `2*1 + (2 + 0 + 2) = 6` rows. -/
theorem affineBoundRows_spec_witness :
    (setupConstraintsEvaluation (1000 : Int) pointConfig emptyBounds).qpLbA.nRows = 6 ∧
    (setupConstraintsEvaluation (1000 : Int) pointConfig emptyBounds).qpUbA.nRows = 6 :=
  affineBoundRows_spec (1000 : Int) pointConfig emptyBounds (by decide) (by decide) (by decide)

/-- C3: when each configured control bound has length `NU` and each
configured state bound has length `NX`, the stacked lower and upper bound
vectors are the control bounds of nodes `0..N-1` followed by the state bounds
of nodes `1..N`, an unconfigured node contributing `NU` (resp. `NX`) entries of
`-INFTY` (resp. `INFTY`); both have length `N*NU + N*NX`, the row count with
which `qpLb` and `qpUb` are allocated. -/
theorem stackBoxBounds_spec {α : Type} [Neg α] (INFTY : α) (c : Config) (b : BoundData α)
    (hN : c.N + 1 < 4294967296) (hfit : c.N * c.NU + c.N * c.NX < 4294967296)
    (hul : ∀ node, node < c.N →
      (b.uLowerBounds node).length ≠ 0 → (b.uLowerBounds node).length = c.NU)
    (huu : ∀ node, node < c.N →
      (b.uUpperBounds node).length ≠ 0 → (b.uUpperBounds node).length = c.NU)
    (hxl : ∀ node, 1 ≤ node → node ≤ c.N →
      (b.xLowerBounds node).length ≠ 0 → (b.xLowerBounds node).length = c.NX)
    (hxu : ∀ node, 1 ≤ node → node ≤ c.N →
      (b.xUpperBounds node).length ≠ 0 → (b.xUpperBounds node).length = c.NX) :
    (stackBoxBounds INFTY c b).lbValues =
      (List.range c.N).flatMap (fun node => boundOrInf (b.uLowerBounds node) c.NU (-INFTY)) ++
      (List.range' 1 c.N).flatMap (fun node => boundOrInf (b.xLowerBounds node) c.NX (-INFTY)) ∧
    (stackBoxBounds INFTY c b).ubValues =
      (List.range c.N).flatMap (fun node => boundOrInf (b.uUpperBounds node) c.NU INFTY) ++
      (List.range' 1 c.N).flatMap (fun node => boundOrInf (b.xUpperBounds node) c.NX INFTY) ∧
    (stackBoxBounds INFTY c b).lbValues.length = c.N * c.NU + c.N * c.NX ∧
    (stackBoxBounds INFTY c b).ubValues.length = c.N * c.NU + c.N * c.NX ∧
    (setupConstraintsEvaluation INFTY c b).qpLb.nRows = c.N * c.NU + c.N * c.NX ∧
    (setupConstraintsEvaluation INFTY c b).qpUb.nRows = c.N * c.NU + c.N * c.NX := by
  have hrows : boxBoundRows c = c.N * c.NU + c.N * c.NX := by
    unfold boxBoundRows
    rw [u32_add_u32]
    exact u32_of_lt hfit
  refine ⟨stackBoxBounds_lb INFTY c b hN, stackBoxBounds_ub INFTY c b hN, ?_, ?_, ?_, ?_⟩
  · rw [stackBoxBounds_lb INFTY c b hN]
    exact length_stackedBounds c _ _ _ _ hul hxl
  · rw [stackBoxBounds_ub INFTY c b hN]
    exact length_stackedBounds c _ _ _ _ huu hxu
  · simpa [setupConstraintsEvaluation, ExportVariable.setup] using hrows
  · simpa [setupConstraintsEvaluation, ExportVariable.setup] using hrows

/-- Witness for C3 on `boxConfig` and `boxBounds` with `INFTY = 1000`. -/
theorem stackBoxBounds_spec_witness :
    (stackBoxBounds (1000 : Int) boxConfig boxBounds).lbValues = [-5, -1000, -1000, -1000] ∧
    (stackBoxBounds (1000 : Int) boxConfig boxBounds).ubValues = [5, 1000, 1000, 7] ∧
    (setupConstraintsEvaluation (1000 : Int) boxConfig boxBounds).qpLb.nRows = 4 := by
  have h := stackBoxBounds_spec (1000 : Int) boxConfig boxBounds (by decide) (by decide)
    (by intro node _ h; by_cases h0 : node = 0 <;> simp_all [boxBounds, boxConfig])
    (by intro node _ h; by_cases h0 : node = 0 <;> simp_all [boxBounds, boxConfig])
    (by intro node _ _ h; simp [boxBounds] at h)
    (by intro node _ _ h; by_cases h0 : node = 2 <;> simp_all [boxBounds, boxConfig])
  exact ⟨h.1.trans (by decide), h.2.1.trans (by decide), h.2.2.2.2.1⟩

/-- C4: a given block `Q1`, `R1` or `QN1` with matrix `M` is, after
`setupObjectiveEvaluation`, the given block `M + lambda * I` when
`levenbergMarquardt = lambda > 0` and the given block `M` when
`levenbergMarquardt = 0`. -/
theorem given_blocks_damped {R : Type} [LinearOrderedRing R] {NX NU : Nat} (lm : R)
    (w : HessianBlocks R NX NU) :
    (∀ M, w.Q1 = some M →
      (0 < lm → (setupObjectiveEvaluation lm w).Q1 =
        some (M + lm • (1 : Matrix (Fin NX) (Fin NX) R))) ∧
      (lm = 0 → (setupObjectiveEvaluation lm w).Q1 = some M)) ∧
    (∀ M, w.R1 = some M →
      (0 < lm → (setupObjectiveEvaluation lm w).R1 =
        some (M + lm • (1 : Matrix (Fin NU) (Fin NU) R))) ∧
      (lm = 0 → (setupObjectiveEvaluation lm w).R1 = some M)) ∧
    (∀ M, w.QN1 = some M →
      (0 < lm → (setupObjectiveEvaluation lm w).QN1 =
        some (M + lm • (1 : Matrix (Fin NX) (Fin NX) R))) ∧
      (lm = 0 → (setupObjectiveEvaluation lm w).QN1 = some M)) := by
  refine ⟨?_, ?_, ?_⟩
  · intro M hM
    constructor
    · intro hpos
      simp only [setupObjectiveEvaluation, hM, dampGiven_of_pos lm hpos]
    · intro hzero
      simp only [setupObjectiveEvaluation, hM, hzero, dampGiven_of_zero]
  · intro M hM
    constructor
    · intro hpos
      simp only [setupObjectiveEvaluation, hM, dampGiven_of_pos lm hpos]
    · intro hzero
      simp only [setupObjectiveEvaluation, hM, hzero, dampGiven_of_zero]
  · intro M hM
    constructor
    · intro hpos
      simp only [setupObjectiveEvaluation, hM, dampGiven_of_pos lm hpos]
    · intro hzero
      simp only [setupObjectiveEvaluation, hM, hzero, dampGiven_of_zero]

/-- Witness for C4 on `givenBlocks`: with `levenbergMarquardt = 3` the diagonal
of `Q1` grows from 4 to 7 and `R1` from 2 to 5; with 0 both are unchanged. -/
theorem given_blocks_damped_witness :
    (setupObjectiveEvaluation 3 givenBlocks).Q1 =
      some (Matrix.of (fun i j => if i = j then 7 else 1)) ∧
    (setupObjectiveEvaluation 3 givenBlocks).R1 = some (Matrix.of (fun _ _ => 5)) ∧
    (setupObjectiveEvaluation 0 givenBlocks).Q1 =
      some (Matrix.of (fun i j => if i = j then 4 else 1)) :=
  ⟨(((given_blocks_damped (3 : Int) givenBlocks).1 _ rfl).1 (by decide)).trans
      (by rw [Option.some.injEq]; ext i j; fin_cases i <;> fin_cases j <;> rfl),
   (((given_blocks_damped (3 : Int) givenBlocks).2.1 _ rfl).1 (by decide)).trans
      (by rw [Option.some.injEq]; ext i j; fin_cases i; fin_cases j; rfl),
   ((given_blocks_damped (0 : Int) givenBlocks).1 _ rfl).2 rfl⟩

/-- C5 as stated fails: on `emptyConfig` the bound values are not hardcoded,
but there is no affine constraint, and the affine bound-value arrays are
compile-time constants that `initialize` never assigns: only the two box
arrays are assigned there. -/
theorem affineBoundValues_constant_without_hardcode :
    emptyConfig.hardcodeConstraintValues = false ∧
    setupAffineBoundValues emptyConfig emptyBounds =
      some { evLbAValues :=
               ExportVariable.setupData "lbAValues" [] .STATIC_CONST_REAL .ACADO_LOCAL
             evUbAValues :=
               ExportVariable.setupData "ubAValues" [] .STATIC_CONST_REAL .ACADO_LOCAL
             initializeStmts := [] } ∧
    (setupConstraintsEvaluation (1000 : Int) emptyConfig emptyBounds).initializeStmts.map
      (fun st => st.lhs.name) = ["lbValues", "ubValues"] := by
  decide

/-- C5 (amended): for bound data that have the shapes of the constraints (and
dimensions that fit in an `unsigned`) the bound values are stacked into vectors
of the allocated lengths. With hardcoded constraint values all four bound-value
arrays are compile-time constants holding the stacked values and `initialize`
gets no statement. Without, the box arrays are run-time `ACADO_VARIABLES` arrays,
each assigned its stacked values by one statement of `initialize`; the affine
arrays are so too when the total affine dimension `qpDimHtot` is nonzero, and
are compile-time constants holding the stacked values when it is zero. -/
theorem boundValueArrays_spec {α : Type} [Neg α] (INFTY : α) (c : Config) (b : BoundData α)
    (hN : c.N + 1 < 4294967296) (hD : 1 + c.NX + c.NU < 4294967296)
    (hfitBox : c.N * c.NU + c.N * c.NX < 4294967296)
    (hfit : affineBoundDim c < 4294967296)
    (hul : ∀ node, node < c.N →
      (b.uLowerBounds node).length ≠ 0 → (b.uLowerBounds node).length = c.NU)
    (huu : ∀ node, node < c.N →
      (b.uUpperBounds node).length ≠ 0 → (b.uUpperBounds node).length = c.NU)
    (hxl : ∀ node, 1 ≤ node → node ≤ c.N →
      (b.xLowerBounds node).length ≠ 0 → (b.xLowerBounds node).length = c.NX)
    (hxu : ∀ node, 1 ≤ node → node ≤ c.N →
      (b.xUpperBounds node).length ≠ 0 → (b.xUpperBounds node).length = c.NX)
    (hpl : c.N * c.dimPacH ≤ b.lbPathConValues.length)
    (hpu : c.N * c.dimPacH ≤ b.ubPathConValues.length)
    (hql : ∀ i, i ≤ c.N → (b.pocLbStack i).length = pointConstraintDim c i)
    (hqu : ∀ i, i ≤ c.N → (b.pocUbStack i).length = pointConstraintDim c i) :
    ∃ aff, stackAffineBounds c b = some aff ∧
      (stackBoxBounds INFTY c b).lbValues.length = boxBoundRows c ∧
      (stackBoxBounds INFTY c b).ubValues.length = boxBoundRows c ∧
      aff.lbValues.length = (setupConstraintDims c).qpDimHtot ∧
      aff.ubValues.length = (setupConstraintDims c).qpDimHtot ∧
      (c.hardcodeConstraintValues = true →
        (setupConstraintsEvaluation INFTY c b).evLbValues =
          ExportVariable.setupData "evLbValues" (stackBoxBounds INFTY c b).lbValues
            .STATIC_CONST_REAL .ACADO_LOCAL ∧
        (setupConstraintsEvaluation INFTY c b).evUbValues =
          ExportVariable.setupData "evUbValues" (stackBoxBounds INFTY c b).ubValues
            .STATIC_CONST_REAL .ACADO_LOCAL ∧
        (setupConstraintsEvaluation INFTY c b).initializeStmts = [] ∧
        setupAffineBoundValues c b =
          some { evLbAValues :=
                   ExportVariable.setupData "lbAValues" aff.lbValues
                     .STATIC_CONST_REAL .ACADO_LOCAL
                 evUbAValues :=
                   ExportVariable.setupData "ubAValues" aff.ubValues
                     .STATIC_CONST_REAL .ACADO_LOCAL
                 initializeStmts := [] }) ∧
      (c.hardcodeConstraintValues = false →
        (setupConstraintsEvaluation INFTY c b).evLbValues =
          ExportVariable.setup "lbValues" (boxBoundRows c) 1 .REAL .ACADO_VARIABLES ∧
        (setupConstraintsEvaluation INFTY c b).evUbValues =
          ExportVariable.setup "ubValues" (boxBoundRows c) 1 .REAL .ACADO_VARIABLES ∧
        (setupConstraintsEvaluation INFTY c b).initializeStmts =
          [{ lhs := ExportVariable.setup "lbValues" (boxBoundRows c) 1 .REAL .ACADO_VARIABLES,
             rhs := (stackBoxBounds INFTY c b).lbValues },
           { lhs := ExportVariable.setup "ubValues" (boxBoundRows c) 1 .REAL .ACADO_VARIABLES,
             rhs := (stackBoxBounds INFTY c b).ubValues }] ∧
        ((setupConstraintDims c).qpDimHtot ≠ 0 →
          setupAffineBoundValues c b =
            some { evLbAValues :=
                     ExportVariable.setup "lbAValues" (setupConstraintDims c).qpDimHtot 1
                       .REAL .ACADO_VARIABLES
                   evUbAValues :=
                     ExportVariable.setup "ubAValues" (setupConstraintDims c).qpDimHtot 1
                       .REAL .ACADO_VARIABLES
                   initializeStmts :=
                     [{ lhs := ExportVariable.setup "lbAValues"
                          (setupConstraintDims c).qpDimHtot 1 .REAL .ACADO_VARIABLES,
                        rhs := aff.lbValues },
                      { lhs := ExportVariable.setup "ubAValues"
                          (setupConstraintDims c).qpDimHtot 1 .REAL .ACADO_VARIABLES,
                        rhs := aff.ubValues }] }) ∧
        ((setupConstraintDims c).qpDimHtot = 0 →
          setupAffineBoundValues c b =
            some { evLbAValues :=
                     ExportVariable.setupData "lbAValues" aff.lbValues
                       .STATIC_CONST_REAL .ACADO_LOCAL
                   evUbAValues :=
                     ExportVariable.setupData "ubAValues" aff.ubValues
                       .STATIC_CONST_REAL .ACADO_LOCAL
                   initializeStmts := [] })) := by
  obtain ⟨aff, haff, hl, hu⟩ := stackAffineBounds_length c b hN hD hfit hpl hpu hql hqu
  have hrows : boxBoundRows c = c.N * c.NU + c.N * c.NX := by
    unfold boxBoundRows
    rw [u32_add_u32]
    exact u32_of_lt hfitBox
  have hlb : (stackBoxBounds INFTY c b).lbValues.length = boxBoundRows c := by
    rw [stackBoxBounds_lb INFTY c b hN, hrows]
    exact length_stackedBounds c _ _ _ _ hul hxl
  have hub : (stackBoxBounds INFTY c b).ubValues.length = boxBoundRows c := by
    rw [stackBoxBounds_ub INFTY c b hN, hrows]
    exact length_stackedBounds c _ _ _ _ huu hxu
  refine ⟨aff, haff, hlb, hub, hl, hu, ?_, ?_⟩
  · intro hh
    simp [setupConstraintsEvaluation, setupAffineBoundValues, haff, hh]
  · intro hh
    refine ⟨by simp [setupConstraintsEvaluation, hh], by simp [setupConstraintsEvaluation, hh],
      by simp [setupConstraintsEvaluation, hh], ?_, ?_⟩
    · intro h0
      simp [setupAffineBoundValues, haff, hh, h0]
    · intro h0
      simp [setupAffineBoundValues, haff, hh, h0]

/-- Witness for C5 (amended) on `runtimeConfig` with `affineBounds`: the affine
dimension is 6, the stacked affine bounds have 6 entries, and `initialize`
assigns the two run-time affine arrays, each once. -/
theorem boundValueArrays_spec_witness :
    (∃ aff, stackAffineBounds runtimeConfig affineBounds = some aff ∧
      aff.lbValues.length = 6 ∧ aff.ubValues.length = 6) ∧
    setupAffineBoundValues runtimeConfig affineBounds =
      some { evLbAValues := ExportVariable.setup "lbAValues" 6 1 .REAL .ACADO_VARIABLES
             evUbAValues := ExportVariable.setup "ubAValues" 6 1 .REAL .ACADO_VARIABLES
             initializeStmts :=
               [{ lhs := ExportVariable.setup "lbAValues" 6 1 .REAL .ACADO_VARIABLES,
                  rhs := [-1, -2, -2, -1, -3, -3] },
                { lhs := ExportVariable.setup "ubAValues" 6 1 .REAL .ACADO_VARIABLES,
                  rhs := [1, 2, 2, 1, 3, 3] }] } ∧
    (setupConstraintsEvaluation (1000 : Int) runtimeConfig affineBounds).initializeStmts =
      [{ lhs := ExportVariable.setup "lbValues" 4 1 .REAL .ACADO_VARIABLES,
         rhs := [-5, -1000, -1000, -1000] },
       { lhs := ExportVariable.setup "ubValues" 4 1 .REAL .ACADO_VARIABLES,
         rhs := [5, 1000, 1000, 7] }] :=
  ⟨(boundValueArrays_spec (1000 : Int) runtimeConfig affineBounds
      (by decide) (by decide) (by decide) (by decide)
      (by intro node _ h; by_cases h0 : node = 0 <;>
            simp_all [affineBounds, runtimeConfig, pointConfig])
      (by intro node _ h; by_cases h0 : node = 0 <;>
            simp_all [affineBounds, runtimeConfig, pointConfig])
      (by intro node _ _ h; simp [affineBounds] at h)
      (by intro node _ _ h; by_cases h0 : node = 2 <;>
            simp_all [affineBounds, runtimeConfig, pointConfig])
      (by decide) (by decide)
      (by intro i hi
          have hi' : i ≤ 2 := hi
          interval_cases i <;> rfl)
      (by intro i hi
          have hi' : i ≤ 2 := hi
          interval_cases i <;> rfl)).imp
      (fun _ h => ⟨h.1, h.2.2.2.1.trans (by decide), h.2.2.2.2.1.trans (by decide)⟩),
   by decide, by decide⟩

/-- C6 as stated fails: zero residuals and zero multipliers do not make `getKKT`
return 0. On `unitGradientArrays` the residuals `d`, the bound gaps and all
multipliers are zero and `getKKT` returns 5, with a fixed and with a free
initial state; on `slopeGradientArrays`, where the objective residual `Dy` is
zero as well and the stage gradients are the slope terms, it returns 3. -/
theorem getKKT_nonzero_with_zero_residuals :
    (∀ i, unitGradientArrays.d i = 0) ∧
    (∀ i, unitGradientArrays.qpLb i = 0 ∧ unitGradientArrays.qpUb i = 0 ∧
      unitGradientArrays.qpLbA i = 0 ∧ unitGradientArrays.qpUbA i = 0) ∧
    (∀ i, unitGradientArrays.qpLambda i = 0 ∧ unitGradientArrays.qpMu i = 0) ∧
    getKKT kktConfig 3 unitGradientArrays = 5 ∧
    getKKT kktFreeConfig 3 unitGradientArrays = 5 ∧
    (∀ i, slopeGradientArrays.d i = 0 ∧ slopeGradientArrays.qpLambda i = 0 ∧
      slopeGradientArrays.qpMu i = 0) ∧
    getKKT kktConfig 3 slopeGradientArrays = 3 :=
  ⟨fun _ => rfl, fun _ => ⟨rfl, rfl, rfl, rfl⟩, fun _ => ⟨rfl, rfl⟩, by decide, by decide,
   fun _ => ⟨rfl, rfl, rfl⟩, by decide⟩

/-- C6 (amended): for every `N`, `NX`, `NU` (so for `N = 1`), with a fixed and
with a free initial state, the emitted `getKKT` returns 0 whenever the gradient
vectors `qpq`, `qpqf`, `qpr` and the multipliers `qpLambda`, `qpMu` are zero,
whatever the steps, the residuals `d` and the bound gaps are. -/
theorem getKKT_zero {R : Type} [LinearOrderedRing R] (c : Config) (qpDimHtot : Nat)
    (v : KKTArrays R)
    (hq : ∀ i, v.qpq i = 0) (hqf : ∀ i, v.qpqf i = 0) (hr : ∀ i, v.qpr i = 0)
    (hLambda : ∀ i, v.qpLambda i = 0) (hMu : ∀ i, v.qpMu i = 0) :
    getKKT c qpDimHtot v = 0 := by
  unfold getKKT
  simp only [dot_zero_left _ _ _ hq, dot_zero_left _ _ _ hqf, dot_zero_left _ _ _ hr,
    kktLoop_zero_multiplier _ _ _ _ _ hLambda, kktLoop_zero_multiplier _ _ _ _ _ hMu,
    abs_zero, add_zero, ite_self]

/-- Witness for C6 (amended): the horizon `N = 1` with fixed and with free
initial state, on arrays whose steps, residuals `d` and bounds are nonzero. -/
theorem getKKT_zero_witness :
    getKKT { N := 1, NX := 2, NU := 1, initialStateFixed := true } 3 stationaryArrays = 0 ∧
    getKKT { N := 1, NX := 2, NU := 1, initialStateFixed := false } 3 stationaryArrays = 0 :=
  ⟨getKKT_zero _ 3 stationaryArrays (fun _ => rfl) (fun _ => rfl) (fun _ => rfl)
      (fun _ => rfl) (fun _ => rfl),
   getKKT_zero _ 3 stationaryArrays (fun _ => rfl) (fun _ => rfl) (fun _ => rfl)
      (fun _ => rfl) (fun _ => rfl)⟩

/-- C7: with the member `updateArrivalCost` as `setup` leaves it, the routine is
emitted if and only if `useArrivalCost` is enabled: disabled, it is neither among
the function bodies of `getCode` nor among the declarations of
`getFunctionDeclarations`; enabled, it is in both, is named
`updateArrivalCost`, takes the integer flag `reset` and returns the integer
`ret`. -/
theorem updateArrivalCost_emitted (c : Config) (useOMP : Bool) (pointSize : Nat)
    (fs : SolverFunctions) (hfs : fs.updateArrivalCost = setupArrivalCost c) :
    (c.useArrivalCost = false →
      CodeEntry.function fs.updateArrivalCost ∉ getCode c useOMP pointSize fs ∧
      CodeEntry.functionDeclaration fs.updateArrivalCost ∉ getFunctionDeclarations fs) ∧
    (c.useArrivalCost = true →
      CodeEntry.function fs.updateArrivalCost ∈ getCode c useOMP pointSize fs ∧
      CodeEntry.functionDeclaration fs.updateArrivalCost ∈ getFunctionDeclarations fs ∧
      fs.updateArrivalCost.name = "updateArrivalCost" ∧
      fs.updateArrivalCost.arguments = [{ name := "reset", type := .INT }] ∧
      fs.updateArrivalCost.returnValue = some { name := "ret", type := .INT }) := by
  constructor
  · intro hoff
    have hundef : fs.updateArrivalCost.defined = false := by
      rw [hfs]
      simp [setupArrivalCost, hoff]
    constructor
    · intro hmem
      have := defined_of_mem_getCode c useOMP pointSize fs _ hmem
      rw [hundef] at this
      exact Bool.noConfusion this
    · intro hmem
      have := defined_of_mem_getFunctionDeclarations fs _ hmem
      rw [hundef] at this
      exact Bool.noConfusion this
  · intro hon
    have hdef : fs.updateArrivalCost.defined = true := by
      rw [hfs]
      simp [setupArrivalCost, hon]
    refine ⟨?_, ?_, ?_, ?_, ?_⟩
    · unfold getCode
      apply List.mem_append_right
      simp [hon, addFunction, hdef]
    · unfold getFunctionDeclarations
      apply List.mem_append_right
      simp [addDeclaration, hdef]
    · rw [hfs]
      simp [setupArrivalCost, hon]
    · rw [hfs]
      simp [setupArrivalCost, hon]
    · rw [hfs]
      simp [setupArrivalCost, hon]

/-- Witness for C7: the scenario without arrival cost emits no
`updateArrivalCost`, the one with arrival cost emits its body and its
declaration. -/
theorem updateArrivalCost_emitted_witness :
    (CodeEntry.function (scenarioFunctions scenarioConfig).updateArrivalCost ∉
        getCode scenarioConfig false 4 (scenarioFunctions scenarioConfig) ∧
      CodeEntry.functionDeclaration (scenarioFunctions scenarioConfig).updateArrivalCost ∉
        getFunctionDeclarations (scenarioFunctions scenarioConfig)) ∧
    (CodeEntry.function (scenarioFunctions arrivalConfig).updateArrivalCost ∈
        getCode arrivalConfig false 4 (scenarioFunctions arrivalConfig) ∧
      CodeEntry.functionDeclaration (scenarioFunctions arrivalConfig).updateArrivalCost ∈
        getFunctionDeclarations (scenarioFunctions arrivalConfig)) :=
  ⟨(updateArrivalCost_emitted scenarioConfig false 4 (scenarioFunctions scenarioConfig)
      rfl).1 rfl,
   ((updateArrivalCost_emitted arrivalConfig false 4 (scenarioFunctions arrivalConfig)
      rfl).2 rfl).1,
   ((updateArrivalCost_emitted arrivalConfig false 4 (scenarioFunctions arrivalConfig)
      rfl).2 rfl).2.1⟩

/-- C8: an interior node `i < N` with a point constraint of width
`(1+NX+NU)*k` gets dimension `k` and `qpConDim[i] = dimPacH + k`; an interior
node without point constraint has `qpConDim[i] = dimPacH`; `qpConDim[N]` is `k`
for a terminal point constraint of width `(1+NX)*k` and `0` without one; for
width `(1+NX+NU)*2` the derived dimension is 2. -/
theorem qpConDim_spec (c : Config) (i k : Nat)
    (hN : c.N + 1 < 4294967296) (hD : 1 + c.NX + c.NU < 4294967296)
    (hk : c.dimPacH + k < 4294967296) :
    (i < c.N → ∀ f, c.evaluatePointConstraints i = some f →
      f.functionDim = (1 + c.NX + c.NU) * k →
      interiorDim c f = k ∧ (setupConstraintDims c).qpConDim[i]? = some (c.dimPacH + k)) ∧
    (i < c.N → c.evaluatePointConstraints i = none →
      (setupConstraintDims c).qpConDim[i]? = some c.dimPacH) ∧
    (∀ f, c.evaluatePointConstraints c.N = some f → f.functionDim = (1 + c.NX) * k →
      terminalDim c f = k ∧ (setupConstraintDims c).qpConDim[c.N]? = some k) ∧
    (c.evaluatePointConstraints c.N = none →
      (setupConstraintDims c).qpConDim[c.N]? = some 0) ∧
    (∀ f : ExportAcadoFunction, f.functionDim = (1 + c.NX + c.NU) * 2 →
      interiorDim c f = 2) := by
  obtain ⟨_, hlen, hint, hterm⟩ := setupConstraintDims_closed c hN
  refine ⟨?_, ?_, ?_, ?_, ?_⟩
  · intro hi f hf hw
    have hdim : interiorDim c f = k := by
      rw [interiorDim_eq c f hD, hw]
      exact Nat.mul_div_cancel_left k (by omega)
    refine ⟨hdim, getElem?_of_getD _ _ _ (by omega) ?_⟩
    rw [hint i hi]
    simp only [interiorPointDim, hf, hdim]
    exact u32_of_lt hk
  · intro hi hf
    refine getElem?_of_getD _ _ _ (by omega) ?_
    rw [hint i hi]
    simp only [interiorPointDim, hf, Nat.add_zero]
    exact u32_of_lt (by omega)
  · intro f hf hw
    have hdim : terminalDim c f = k := by
      rw [terminalDim_eq c f hD, hw]
      exact Nat.mul_div_cancel_left k (by omega)
    refine ⟨hdim, getElem?_of_getD _ _ _ (by omega) ?_⟩
    rw [hterm]
    simp only [terminalPointDim, hf, hdim]
    exact u32_of_lt (by omega)
  · intro hf
    refine getElem?_of_getD _ _ _ (by omega) ?_
    rw [hterm]
    simp only [terminalPointDim, hf]
    rfl
  · intro f hw
    rw [interiorDim_eq c f hD, hw]
    exact Nat.mul_div_cancel_left 2 (by omega)

/-- Witness for C8 on `pointConfig` with `k = 2`: `qpConDim` is `[3, 1, 2]`. -/
theorem qpConDim_spec_witness :
    (setupConstraintDims pointConfig).qpConDim[0]? = some 3 ∧
    (setupConstraintDims pointConfig).qpConDim[1]? = some 1 ∧
    (setupConstraintDims pointConfig).qpConDim[2]? = some 2 :=
  ⟨((qpConDim_spec pointConfig 0 2 (by decide) (by decide) (by decide)).1 (by decide)
      { name := "evaluatePointConstraint0", functionDim := 6 } rfl rfl).2,
   (qpConDim_spec pointConfig 1 2 (by decide) (by decide) (by decide)).2.1 (by decide) rfl,
   ((qpConDim_spec pointConfig 0 2 (by decide) (by decide) (by decide)).2.2.1
      { name := "evaluatePointConstraint2", functionDim := 4 } rfl rfl).2⟩

/-- C9 as stated fails: on `truncConfig` the width 4 of node 0 is not a
multiple of `1 + NX + NU = 3`, yet the status is `SUCCESSFUL_RETURN` and the
dimension is the truncated quotient 1. -/
theorem setupConstraintsEvaluation_no_abort :
    ¬ (1 + truncConfig.NX + truncConfig.NU ∣ 4) ∧
    truncConfig.evaluatePointConstraints 0 =
      some { name := "evaluatePointConstraint0", functionDim := 4 } ∧
    (setupConstraintsEvaluation (1000 : Int) truncConfig emptyBounds).status =
      returnValue.SUCCESSFUL_RETURN ∧
    (setupConstraintsEvaluation (1000 : Int) truncConfig emptyBounds).dims.qpConDim = [1, 0] := by
  decide

/-- C9 (amended): `setupConstraintsEvaluation` makes no divisibility check. For
every configuration it returns `SUCCESSFUL_RETURN`, and the dimension it
derives for a point constraint is the truncated quotient of the width by
`1 + NX + NU` (interior node) or `1 + NX` (terminal node). -/
theorem setupConstraintsEvaluation_status {α : Type} [Neg α] (INFTY : α) (c : Config)
    (b : BoundData α) :
    (setupConstraintsEvaluation INFTY c b).status = returnValue.SUCCESSFUL_RETURN ∧
    (c.N + 1 < 4294967296 → 1 + c.NX + c.NU < 4294967296 →
      (∀ i f, i < c.N → c.evaluatePointConstraints i = some f →
        (setupConstraintsEvaluation INFTY c b).dims.qpConDim.getD i 0 =
          u32 (c.dimPacH + f.functionDim / (1 + c.NX + c.NU))) ∧
      (∀ f, c.evaluatePointConstraints c.N = some f →
        (setupConstraintsEvaluation INFTY c b).dims.qpConDim.getD c.N 0 =
          u32 (f.functionDim / (1 + c.NX)))) := by
  refine ⟨rfl, ?_⟩
  intro hN hD
  obtain ⟨_, _, hint, hterm⟩ := setupConstraintDims_closed c hN
  have hd : (setupConstraintsEvaluation INFTY c b).dims = setupConstraintDims c := rfl
  rw [hd]
  constructor
  · intro i f hi hf
    rw [hint i hi]
    simp only [interiorPointDim, hf, interiorDim_eq c f hD]
  · intro f hf
    rw [hterm]
    simp only [terminalPointDim, hf, terminalDim_eq c f hD]

/-- Witness for C9 (amended) on `truncConfig`: success, and `4 / 3 = 1`. -/
theorem setupConstraintsEvaluation_status_witness :
    (setupConstraintsEvaluation (1000 : Int) truncConfig emptyBounds).status =
      returnValue.SUCCESSFUL_RETURN ∧
    (setupConstraintsEvaluation (1000 : Int) truncConfig emptyBounds).dims.qpConDim.getD 0 0 =
      u32 (0 + 4 / (1 + 1 + 1)) :=
  ⟨(setupConstraintsEvaluation_status (1000 : Int) truncConfig emptyBounds).1,
   ((setupConstraintsEvaluation_status (1000 : Int) truncConfig emptyBounds).2
      (by decide) (by decide)).1 0
      { name := "evaluatePointConstraint0", functionDim := 4 } (by decide) rfl⟩

/-- C10: the emitted preparation routine is exactly the three statements
`ret = modelSimulation();`, `evaluateObjective();`, `evaluateConstraints();`
in this order; for every integrator status `s`, zero or not, its run makes
these three calls in order and returns `s`. -/
theorem preparation_spec (modelSimulationName : String) (status : String → Int) (s : Int)
    (hs : status modelSimulationName = s) :
    (setupPreparation modelSimulationName).statements =
      [.assignCall "ret" modelSimulationName,
       .functionCall "evaluateObjective",
       .functionCall "evaluateConstraints"] ∧
    (setupPreparation modelSimulationName).run status =
      (some s, [modelSimulationName, "evaluateObjective", "evaluateConstraints"]) := by
  constructor
  · rfl
  · simp [ExportFunction.run, setupPreparation, execStatement, hs]

/-- Witness for C10: an integrator failing with status 5 (the other routines
return nothing of interest). -/
theorem preparation_spec_witness :
    (setupPreparation "modelSimulation").run
        (fun callee => if callee = "modelSimulation" then 5 else 0) =
      (some 5, ["modelSimulation", "evaluateObjective", "evaluateConstraints"]) :=
  (preparation_spec "modelSimulation"
    (fun callee => if callee = "modelSimulation" then 5 else 0) 5 (by decide)).2

/-- C13: with a free initial state `setupVariables` sets up `xAC` (NX x 1),
`SAC` (NX x NX), `sigmaN` (NX x NX) and `DxAC` (NX x 1) and not `x0`; with a
fixed one it sets up `x0` (NX x 1, in `ACADO_VARIABLES`) and none of the four. -/
theorem setupVariables_spec {α : Type} (c : Config) :
    (c.initialStateFixed = false →
      (setupVariables c : VariablesSetup α).xAC =
        some (ExportVariable.setup "xAC" c.NX 1 .REAL .ACADO_VARIABLES) ∧
      (setupVariables c : VariablesSetup α).SAC =
        some (ExportVariable.setup "SAC" c.NX c.NX .REAL .ACADO_VARIABLES) ∧
      (setupVariables c : VariablesSetup α).sigmaN =
        some (ExportVariable.setup "sigmaN" c.NX c.NX .REAL .ACADO_VARIABLES) ∧
      (setupVariables c : VariablesSetup α).DxAC =
        some (ExportVariable.setup "DxAC" c.NX 1 .REAL .ACADO_WORKSPACE) ∧
      (setupVariables c : VariablesSetup α).x0 = none) ∧
    (c.initialStateFixed = true →
      (setupVariables c : VariablesSetup α).x0 =
        some (ExportVariable.setup "x0" c.NX 1 .REAL .ACADO_VARIABLES) ∧
      (setupVariables c : VariablesSetup α).xAC = none ∧
      (setupVariables c : VariablesSetup α).SAC = none ∧
      (setupVariables c : VariablesSetup α).sigmaN = none ∧
      (setupVariables c : VariablesSetup α).DxAC = none) := by
  constructor
  · intro h
    simp [setupVariables, h]
  · intro h
    simp [setupVariables, h]

/-- Witness for C13 on the scenario `NX = 2`, `NU = 1`, `N = 3`: free, `SAC` is
2 x 2 and `x0` is absent; fixed, `x0` is 2 x 1 and `SAC` is absent. -/
theorem setupVariables_spec_witness :
    ((setupVariables arrivalConfig : VariablesSetup Int).SAC =
        some (ExportVariable.setup "SAC" 2 2 .REAL .ACADO_VARIABLES) ∧
      (setupVariables arrivalConfig : VariablesSetup Int).x0 = none) ∧
    ((setupVariables scenarioConfig : VariablesSetup Int).x0 =
        some (ExportVariable.setup "x0" 2 1 .REAL .ACADO_VARIABLES) ∧
      (setupVariables scenarioConfig : VariablesSetup Int).SAC = none) :=
  ⟨⟨((setupVariables_spec arrivalConfig).1 rfl).2.1,
    ((setupVariables_spec arrivalConfig).1 rfl).2.2.2.2⟩,
   ⟨((setupVariables_spec scenarioConfig).2 rfl).1,
    ((setupVariables_spec scenarioConfig).2 rfl).2.2.1⟩⟩

/-- C15: for `lambda = levenbergMarquardt >= 0`, `setObjQ1Q2` yields
`Q2 = Fx^T*S` and `Q1 = Fx^T*S*Fx + lambda*I`, `setObjR1R2` yields `R2 = Fu^T*S`
and `R1 = Fu^T*S*Fu + lambda*I`, `setObjS1` yields `S1 = Fx^T*S*Fu`,
`setObjQN1QN2` yields `QN2 = FxEnd^T*SEnd` and
`QN1 = FxEnd^T*SEnd*FxEnd + lambda*I`; for `lambda = 0` the damping matrices
are zero. -/
theorem setObj_spec {R : Type} [LinearOrderedRing R] {NX NU NY NYN : Nat} (lm : R)
    (hlm : 0 ≤ lm)
    (Fx : Matrix (Fin NY) (Fin NX) R) (Fu : Matrix (Fin NY) (Fin NU) R)
    (S : Matrix (Fin NY) (Fin NY) R)
    (FxEnd : Matrix (Fin NYN) (Fin NX) R) (SEnd : Matrix (Fin NYN) (Fin NYN) R) :
    (setObjQ1Q2 lm Fx S).2 = Fx.transpose * S ∧
    (setObjQ1Q2 lm Fx S).1 =
      Fx.transpose * S * Fx + lm • (1 : Matrix (Fin NX) (Fin NX) R) ∧
    (setObjR1R2 lm Fu S).2 = Fu.transpose * S ∧
    (setObjR1R2 lm Fu S).1 =
      Fu.transpose * S * Fu + lm • (1 : Matrix (Fin NU) (Fin NU) R) ∧
    setObjS1 Fx Fu S = Fx.transpose * S * Fu ∧
    (setObjQN1QN2 lm FxEnd SEnd).2 = FxEnd.transpose * SEnd ∧
    (setObjQN1QN2 lm FxEnd SEnd).1 =
      FxEnd.transpose * SEnd * FxEnd + lm • (1 : Matrix (Fin NX) (Fin NX) R) ∧
    evLm NX (0 : R) = 0 ∧ evLm NU (0 : R) = 0 := by
  refine ⟨rfl, ?_, rfl, ?_, rfl, rfl, ?_, evLm_zero NX, evLm_zero NU⟩
  · simp only [setObjQ1Q2, evLm_of_nonneg NX lm hlm]
  · simp only [setObjR1R2, evLm_of_nonneg NU lm hlm]
  · simp only [setObjQN1QN2, evLm_of_nonneg NX lm hlm]

/-- Witness for C15 on `exampleFx`, `exampleS` with `levenbergMarquardt = 3`:
`Q1 = Fx^T*S*Fx + 3*I` has the entries 5, 7, 7, 41. -/
theorem setObj_spec_witness :
    (setObjQ1Q2 (3 : Int) exampleFx exampleS).1 =
      Matrix.of (fun i j =>
        if i = 0 then (if j = 0 then 5 else 7) else (if j = 0 then 7 else 41)) :=
  ((setObj_spec (3 : Int) (by decide) exampleFx exampleFx exampleS exampleFx exampleS).2.1).trans
    (by ext i j; fin_cases i <;> fin_cases j <;> rfl)

/-- Counterexample for C20: in `double` arithmetic the block `Q1` of
`setObjQ1Q2` need not be symmetric. For `tmpFx = [0.1 0.3]`, the symmetric
`tmpObjS = [0.2]` and `levenbergMarquardt = 0`, all normal `double`s with normal
`double`s as entries of `Q2` and `Q1` (no overflow or underflow), the entry
`Q1[0][1] = (0.1 * 0.2) * 0.3` is `0x1.89374bc6a7efbp-8` and the entry
`Q1[1][0] = (0.3 * 0.2) * 0.1` is `0x1.89374bc6a7efap-8`. -/
theorem setObjQ1Q2_double_not_isSymm :
    doubleS.IsSymm ∧
    (doubleTenth.isNormal = true ∧ doubleFifth.isNormal = true ∧
      doubleThreeTenths.isNormal = true) ∧
    (∀ i j, ((setObjQ1Q2Double Double.zero doubleFx doubleS).2 i j).isNormal = true) ∧
    (∀ i j, ((setObjQ1Q2Double Double.zero doubleFx doubleS).1 i j).isNormal = true) ∧
    (setObjQ1Q2Double Double.zero doubleFx doubleS).2 0 0 =
      { m := 1441151880758559, e := -56 } ∧
    (setObjQ1Q2Double Double.zero doubleFx doubleS).2 1 0 =
      { m := 1080863910568919, e := -54 } ∧
    (setObjQ1Q2Double Double.zero doubleFx doubleS).1 0 1 =
      { m := 6917529027641083, e := -60 } ∧
    (setObjQ1Q2Double Double.zero doubleFx doubleS).1 1 0 =
      { m := 3458764513820541, e := -59 } ∧
    ¬ (setObjQ1Q2Double Double.zero doubleFx doubleS).1.IsSymm := by
  set_option maxRecDepth 20000 in
  refine ⟨?_, by decide, by decide, by decide, by decide, by decide, by decide, by decide, ?_⟩
  · unfold Matrix.IsSymm; ext i j; fin_cases i; fin_cases j; rfl
  · intro h
    exact absurd (h.apply 0 1) (by decide)

/-- C20 (amended): in exact arithmetic (entries in a commutative ordered ring),
for a symmetric weighting matrix and every `levenbergMarquardt` value, the
blocks `Q1`, `R1`, `QN1` computed by `setObjQ1Q2`, `setObjR1R2`, `setObjQN1QN2`
are symmetric. -/
theorem setObj_isSymm {R : Type} [LinearOrderedCommRing R] {NX NU NY NYN : Nat} (lm : R)
    (Fx : Matrix (Fin NY) (Fin NX) R) (Fu : Matrix (Fin NY) (Fin NU) R)
    (S : Matrix (Fin NY) (Fin NY) R)
    (FxEnd : Matrix (Fin NYN) (Fin NX) R) (SEnd : Matrix (Fin NYN) (Fin NYN) R)
    (hS : S.IsSymm) (hSEnd : SEnd.IsSymm) :
    (setObjQ1Q2 lm Fx S).1.IsSymm ∧
    (setObjR1R2 lm Fu S).1.IsSymm ∧
    (setObjQN1QN2 lm FxEnd SEnd).1.IsSymm :=
  ⟨gaussNewton_isSymm Fx S hS _ (evLm_isSymm NX lm),
   gaussNewton_isSymm Fu S hS _ (evLm_isSymm NU lm),
   gaussNewton_isSymm FxEnd SEnd hSEnd _ (evLm_isSymm NX lm)⟩

/-- Witness for C20 (amended) on `exampleFx`, `exampleS` with the negative value
`levenbergMarquardt = -1` (no damping is added). -/
theorem setObj_isSymm_witness :
    exampleS.IsSymm ∧ (setObjQ1Q2 (-1 : Int) exampleFx exampleS).1.IsSymm :=
  ⟨by unfold Matrix.IsSymm; ext i j; fin_cases i <;> fin_cases j <;> rfl,
   (setObj_isSymm (-1 : Int) exampleFx exampleFx exampleS exampleFx exampleS
      (by unfold Matrix.IsSymm; ext i j; fin_cases i <;> fin_cases j <;> rfl)
      (by unfold Matrix.IsSymm; ext i j; fin_cases i <;> fin_cases j <;> rfl)).1⟩

/-- C12: when the dimensions fit in an `unsigned`, the emitted `getKKT` returns
`|qpq . qpx[0:N*NX]| + |qpqf . qpx[N*NX:(N+1)*NX]| + |qpr . qpu| +
sum |d_i * qpLambda_i|`, plus, exactly for a fixed initial state, the sums over
the box and affine bounds with the multipliers `qpMu` at the offsets `0`,
`N*NU+N*NX`, `2N(NU+NX)` and `2N(NU+NX)+qpDimHtot`; for a free initial state
the result depends neither on `qpMu` nor on a bound vector nor on
`qpDimHtot`. -/
theorem getKKT_spec {R : Type} [LinearOrderedRing R] (c : Config) (qpDimHtot : Nat)
    (v : KKTArrays R) (hfit : 2 * c.N * (c.NU + c.NX) < 4294967296) :
    getKKT c qpDimHtot v = kktFormula c qpDimHtot v ∧
    (c.initialStateFixed = false → ∀ (w : KKTArrays R) (qpDimHtot' : Nat),
      w.qpq = v.qpq → w.qpqf = v.qpqf → w.qpr = v.qpr → w.qpx = v.qpx → w.qpu = v.qpu →
      w.d = v.d → w.qpLambda = v.qpLambda →
      getKKT c qpDimHtot' w = getKKT c qpDimHtot v) := by
  obtain ⟨h1, h2, h3, h4, h5⟩ := kkt_dims_fit c hfit
  constructor
  · unfold getKKT kktFormula
    simp only [h1, h2, h3, h4, h5, dot_eq_sum, kktLoop_eq_sum, zero_add, Nat.add_zero]
    by_cases hfix : c.initialStateFixed = true
    · simp only [hfix, if_true, Nat.add_assoc, add_assoc]
    · simp only [hfix, Bool.false_eq_true, if_false, add_zero]
  · intro hfree w q' e1 e2 e3 e4 e5 e6 e7
    unfold getKKT
    simp only [hfree, Bool.false_eq_true, if_false, e1, e2, e3, e4, e5, e6, e7]

/-- Witness for C12 on `N = 1`, `NX = 2`, `NU = 1` with `qpDimHtot = 3`:
`stationaryArrays` give 0 with a fixed and with a free initial state. -/
theorem getKKT_spec_witness :
    getKKT { N := 1, NX := 2, NU := 1, initialStateFixed := true } 3 stationaryArrays =
      kktFormula { N := 1, NX := 2, NU := 1, initialStateFixed := true } 3 stationaryArrays ∧
    getKKT { N := 1, NX := 2, NU := 1, initialStateFixed := false } 7
        { stationaryArrays with qpMu := fun _ => 9, qpLb := fun _ => 1 } =
      getKKT { N := 1, NX := 2, NU := 1, initialStateFixed := false } 3 stationaryArrays :=
  ⟨(getKKT_spec { N := 1, NX := 2, NU := 1, initialStateFixed := true } 3 stationaryArrays
      (by decide)).1,
   (getKKT_spec { N := 1, NX := 2, NU := 1, initialStateFixed := false } 3 stationaryArrays
      (by decide)).2 rfl _ 7 rfl rfl rfl rfl rfl rfl rfl⟩

/-- C14: when `N*NU + N*NX` fits in an `unsigned`, the emitted
`evaluateConstraints` sets `qpLb[j] = lb[j] - u[j]` and `qpUb[j] = ub[j] - u[j]`
for `j < N*NU`, and `qpLb[N*NU + j] = lb[N*NU + j] - x[NX + j]`, likewise for
`qpUb`, for `j < N*NX`, with `u` and `x` the trajectories in memory order: the
state bounds are relative to the states of nodes `1..N`. -/
theorem evaluateConstraintsBox_spec {R : Type} [LinearOrderedRing R] (c : Config)
    (lb ub u x : Nat → R) (s : BoxArrays R)
    (hfit : c.N * c.NU + c.N * c.NX < 4294967296) :
    (∀ j, j < c.N * c.NU →
      (evaluateConstraintsBox c lb ub u x s).qpLb j = lb j - u j ∧
      (evaluateConstraintsBox c lb ub u x s).qpUb j = ub j - u j) ∧
    (∀ j, j < c.N * c.NX →
      (evaluateConstraintsBox c lb ub u x s).qpLb (c.N * c.NU + j) =
        lb (c.N * c.NU + j) - x (c.NX + j) ∧
      (evaluateConstraintsBox c lb ub u x s).qpUb (c.N * c.NU + j) =
        ub (c.N * c.NU + j) - x (c.NX + j)) ∧
    (∀ node k, 1 ≤ node → node ≤ c.N → k < c.NX →
      (evaluateConstraintsBox c lb ub u x s).qpLb (c.N * c.NU + ((node - 1) * c.NX + k)) =
        lb (c.N * c.NU + ((node - 1) * c.NX + k)) - x (node * c.NX + k)) := by
  have hU : u32 (c.N * c.NU) = c.N * c.NU := u32_of_lt (by omega)
  have hX : u32 (c.N * c.NX) = c.N * c.NX := u32_of_lt (by omega)
  have hB : u32 (c.N * c.NU + c.N * c.NX) = c.N * c.NU + c.N * c.NX := u32_of_lt hfit
  have hstate : ∀ j, j < c.N * c.NX →
      (evaluateConstraintsBox c lb ub u x s).qpLb (c.N * c.NU + j) =
        lb (c.N * c.NU + j) - x (c.NX + j) ∧
      (evaluateConstraintsBox c lb ub u x s).qpUb (c.N * c.NU + j) =
        ub (c.N * c.NU + j) - x (c.NX + j) := by
    intro j hj
    simp only [evaluateConstraintsBox, hU, hX, hB]
    exact ⟨assignDiffRows_inside _ _ _ _ _ _ _ j (by omega),
      assignDiffRows_inside _ _ _ _ _ _ _ j (by omega)⟩
  refine ⟨?_, hstate, ?_⟩
  · intro j hj
    simp only [evaluateConstraintsBox, hU, hX, hB]
    rw [assignDiffRows_outside _ _ _ _ _ _ _ j hj, assignDiffRows_outside _ _ _ _ _ _ _ j hj]
    have h0 := assignDiffRows_inside s.qpLb 0 (c.N * c.NU) lb 0 u 0 j (by omega)
    have h1 := assignDiffRows_inside s.qpUb 0 (c.N * c.NU) ub 0 u 0 j (by omega)
    simp only [Nat.zero_add] at h0 h1
    exact ⟨h0, h1⟩
  · intro node k h1 hN hk
    have hidx : (node - 1) * c.NX + k < c.N * c.NX := by
      have hle : (node - 1 + 1) * c.NX ≤ c.N * c.NX :=
        Nat.mul_le_mul_right c.NX (by omega)
      rw [Nat.add_mul, Nat.one_mul] at hle
      omega
    have hx : c.NX + ((node - 1) * c.NX + k) = node * c.NX + k := by
      have : (node - 1 + 1) * c.NX = node * c.NX := by
        rw [Nat.sub_add_cancel h1]
      rw [Nat.add_mul, Nat.one_mul] at this
      omega
    rw [(hstate _ hidx).1, hx]

/-- Witness for C14 on `boxConfig` (`N = 2`, `NX = NU = 1`): with lower bounds
all `-10`, controls `u = (1, 2)` and states `x = (5, 6, 7)`, `qpLb` becomes
`(-11, -12, -16, -17)`; the initial state 5 is skipped. -/
theorem evaluateConstraintsBox_spec_witness :
    (evaluateConstraintsBox boxConfig (fun _ => (-10 : Int)) (fun _ => 10)
        (fun j => 1 + j) (fun j => 5 + j) { qpLb := fun _ => 0, qpUb := fun _ => 0 }).qpLb 1 =
      -12 ∧
    (evaluateConstraintsBox boxConfig (fun _ => (-10 : Int)) (fun _ => 10)
        (fun j => 1 + j) (fun j => 5 + j) { qpLb := fun _ => 0, qpUb := fun _ => 0 }).qpLb
        (2 * 1 + 0) = -16 :=
  ⟨((evaluateConstraintsBox_spec boxConfig (fun _ => (-10 : Int)) (fun _ => 10)
      (fun j => 1 + j) (fun j => 5 + j) { qpLb := fun _ => 0, qpUb := fun _ => 0 }
      (by decide)).1 1 (by decide)).1,
   ((evaluateConstraintsBox_spec boxConfig (fun _ => (-10 : Int)) (fun _ => 10)
      (fun j => 1 + j) (fun j => 5 + j) { qpLb := fun _ => 0, qpUb := fun _ => 0 }
      (by decide)).2.1 0 (by decide)).1⟩

/-- C16: for every node index `i`, `setStagef` computes
`q_i = Q2_i * Dy_i + slope_x` and `r_i = R2_i * Dy_i + slope_u`, where `Dy_i` is
rows `i*NY..(i+1)*NY` of `Dy`, and `Q2_i` (`R2_i`) is rows `i*NX..(i+1)*NX` of
`Q2` (rows `i*NU..(i+1)*NU` of `R2`) when the block is not given and the whole
matrix `Q2` (`R2`) when it is given. -/
theorem setStagef_spec {R : Type} [LinearOrderedRing R] (c : Config) (g : Bool)
    (Q2 R2 : Nat → Nat → R) (Dy Slx Slu : Nat → R) (i : Nat) :
    (∀ j : Fin c.NX, (setStagef c false g Q2 R2 Dy Slx Slu i).1 j =
      Matrix.mulVec
        (Matrix.of (fun (a : Fin c.NX) (k : Fin c.NY) => Q2 (i * c.NX + a) k))
        (fun k : Fin c.NY => Dy (i * c.NY + k)) j + Slx j) ∧
    (∀ j : Fin c.NX, (setStagef c true g Q2 R2 Dy Slx Slu i).1 j =
      Matrix.mulVec
        (Matrix.of (fun (a : Fin c.NX) (k : Fin c.NY) => Q2 a k))
        (fun k : Fin c.NY => Dy (i * c.NY + k)) j + Slx j) ∧
    (∀ j : Fin c.NU, (setStagef c g false Q2 R2 Dy Slx Slu i).2 j =
      Matrix.mulVec
        (Matrix.of (fun (a : Fin c.NU) (k : Fin c.NY) => R2 (i * c.NU + a) k))
        (fun k : Fin c.NY => Dy (i * c.NY + k)) j + Slu j) ∧
    (∀ j : Fin c.NU, (setStagef c g true Q2 R2 Dy Slx Slu i).2 j =
      Matrix.mulVec
        (Matrix.of (fun (a : Fin c.NU) (k : Fin c.NY) => R2 a k))
        (fun k : Fin c.NY => Dy (i * c.NY + k)) j + Slu j) := by
  refine ⟨?_, ?_, ?_, ?_⟩
  · intro j
    simp only [setStagef, if_true, mulRows_eq_mulVec _ _ c.NX]
  · intro j
    simp only [setStagef, Bool.true_eq_false, if_false, mulRows_eq_mulVec _ _ c.NX,
      Nat.zero_add]
  · intro j
    simp only [setStagef, if_true, mulRows_eq_mulVec _ _ c.NU]
  · intro j
    simp only [setStagef, Bool.true_eq_false, if_false, mulRows_eq_mulVec _ _ c.NU,
      Nat.zero_add]

/-- C11: the emitted feedback routine consists, in this order, of the state
feedback `qpx[0:NX] = x0 - x[0]` (only for a fixed initial state), `Dy -= y`,
`DyN -= yN`, one `setStagef` call per node `0..N-1` writing at `qpq[i*NX]` and
`qpr[i*NU]`, `qpqf = QN2*DyN`, `qpqf += slope`, the arrival-cost statements
(when `SAC` has positive dimension), the QP solver call, `x += qpx` and
`u += qpu`; for every solver status `s` its run returns `s`. -/
theorem feedback_spec (c : Config) (o : FeedbackOptions) (sacDim : Nat)
    (status : String → Int) (s : Int) (hs : status (o.moduleName ++ "_solve") = s) :
    (setupFeedback c o sacDim).statements =
      (if c.initialStateFixed = true then
        [EmittedStatement.assign (.getRows (.member "qpx") 0 c.NX)
          (.sub (.member "x0") (.getTranspose (.getRow (.member "x") 0)))]
       else []) ++
      [.subAssign (.member "Dy") (.member "y"), .subAssign (.member "DyN") (.member "yN")] ++
      (List.range c.N).map (setStagefCall c o) ++
      [.assign (.member "qpqf") (.mul (.member "QN2") (.member "DyN")),
       .addAssign (.member "qpqf")
         (if (o.objSlxGiven || (!o.variableObjS && !adjoint o)) = true then .member "objSlx"
          else .getRows (.member "objSlx") (u32 (c.N * c.NX)) (u32 (u32 (c.N + 1) * c.NX)))] ++
      arrivalCostStatements c sacDim ++
      [.assignCall "retVal" (o.moduleName ++ "_solve"),
       .addAssign (.makeColVector (.member "x")) (.member "qpx"),
       .addAssign (.makeColVector (.member "u")) (.member "qpu")] ∧
    (∀ i, i < c.N → ∃ SlxCall SluCall,
      setStagefCall c o i = .functionCall "setStagef"
        [.getAddress (.member "qpq") (u32 (i * c.NX)) 0,
         .getAddress (.member "qpr") (u32 (i * c.NU)) 0, SlxCall, SluCall, .index i]) ∧
    (setupFeedback c o sacDim).run status =
      (some s, List.replicate c.N "setStagef" ++ [o.moduleName ++ "_solve"]) := by
  refine ⟨setupFeedback_statements c o sacDim, fun i _ => ⟨_, _, rfl⟩, ?_⟩
  unfold EmittedFunction.run
  rw [setupFeedback_statements]
  simp only [List.foldl_append, foldl_setStagefCalls, foldl_arrivalCostStatements,
    List.length_range]
  cases c.initialStateFixed <;> simp [execEmitted, setupFeedback, hs]

/-- Witness for C11: the scenario `N = 3`, `NX = 2`, `NU = 1` with a QP solver
failing with status 33. -/
theorem feedback_spec_witness :
    (setupFeedback scenarioConfig exampleOptions 0).run
        (fun callee => if callee = "acado_solve" then 33 else 0) =
      (some 33, ["setStagef", "setStagef", "setStagef", "acado_solve"]) :=
  (feedback_spec scenarioConfig exampleOptions 0
    (fun callee => if callee = "acado_solve" then 33 else 0) 33 (by decide)).2.2

/-- C17 as stated fails: the arrival-cost statements do not follow the option
`useArrivalCost`. With the option set and a fixed initial state (`SAC` not set
up) `DxAC = x[0] - xAC` is not emitted; with the option not set and a free
initial state it is emitted. -/
theorem arrivalCost_statements_ignore_option :
    fixedArrivalConfig.useArrivalCost = true ∧
    EmittedStatement.assign (.member "DxAC")
        (.sub (.getTranspose (.getRow (.member "x") 0)) (.member "xAC")) ∉
      (setupFeedback fixedArrivalConfig exampleOptions
        (getDim (setupVariables fixedArrivalConfig : VariablesSetup Int).SAC)).statements ∧
    freePlainConfig.useArrivalCost = false ∧
    EmittedStatement.assign (.member "DxAC")
        (.sub (.getTranspose (.getRow (.member "x") 0)) (.member "xAC")) ∈
      (setupFeedback freePlainConfig exampleOptions
        (getDim (setupVariables freePlainConfig : VariablesSetup Int).SAC)).statements := by
  decide

/-- C17 (amended): with `SAC` as `setupVariables` leaves it, the feedback routine
computes `DxAC = x[0] - xAC`, adds `SAC` into `Q1[0:NX]` and `SAC*DxAC` into
`qpq[0:NX]`, right before the QP solver call, when the initial state is free
(and `NX > 0`, so that `SAC` has positive dimension); when the initial state
is fixed none of the three statements is emitted. The option `useArrivalCost`
has no influence. -/
theorem arrivalCost_statements_spec {α : Type} (c : Config) (o : FeedbackOptions)
    (hNX : c.NX * c.NX < 4294967296) :
    (c.initialStateFixed = false → 0 < c.NX →
      ∃ pre, (setupFeedback c o (getDim (setupVariables c : VariablesSetup α).SAC)).statements =
        pre ++
        [.assign (.member "DxAC")
          (.sub (.getTranspose (.getRow (.member "x") 0)) (.member "xAC")),
         .addAssign (.getRows (.member "Q1") 0 c.NX) (.member "SAC"),
         .addAssign (.getRows (.member "qpq") 0 c.NX) (.mul (.member "SAC") (.member "DxAC")),
         .assignCall "retVal" (o.moduleName ++ "_solve"),
         .addAssign (.makeColVector (.member "x")) (.member "qpx"),
         .addAssign (.makeColVector (.member "u")) (.member "qpu")]) ∧
    (c.initialStateFixed = true →
      EmittedStatement.assign (.member "DxAC")
          (.sub (.getTranspose (.getRow (.member "x") 0)) (.member "xAC")) ∉
        (setupFeedback c o (getDim (setupVariables c : VariablesSetup α).SAC)).statements ∧
      EmittedStatement.addAssign (.getRows (.member "Q1") 0 c.NX) (.member "SAC") ∉
        (setupFeedback c o (getDim (setupVariables c : VariablesSetup α).SAC)).statements ∧
      EmittedStatement.addAssign (.getRows (.member "qpq") 0 c.NX)
          (.mul (.member "SAC") (.member "DxAC")) ∉
        (setupFeedback c o (getDim (setupVariables c : VariablesSetup α).SAC)).statements) ∧
    (∀ b : Bool,
      (setupFeedback { c with useArrivalCost := b } o
        (getDim (setupVariables { c with useArrivalCost := b } : VariablesSetup α).SAC)).statements =
      (setupFeedback c o (getDim (setupVariables c : VariablesSetup α).SAC)).statements) := by
  refine ⟨?_, ?_, ?_⟩
  · intro hfree hpos
    have hdim : getDim (setupVariables c : VariablesSetup α).SAC = c.NX * c.NX := by
      simp [setupVariables, hfree, getDim, ExportVariable.setup, u32_of_lt hNX]
    have hgt : c.NX * c.NX > 0 := Nat.mul_pos hpos hpos
    rw [setupFeedback_statements, hdim]
    refine ⟨[.subAssign (.member "Dy") (.member "y"),
        .subAssign (.member "DyN") (.member "yN")] ++
      (List.range c.N).map (setStagefCall c o) ++
      [.assign (.member "qpqf") (.mul (.member "QN2") (.member "DyN")),
       .addAssign (.member "qpqf")
         (if (o.objSlxGiven || (!o.variableObjS && !adjoint o)) = true then .member "objSlx"
          else .getRows (.member "objSlx") (u32 (c.N * c.NX)) (u32 (u32 (c.N + 1) * c.NX)))],
      ?_⟩
    simp only [arrivalCostStatements, if_pos hgt, hfree, Bool.false_eq_true, if_false,
      List.append_assoc, List.cons_append, List.nil_append]
  · intro hfix
    have hdim : getDim (setupVariables c : VariablesSetup α).SAC = 0 := by
      simp [setupVariables, hfix, getDim]
    rw [setupFeedback_statements, hdim]
    simp [arrivalCostStatements, hfix, setStagefCall]
  · intro b
    rfl

/-- Witness for C17 (amended): free initial state with the option set
(`arrivalConfig`), and the scenario with a fixed initial state. -/
theorem arrivalCost_statements_spec_witness :
    (∃ pre, (setupFeedback arrivalConfig exampleOptions
        (getDim (setupVariables arrivalConfig : VariablesSetup Int).SAC)).statements =
      pre ++
      [.assign (.member "DxAC")
        (.sub (.getTranspose (.getRow (.member "x") 0)) (.member "xAC")),
       .addAssign (.getRows (.member "Q1") 0 2) (.member "SAC"),
       .addAssign (.getRows (.member "qpq") 0 2) (.mul (.member "SAC") (.member "DxAC")),
       .assignCall "retVal" ("acado" ++ "_solve"),
       .addAssign (.makeColVector (.member "x")) (.member "qpx"),
       .addAssign (.makeColVector (.member "u")) (.member "qpu")]) ∧
    EmittedStatement.assign (.member "DxAC")
        (.sub (.getTranspose (.getRow (.member "x") 0)) (.member "xAC")) ∉
      (setupFeedback scenarioConfig exampleOptions
        (getDim (setupVariables scenarioConfig : VariablesSetup Int).SAC)).statements :=
  ⟨(arrivalCost_statements_spec arrivalConfig exampleOptions (by decide)).1 rfl (by decide),
   ((arrivalCost_statements_spec scenarioConfig exampleOptions (by decide)).2.1 rfl).1⟩

/-- C18 as stated fails: for the given block `givenQ1` the generator sets up the
dedicated workspace array `qpQ` (6 x 2 for `N = 3`, `NX = 2`), different from
the constant matrix, and declares it; for the block `runtimeR1`, which is not
given, `qpR` is `R1` itself. -/
theorem qpQ_dedicated_when_given :
    givenQ1.isGiven = true ∧
    (setupQPHessian scenarioConfig givenQ1 runtimeR1 runtimeS1 runtimeQN1).qpQ =
      ExportMatrix.setup "qpQ" 6 2 .REAL .ACADO_WORKSPACE ∧
    (setupQPHessian scenarioConfig givenQ1 runtimeR1 runtimeS1 runtimeQN1).qpQ ≠ givenQ1 ∧
    (setupQPHessian scenarioConfig givenQ1 runtimeR1 runtimeS1 runtimeQN1).qpQ ∈
      getDataDeclarationsHessian givenQ1 runtimeR1 runtimeS1 runtimeQN1
        (setupQPHessian scenarioConfig givenQ1 runtimeR1 runtimeS1 runtimeQN1) ∧
    runtimeR1.isGiven = false ∧
    (setupQPHessian scenarioConfig givenQ1 runtimeR1 runtimeS1 runtimeQN1).qpR = runtimeR1 := by
  decide

/-- C18 (amended): for each block `Q1`, `R1`, `S1`, `QN1` that is given, the
generator sets up a dedicated workspace array `qpQ` (N*NX x NX), `qpR`
(N*NU x NU), `qpS` (N*NX x NU), `qpQf` (NX x NX), hands it to `addDeclaration`
and fills it in `initialize` from the constant matrix; for a block that is not
given the QP quantity is the block itself and `initialize` gets no statement
for it. -/
theorem setupQPHessian_spec {R : Type} [LinearOrderedRing R] (c : Config)
    (Q1 R1 S1 QN1 : ExportMatrix R) :
    (Q1.isGiven = true →
      (setupQPHessian c Q1 R1 S1 QN1).qpQ =
        ExportMatrix.setup "qpQ" (u32 (c.N * c.NX)) c.NX .REAL .ACADO_WORKSPACE ∧
      (setupQPHessian c Q1 R1 S1 QN1).qpQ ∈
        getDataDeclarationsHessian Q1 R1 S1 QN1 (setupQPHessian c Q1 R1 S1 QN1)) ∧
    (R1.isGiven = true →
      (setupQPHessian c Q1 R1 S1 QN1).qpR =
        ExportMatrix.setup "qpR" (u32 (c.N * c.NU)) c.NU .REAL .ACADO_WORKSPACE ∧
      (setupQPHessian c Q1 R1 S1 QN1).qpR ∈
        getDataDeclarationsHessian Q1 R1 S1 QN1 (setupQPHessian c Q1 R1 S1 QN1)) ∧
    (S1.isGiven = true →
      (setupQPHessian c Q1 R1 S1 QN1).qpS =
        ExportMatrix.setup "qpS" (u32 (c.N * c.NX)) c.NU .REAL .ACADO_WORKSPACE ∧
      (setupQPHessian c Q1 R1 S1 QN1).qpS ∈
        getDataDeclarationsHessian Q1 R1 S1 QN1 (setupQPHessian c Q1 R1 S1 QN1)) ∧
    (QN1.isGiven = true →
      (setupQPHessian c Q1 R1 S1 QN1).qpQf =
        ExportMatrix.setup "qpQf" c.NX c.NX .REAL .ACADO_WORKSPACE ∧
      (setupQPHessian c Q1 R1 S1 QN1).qpQf ∈
        getDataDeclarationsHessian Q1 R1 S1 QN1 (setupQPHessian c Q1 R1 S1 QN1)) ∧
    (Q1.isGiven = false → (setupQPHessian c Q1 R1 S1 QN1).qpQ = Q1) ∧
    (R1.isGiven = false → (setupQPHessian c Q1 R1 S1 QN1).qpR = R1) ∧
    (S1.isGiven = false → (setupQPHessian c Q1 R1 S1 QN1).qpS = S1) ∧
    (QN1.isGiven = false → (setupQPHessian c Q1 R1 S1 QN1).qpQf = QN1) ∧
    (setupQPHessian c Q1 R1 S1 QN1).initializeStmts =
      (if Q1.isGiven = true then
        (List.range c.N).map (fun blk =>
          HessianInit.assignBlock (setupQPHessian c Q1 R1 S1 QN1).qpQ
            (u32 (blk * c.NX)) (u32 (u32 (blk + 1) * c.NX)) 0 c.NX Q1)
       else []) ++
      (if R1.isGiven = true then
        (List.range c.N).map (fun blk =>
          HessianInit.assignBlock (setupQPHessian c Q1 R1 S1 QN1).qpR
            (u32 (blk * c.NU)) (u32 (u32 (blk + 1) * c.NU)) 0 c.NU R1)
       else []) ++
      (if S1.isGiven = true then
        (if S1.givenIsZero = true then
          [HessianInit.assignZeros (setupQPHessian c Q1 R1 S1 QN1).qpS (u32 (c.N * c.NX)) c.NU]
         else
          (List.range c.N).map (fun blk =>
            HessianInit.assignBlock (setupQPHessian c Q1 R1 S1 QN1).qpS
              (u32 (blk * c.NX)) (u32 (u32 (blk + 1) * c.NX)) 0 c.NU S1))
       else []) ++
      (if QN1.isGiven = true then
        [HessianInit.assignWhole (setupQPHessian c Q1 R1 S1 QN1).qpQf QN1]
       else []) := by
  refine ⟨?_, ?_, ?_, ?_, ?_, ?_, ?_, ?_, ?_⟩
  · intro h
    simp [setupQPHessian, getDataDeclarationsHessian, h]
  · intro h
    simp [setupQPHessian, getDataDeclarationsHessian, h]
  · intro h
    simp [setupQPHessian, getDataDeclarationsHessian, h]
  · intro h
    simp [setupQPHessian, getDataDeclarationsHessian, h]
  · intro h
    simp [setupQPHessian, h]
  · intro h
    simp [setupQPHessian, h]
  · intro h
    simp [setupQPHessian, h]
  · intro h
    simp [setupQPHessian, h]
  · simp only [setupQPHessian, forLoop_append, List.nil_append]

/-- Witness for C18 (amended) on the scenario with `givenQ1` and run-time
blocks `R1`, `S1`, `QN1`: `initialize` copies `Q1` into the three blocks of
`qpQ` and nothing else. -/
theorem setupQPHessian_spec_witness :
    (setupQPHessian scenarioConfig givenQ1 runtimeR1 runtimeS1 runtimeQN1).qpQ =
      ExportMatrix.setup "qpQ" (u32 (3 * 2)) 2 .REAL .ACADO_WORKSPACE ∧
    (setupQPHessian scenarioConfig givenQ1 runtimeR1 runtimeS1 runtimeQN1).qpQf = runtimeQN1 :=
  ⟨((setupQPHessian_spec scenarioConfig givenQ1 runtimeR1 runtimeS1 runtimeQN1).1 rfl).1,
   (setupQPHessian_spec scenarioConfig givenQ1 runtimeR1 runtimeS1 runtimeQN1).2.2.2.2.2.2.2.1
     rfl⟩

/-- C19: when the dimensions fit in an `unsigned`, the segments of `qpLbA` and
`qpUbA` written by the emitted `evaluateConstraints` are, node after node, the
path segment of length `dimPacH` followed by the point-constraint segment of
the node, and last the terminal point segment; they are contiguous from row 0
to row `qpDimHtot` and pairwise disjoint; the group of node `i` starts at the
sum of `qpConDim[j]` over `j < i`; `qpDimHtot` is the sum of `qpConDim` and
equals `qpDimH + qpDimHN`; the blocks of `pocEvH` read when copying are those
filled when the point constraints were evaluated. -/
theorem affineSegments_spec (c : Config) (hN : c.N + 1 < 4294967296)
    (hD : 1 + c.NX + c.NU < 4294967296) (hfit : affineBoundDim c < 4294967296) :
    copySegments c = (List.range c.N).flatMap (groupSegments c) ++ terminalSegments c ∧
    Contiguous 0 (copySegments c) (setupConstraintDims c).qpDimHtot ∧
    (copySegments c).Pairwise (fun s t => s.offset + s.dim ≤ t.offset) ∧
    (∀ i, i ≤ c.N → groupStart c i =
      ((List.range i).map (fun j => (setupConstraintDims c).qpConDim.getD j 0)).sum) ∧
    (setupConstraintDims c).qpDimHtot =
      ((List.range (c.N + 1)).map
        (fun j => (setupConstraintDims c).qpConDim.getD j 0)).sum ∧
    (setupConstraintDims c).qpDimHtot =
      (setupConstraintDims c).qpDimH + (setupConstraintDims c).qpDimHN ∧
    (copySegments c).filterMap pocRow = evalPointRows c := by
  have hfit' : groupStart c c.N + terminalPointDim c < 4294967296 := by
    rw [groupStart_add_terminal_eq c hD]
    exact hfit
  have hclosed := copySegments_closed c (by omega)
  obtain ⟨hsum, htot, htot', hparts⟩ := qpConDim_sums c hN hfit'
  have hcont : Contiguous 0 (copySegments c) (setupConstraintDims c).qpDimHtot := by
    rw [hclosed, htot']
    exact contiguous_append 0 (groupStart c c.N) _ _ _ (contiguous_groups c c.N)
      (contiguous_terminalSegments c)
  exact ⟨hclosed, hcont, (contiguous_bounds _ _ _ hcont).2.2, hsum, htot, hparts,
    pocRows_eq c hN (by omega)⟩

/-- Witness for C19 on `pointConfig` (`N = 2`, `dimPacH = 1`, point constraints
of dimension 2 at node 0 and at the terminal node): four segments covering the
rows 0..6, the point segments reading `pocEvH` from the rows 0 and 2. -/
theorem affineSegments_spec_witness :
    copySegments pointConfig =
      [{ node := 0, offset := 0, dim := 1, offsetPoc := none },
       { node := 0, offset := 1, dim := 2, offsetPoc := some 0 },
       { node := 1, offset := 3, dim := 1, offsetPoc := none },
       { node := 2, offset := 4, dim := 2, offsetPoc := some 2 }] ∧
    Contiguous 0 (copySegments pointConfig) (setupConstraintDims pointConfig).qpDimHtot ∧
    (setupConstraintDims pointConfig).qpDimHtot = 6 ∧
    (copySegments pointConfig).filterMap pocRow = evalPointRows pointConfig :=
  ⟨(affineSegments_spec pointConfig (by decide) (by decide) (by decide)).1.trans (by decide),
   (affineSegments_spec pointConfig (by decide) (by decide) (by decide)).2.1,
   by decide,
   (affineSegments_spec pointConfig (by decide) (by decide) (by decide)).2.2.2.2.2.2⟩

end Acado
